import Mathlib

/-!
# libhdbpp-timescale: the storage gateway `DbConnection`

A shallow embedding of `src/DbConnection.cpp`.  The gateway's members become the fields of a
record that every operation takes and returns; what the data base answers to a transaction is
an explicit argument of the operation (a `TxReply`), and everything the gateway sends is
recorded in the `Connection` it holds.  Calls to the logger are left out.
-/

namespace hdbpp
namespace pqxx_conn

/-! ## Values crossing the boundary -/

/-- A `Tango::DevFailed` as built by `Tango::Except::throw_exception(reason, desc, origin)`. -/
structure DevFailed where
  reason : String
  desc : String
  origin : String
  deriving DecidableEq, Repr

/-- How a call of a member function ends: it returns, it throws a `Tango::DevFailed`, one of
its `assert`s does not hold (the build keeps assertions), or it does something the sources
leave undefined (a null member is dereferenced, `ColumnCache::value` is asked for an absent
key). -/
inductive Outcome (α : Type) where
  | returned (a : α)
  | raised (e : DevFailed)
  | assertFailed
  | undefined
  deriving DecidableEq, Repr

/-- A C++ `double`, carried through unchanged as its bit pattern. -/
structure Double where
  bits : Nat
  deriving DecidableEq, Repr

/-- One argument handed to `exec_prepared*`. -/
inductive Arg where
  | text (s : String)
  | int (n : Int)
  | uint (n : Nat)
  | real (x : Double)
  deriving DecidableEq, Repr

/-- One cell of a result row: its text, or `none` for SQL null. -/
abbrev Field := Option String

/-- One result row. -/
abbrev Row := List Field

/-- The `pqxx::connection` as the gateway sees it: whether it is open, the statements
registered with `prepare` (name and text, oldest first) and the statements run with
`exec_prepared*` (name and arguments, oldest first). -/
structure Connection where
  is_open : Bool
  prepared : List (String × String)
  executed : List (String × List Arg)
  deriving DecidableEq, Repr

/-- What the store does with one transaction, an input of the model.
`broken`: the `pqxx::work` could not be started, nothing is sent.
`failed`: the statement was sent and running or committing it threw a `pqxx_exception`.
`result`: the statement ran and gave these rows, and a commit, when asked for, succeeds.
`pqxx::perform` is library code, its retries are not modelled: the reply is that of the
attempt whose outcome `perform` hands on. -/
inductive TxReply where
  | broken (what : String)
  | failed (what : String)
  | result (rows : List Row)
  deriving DecidableEq, Repr

/-- What running a transaction callback gives: a value, a caught `pqxx_exception` with its
`what()` text, or undefined behaviour while the arguments were evaluated. -/
inductive TxResult (α : Type) where
  | value (a : α)
  | threw (what : String)
  | undefined
  deriving DecidableEq, Repr

/-- The `AttributeTraits` of a call, by the three codes the source casts to `unsigned int`. -/
structure AttributeTraits where
  writeType : Nat
  formatType : Nat
  type : Nat
  deriving DecidableEq, Repr

/-- The names and texts that `QueryBuilder.hpp` declares (the header is not among the
sources, so they are taken as given): the statement-name constants, the static query texts
and the three functions of the traits. -/
structure QueryBuilder where
  StoreAttribute : String
  StoreHistoryEvent : String
  StoreHistoryString : String
  StoreParameterEvent : String
  StoreErrorString : String
  FetchLastHistoryEvent : String
  storeAttributeQuery : String
  storeHistoryEventQuery : String
  storeHistoryStringQuery : String
  storeParameterEventQuery : String
  storeErrorQuery : String
  fetchLastHistoryEventQuery : String
  tableName : AttributeTraits → String
  storeDataEventErrorName : AttributeTraits → String
  storeDataEventErrorQuery : AttributeTraits → String

/-- Stands for the macro `LOCATION_INFO` of `LibUtils.hpp` (not among the sources), which
names the place of the call: here the enclosing function. -/
def LOCATION_INFO (function : String) : String := function

/-! ## The identifier cache -/

/-- Modelled from the spec: `ColumnCache<int, std::string>` (ColumnCache.hpp is not among the
sources), the IdentifierCache of section 4.3, an in-memory mapping from a key to its id.  The
entry made last stands first. -/
structure ColumnCache where
  entries : List (String × Int)
  deriving DecidableEq, Repr

namespace ColumnCache

/-- Modelled from the spec: `ColumnCache::value`, "returns the cached id; undefined/error if
absent"; `none` is the absent case. -/
def value (c : ColumnCache) (reference : String) : Option Int :=
  c.entries.lookup reference

/-- Modelled from the spec: `ColumnCache::valueExists`, "pure cache membership query; never
touches storage". -/
def valueExists (c : ColumnCache) (reference : String) : Bool :=
  (c.value reference).isSome

/-- Modelled from the spec: `ColumnCache::cacheValue`, "adds a newly created mapping"; of the
two choices the spec leaves for a key already present, this one overwrites. -/
def cacheValue (c : ColumnCache) (value : Int) (reference : String) : ColumnCache :=
  ⟨(reference, value) :: c.entries⟩

end ColumnCache

/-! ## The connection -/

namespace Connection

/-- The test `tx.prepared(name).exists()`. -/
def preparedExists (c : Connection) (name : String) : Bool :=
  c.prepared.any (fun p => p.1 == name)

/-- The call `tx.conn().prepare(name, query)`. -/
def prepare (c : Connection) (name query : String) : Connection :=
  { c with prepared := c.prepared ++ [(name, query)] }

/-- The call `tx.exec_prepared*(name, args...)`, as far as sending the statement goes. -/
def exec (c : Connection) (name : String) (args : List Arg) : Connection :=
  { c with executed := c.executed ++ [(name, args)] }

/-- The call `_conn->disconnect()`. -/
def disconnect (c : Connection) : Connection :=
  { c with is_open := false }

end Connection

/-- The rows a reply hands to the callback, or the exception it makes the callback throw. -/
def TxReply.rows (reply : TxReply) : TxResult (List Row) :=
  match reply with
  | .broken what => .threw what
  | .failed what => .threw what
  | .result rows => .value rows

/-- The step `if (!tx.prepared(name).exists()) tx.conn().prepare(name, query)`. -/
def prepareIfAbsent (c : Connection) (name query : String) : Connection :=
  if c.preparedExists name then c else c.prepare name query

/-- The common head of every transaction callback in DbConnection.cpp, run by
`pqxx::perform`: open a `pqxx::work`, prepare the statement unless it is registered, run it
with the arguments.  `args` is `none` when evaluating an argument is undefined.  Gives the
connection afterwards and the rows or the exception. -/
def transaction (c : Connection) (name query : String) (args : Option (List Arg))
    (reply : TxReply) : Connection × TxResult (List Row) :=
  match reply with
  | .broken what => (c, .threw what)
  | sent =>
    match args with
    | none => (prepareIfAbsent c name query, .undefined)
    | some as => ((prepareIfAbsent c name query).exec name as, sent.rows)

/-- The check of `exec_prepared1`: exactly one row, else `pqxx::unexpected_rows`. -/
def exec_prepared1 (r : TxResult (List Row)) : TxResult Row :=
  match r with
  | .value [row] => .value row
  | .value _ => .threw "unexpected_rows"
  | .threw what => .threw what
  | .undefined => .undefined

/-- The check of `exec_prepared0`: no row, else `pqxx::unexpected_rows`. -/
def exec_prepared0 (r : TxResult (List Row)) : TxResult Unit :=
  match r with
  | .value [] => .value ()
  | .value _ => .threw "unexpected_rows"
  | .threw what => .threw what
  | .undefined => .undefined

/-- The value of a decimal digit. -/
def digitValue (c : Char) : Option Nat :=
  if 48 ≤ c.toNat ∧ c.toNat ≤ 57 then some (c.toNat - 48) else none

/-- The number written by a list of decimal digits, after the digits already read. -/
def digitsValue : List Char → Nat → Option Nat
  | [], acc => some acc
  | c :: cs, acc =>
    match digitValue c with
    | some d => digitsValue cs (acc * 10 + d)
    | none => none

/-- The conversion `as<int>()` of libpqxx on the text of a cell: an optional minus sign and
decimal digits that fit a 32-bit `int`. -/
def textAsInt (s : String) : Option Int :=
  match s.data with
  | [] => none
  | '-' :: cs =>
    if cs = [] then none
    else (digitsValue cs 0).bind (fun n => if n ≤ 2147483648 then some (- (n : Int)) else none)
  | cs => (digitsValue cs 0).bind (fun n => if n ≤ 2147483647 then some (n : Int) else none)

/-- The expression `row.at(0).as<int>()`: the first cell must exist (`pqxx::range_error`),
must not be null and must convert (`pqxx::conversion_error`). -/
def rowAt0AsInt (row : Row) : TxResult Int :=
  match row with
  | [] => .threw "range_error"
  | none :: _ => .threw "conversion_error"
  | some s :: _ =>
    match textAsInt s with
    | some n => .value n
    | none => .threw "conversion_error"

/-- The expression `row.at(0).as<string>()`. -/
def rowAt0AsString (row : Row) : TxResult String :=
  match row with
  | [] => .threw "range_error"
  | none :: _ => .threw "conversion_error"
  | some s :: _ => .value s

/-- The id that a dimension insert hands back: `exec_prepared1`, then `row.at(0).as<int>()`. -/
def insertedId (r : TxResult (List Row)) : TxResult Int :=
  match exec_prepared1 r with
  | .value row => rowAt0AsInt row
  | .threw what => .threw what
  | .undefined => .undefined

/-! ## The gateway -/

/-- The members of `DbConnection`; `none` is a null pointer. -/
structure DbConnection where
  _conn : Option Connection
  _connected : Bool
  _conf_id_cache : Option ColumnCache
  _error_desc_id_cache : Option ColumnCache
  _event_id_cache : Option ColumnCache
  deriving DecidableEq, Repr

/-- The constructor `DbConnection::DbConnection()`: nothing is connected yet. -/
def DbConnection.new : DbConnection :=
  { _conn := none, _connected := false, _conf_id_cache := none,
    _error_desc_id_cache := none, _event_id_cache := none }

/-- Modelled from the spec: `isOpen()` (declared in DbConnection.hpp, not among the sources),
the connected flag that `connect` sets "to cache this state". -/
def isOpen (s : DbConnection) : Bool := s._connected

/-- Modelled from the spec: `isClosed()` (declared in DbConnection.hpp, not among the
sources), the opposite of `isOpen()`. -/
def isClosed (s : DbConnection) : Bool := !isOpen s

/-- The four assertions `_conn != nullptr`, `_conf_id_cache != nullptr`,
`_error_desc_id_cache != nullptr`, `_event_id_cache != nullptr`. -/
def membersSet (s : DbConnection) : Bool :=
  s._conn.isSome && s._conf_id_cache.isSome && s._error_desc_id_cache.isSome
    && s._event_id_cache.isSome

/-- The exception of `DbConnection::handlePqxxError(msg, what, query, location)`; `what` and
`query` go to the logger only. -/
def handlePqxxError (msg _what _query location : String) : DevFailed :=
  { reason := "Storage Error", desc := "The database transaction failed. " ++ msg,
    origin := location }

/-- The function `DbConnection::checkConnection(location)`. -/
def checkConnection (s : DbConnection) (location : String) : Outcome Unit :=
  if isClosed s then
    .raised
      { reason := "Connecion Error",
        desc := "Connection to database is closed. Ensure it has been opened before trying to use the connection.",
        origin := location }
  else .returned ()

/-- The function `DbConnection::checkAttributeExists(full_attr_name, location)`. -/
def checkAttributeExists (s : DbConnection) (full_attr_name location : String) : Outcome Unit :=
  match s._conf_id_cache with
  | none => .undefined
  | some conf =>
    if !conf.valueExists full_attr_name then
      .raised
        { reason := "Consistency Error",
          desc := "This attribute [" ++ full_attr_name
            ++ "] does nit exists in the database. Unable to work with this attribute until its added.",
          origin := location }
    else .returned ()

/-- What the data base answers to a connection attempt, an input of the model. -/
inductive ConnectReply where
  | opened
  | broken (what : String)
  deriving DecidableEq, Repr

/-- The function `DbConnection::connect(connect_string)`.  A new `ColumnCache` is empty. -/
def connect (s : DbConnection) (_connect_string : String) (reply : ConnectReply) :
    Outcome Unit × DbConnection :=
  let s1 : DbConnection :=
    match s._conn with
    | some c => if c.is_open then { s with _conn := some c.disconnect } else s
    | none => s
  match reply with
  | .broken _ =>
    (.raised
      { reason := "Connection Error",
        desc := "Failed to connect database. Ensure paramters are correct and database is running",
        origin := LOCATION_INFO "connect" }, s1)
  | .opened =>
    (.returned (),
      { _conn := some { is_open := true, prepared := [], executed := [] },
        _connected := true,
        _conf_id_cache := some ⟨[]⟩,
        _error_desc_id_cache := some ⟨[]⟩,
        _event_id_cache := some ⟨[]⟩ })

/-- The function `DbConnection::disconnect()`. -/
def disconnect (s : DbConnection) : Outcome Unit × DbConnection :=
  if !membersSet s then (.assertFailed, s)
  else
    match s._conn with
    | none => (.undefined, s)
    | some c => (.returned (), { s with _conn := some c.disconnect, _connected := false })

/-- The entry assertions of `storeAttribute`. -/
def storeAttribute_asserts (s : DbConnection)
    (full_attr_name control_system att_domain att_family att_member att_name : String) : Bool :=
  !full_attr_name.isEmpty && !control_system.isEmpty && !att_domain.isEmpty
    && !att_family.isEmpty && !att_member.isEmpty && !att_name.isEmpty && membersSet s

/-- The function `DbConnection::storeAttribute`. -/
def storeAttribute (qb : QueryBuilder) (s : DbConnection)
    (full_attr_name control_system att_domain att_family att_member att_name : String)
    (traits : AttributeTraits) (reply : TxReply) : Outcome Unit × DbConnection :=
  if !storeAttribute_asserts s full_attr_name control_system att_domain att_family att_member
      att_name then (.assertFailed, s)
  else
    match checkConnection s (LOCATION_INFO "storeAttribute") with
    | .raised e => (.raised e, s)
    | .assertFailed => (.assertFailed, s)
    | .undefined => (.undefined, s)
    | .returned () =>
      match s._conn, s._conf_id_cache with
      | some conn, some conf =>
        if conf.valueExists full_attr_name then
          (.raised
            { reason := "Consistency Error",
              desc := "This attribute [" ++ full_attr_name
                ++ "] already exists in the database. Unable to add it again.",
              origin := LOCATION_INFO "storeAttribute" }, s)
        else
          let t := transaction conn qb.StoreAttribute qb.storeAttributeQuery
            (some [.text full_attr_name, .text (qb.tableName traits), .text control_system,
              .text att_domain, .text att_family, .text att_member, .text att_name,
              .uint traits.type, .uint traits.formatType, .uint traits.writeType]) reply
          match insertedId t.2 with
          | .value conf_id =>
            (.returned (),
              { s with _conn := some t.1,
                       _conf_id_cache := some (conf.cacheValue conf_id full_attr_name) })
          | .threw what =>
            (.raised (handlePqxxError ("The attribute [" ++ full_attr_name ++ "] was not saved.")
              what qb.storeAttributeQuery (LOCATION_INFO "storeAttribute")),
              { s with _conn := some t.1 })
          | .undefined => (.undefined, { s with _conn := some t.1 })
      | _, _ => (.undefined, s)

/-- The function `DbConnection::storeEvent`. -/
def storeEvent (qb : QueryBuilder) (s : DbConnection) (full_attr_name event : String)
    (reply : TxReply) : Outcome Unit × DbConnection :=
  match s._conn, s._event_id_cache with
  | some conn, some events =>
    let t := transaction conn qb.StoreHistoryString qb.storeHistoryStringQuery
      (some [.text event]) reply
    match insertedId t.2 with
    | .value event_id =>
      (.returned (),
        { s with _conn := some t.1, _event_id_cache := some (events.cacheValue event_id event) })
    | .threw what =>
      (.raised (handlePqxxError
        ("The event [" ++ event ++ "] for attribute [" ++ full_attr_name ++ "] was not saved.")
        what qb.storeHistoryStringQuery (LOCATION_INFO "storeEvent")),
        { s with _conn := some t.1 })
    | .undefined => (.undefined, { s with _conn := some t.1 })
  | _, _ => (.undefined, s)

/-- The function `DbConnection::storeErrorMsg`. -/
def storeErrorMsg (qb : QueryBuilder) (s : DbConnection) (full_attr_name error_msg : String)
    (reply : TxReply) : Outcome Unit × DbConnection :=
  match s._conn, s._error_desc_id_cache with
  | some conn, some errors =>
    let t := transaction conn qb.StoreErrorString qb.storeErrorQuery
      (some [.text error_msg]) reply
    match insertedId t.2 with
    | .value error_id =>
      (.returned (),
        { s with _conn := some t.1,
                 _error_desc_id_cache := some (errors.cacheValue error_id error_msg) })
    | .threw what =>
      (.raised (handlePqxxError
        ("The error string [" ++ error_msg ++ "] for attribute [" ++ full_attr_name
          ++ "] was not saved")
        what qb.storeErrorQuery (LOCATION_INFO "storeErrorMsg")),
        { s with _conn := some t.1 })
    | .undefined => (.undefined, { s with _conn := some t.1 })
  | _, _ => (.undefined, s)

/-- The entry assertions of `storeHistoryEvent`. -/
def storeHistoryEvent_asserts (s : DbConnection) (full_attr_name event : String) : Bool :=
  !full_attr_name.isEmpty && !event.isEmpty && membersSet s

/-- The last part of `storeHistoryEvent`: the transaction that inserts the history fact. -/
def storeHistoryEvent_insert (qb : QueryBuilder) (s : DbConnection)
    (full_attr_name event : String) (reply : TxReply) : Outcome Unit × DbConnection :=
  match s._conn, s._conf_id_cache with
  | some conn, some conf =>
    let t := transaction conn qb.StoreHistoryEvent qb.storeHistoryEventQuery
      ((conf.value full_attr_name).map (fun id => [.int id, .text event])) reply
    match exec_prepared0 t.2 with
    | .value () => (.returned (), { s with _conn := some t.1 })
    | .threw what =>
      (.raised (handlePqxxError
        ("The attribute [" ++ full_attr_name ++ "] event [" ++ event ++ "] was not saved.")
        what qb.storeHistoryEventQuery (LOCATION_INFO "storeHistoryEvent")),
        { s with _conn := some t.1 })
    | .undefined => (.undefined, { s with _conn := some t.1 })
  | _, _ => (.undefined, s)

/-- The function `DbConnection::storeHistoryEvent`; `event_reply` answers the transaction of
`storeEvent` when that is called, `reply` the insert of the history fact. -/
def storeHistoryEvent (qb : QueryBuilder) (s : DbConnection) (full_attr_name event : String)
    (event_reply reply : TxReply) : Outcome Unit × DbConnection :=
  if !storeHistoryEvent_asserts s full_attr_name event then (.assertFailed, s)
  else
    match checkConnection s (LOCATION_INFO "storeHistoryEvent") with
    | .raised e => (.raised e, s)
    | .assertFailed => (.assertFailed, s)
    | .undefined => (.undefined, s)
    | .returned () =>
      match checkAttributeExists s full_attr_name (LOCATION_INFO "storeHistoryEvent") with
      | .raised e => (.raised e, s)
      | .assertFailed => (.assertFailed, s)
      | .undefined => (.undefined, s)
      | .returned () =>
        match s._event_id_cache with
        | none => (.undefined, s)
        | some events =>
          let r1 : Outcome Unit × DbConnection :=
            if !events.valueExists event then storeEvent qb s full_attr_name event event_reply
            else (.returned (), s)
          match r1.1 with
          | .raised e => (.raised e, r1.2)
          | .assertFailed => (.assertFailed, r1.2)
          | .undefined => (.undefined, r1.2)
          | .returned () =>
            match r1.2._event_id_cache with
            | none => (.undefined, r1.2)
            | some events1 =>
              if !events1.valueExists event then
                (.raised
                  { reason := "Consistency Error",
                    desc := "The event [" ++ event
                      ++ "] is missing in both the cache and database, this is an unrecoverable error.",
                    origin := LOCATION_INFO "storeHistoryEvent" }, r1.2)
              else storeHistoryEvent_insert qb r1.2 full_attr_name event reply

/-- The ten strings that `storeParameterEvent` takes. -/
structure ParameterStrings where
  full_attr_name : String
  label : String
  unit : String
  standard_unit : String
  display_unit : String
  format : String
  archive_rel_change : String
  archive_abs_change : String
  archive_period : String
  description : String
  deriving DecidableEq, Repr

/-- The entry assertions of `storeParameterEvent`. -/
def storeParameterEvent_asserts (s : DbConnection) (p : ParameterStrings) : Bool :=
  !p.full_attr_name.isEmpty && !p.label.isEmpty && !p.unit.isEmpty && !p.standard_unit.isEmpty
    && !p.display_unit.isEmpty && !p.format.isEmpty && !p.archive_rel_change.isEmpty
    && !p.archive_abs_change.isEmpty && !p.archive_period.isEmpty && !p.description.isEmpty
    && membersSet s

/-- The function `DbConnection::storeParameterEvent`; its string arguments are gathered in
`p`. -/
def storeParameterEvent (qb : QueryBuilder) (s : DbConnection) (p : ParameterStrings)
    (event_time : Double) (reply : TxReply) : Outcome Unit × DbConnection :=
  if !storeParameterEvent_asserts s p then (.assertFailed, s)
  else
    match checkConnection s (LOCATION_INFO "storeParameterEvent") with
    | .raised e => (.raised e, s)
    | .assertFailed => (.assertFailed, s)
    | .undefined => (.undefined, s)
    | .returned () =>
      match checkAttributeExists s p.full_attr_name (LOCATION_INFO "storeParameterEvent") with
      | .raised e => (.raised e, s)
      | .assertFailed => (.assertFailed, s)
      | .undefined => (.undefined, s)
      | .returned () =>
        match s._conn, s._conf_id_cache with
        | some conn, some conf =>
          let t := transaction conn qb.StoreParameterEvent qb.storeParameterEventQuery
            ((conf.value p.full_attr_name).map (fun id =>
              [.int id, .real event_time, .text p.label, .text p.unit, .text p.standard_unit,
                .text p.display_unit, .text p.format, .text p.archive_rel_change,
                .text p.archive_abs_change, .text p.archive_period, .text p.description])) reply
          match exec_prepared0 t.2 with
          | .value () => (.returned (), { s with _conn := some t.1 })
          | .threw what =>
            (.raised (handlePqxxError
              ("The attribute [" ++ p.full_attr_name ++ "] parameter event was not saved.")
              what qb.storeParameterEventQuery (LOCATION_INFO "storeParameterEvent")),
              { s with _conn := some t.1 })
          | .undefined => (.undefined, { s with _conn := some t.1 })
        | _, _ => (.undefined, s)

/-- The entry assertions of `storeDataEventError`. -/
def storeDataEventError_asserts (s : DbConnection) (full_attr_name error_msg : String) : Bool :=
  !full_attr_name.isEmpty && !error_msg.isEmpty && membersSet s

/-- The last part of `storeDataEventError`: the transaction that inserts the data fact. -/
def storeDataEventError_insert (qb : QueryBuilder) (s : DbConnection) (full_attr_name : String)
    (event_time : Double) (quality : Int) (error_msg : String) (traits : AttributeTraits)
    (reply : TxReply) : Outcome Unit × DbConnection :=
  match s._conn, s._conf_id_cache, s._error_desc_id_cache with
  | some conn, some conf, some errors =>
    let t := transaction conn (qb.storeDataEventErrorName traits)
      (qb.storeDataEventErrorQuery traits)
      ((errors.value error_msg).bind (fun error_id =>
        (conf.value full_attr_name).map (fun id =>
          [.int id, .real event_time, .int quality, .int error_id]))) reply
    match exec_prepared0 t.2 with
    | .value () => (.returned (), { s with _conn := some t.1 })
    | .threw what =>
      (.raised (handlePqxxError
        ("The attribute [" ++ full_attr_name ++ "] error message [" ++ error_msg
          ++ "] was not saved.")
        what (qb.storeDataEventErrorName traits) (LOCATION_INFO "storeDataEventError")),
        { s with _conn := some t.1 })
    | .undefined => (.undefined, { s with _conn := some t.1 })
  | _, _, _ => (.undefined, s)

/-- The function `DbConnection::storeDataEventError`; `error_reply` answers the transaction of
`storeErrorMsg` when that is called, `reply` the insert of the data fact. -/
def storeDataEventError (qb : QueryBuilder) (s : DbConnection) (full_attr_name : String)
    (event_time : Double) (quality : Int) (error_msg : String) (traits : AttributeTraits)
    (error_reply reply : TxReply) : Outcome Unit × DbConnection :=
  if !storeDataEventError_asserts s full_attr_name error_msg then (.assertFailed, s)
  else
    match checkConnection s (LOCATION_INFO "storeDataEventError") with
    | .raised e => (.raised e, s)
    | .assertFailed => (.assertFailed, s)
    | .undefined => (.undefined, s)
    | .returned () =>
      match checkAttributeExists s full_attr_name (LOCATION_INFO "storeDataEventError") with
      | .raised e => (.raised e, s)
      | .assertFailed => (.assertFailed, s)
      | .undefined => (.undefined, s)
      | .returned () =>
        match s._error_desc_id_cache with
        | none => (.undefined, s)
        | some errors =>
          let r1 : Outcome Unit × DbConnection :=
            if !errors.valueExists error_msg then
              storeErrorMsg qb s full_attr_name error_msg error_reply
            else (.returned (), s)
          match r1.1 with
          | .raised e => (.raised e, r1.2)
          | .assertFailed => (.assertFailed, r1.2)
          | .undefined => (.undefined, r1.2)
          | .returned () =>
            match r1.2._error_desc_id_cache with
            | none => (.undefined, r1.2)
            | some errors1 =>
              if !errors1.valueExists error_msg then
                (.raised
                  { reason := "Consistency Error",
                    desc := "The error message [" ++ error_msg
                      ++ "] is missing in both the cache and database, this is an unrecoverable error.",
                    origin := LOCATION_INFO "storeDataEventError" }, r1.2)
              else
                storeDataEventError_insert qb r1.2 full_attr_name event_time quality error_msg
                  traits reply

/-- The entry assertions of `fetchLastHistoryEvent`. -/
def fetchLastHistoryEvent_asserts (s : DbConnection) (full_attr_name : String) : Bool :=
  !full_attr_name.isEmpty && membersSet s

/-- The function `DbConnection::fetchLastHistoryEvent`. -/
def fetchLastHistoryEvent (qb : QueryBuilder) (s : DbConnection) (full_attr_name : String)
    (reply : TxReply) : Outcome String × DbConnection :=
  if !fetchLastHistoryEvent_asserts s full_attr_name then (.assertFailed, s)
  else
    match checkConnection s (LOCATION_INFO "fetchLastHistoryEvent") with
    | .raised e => (.raised e, s)
    | .assertFailed => (.assertFailed, s)
    | .undefined => (.undefined, s)
    | .returned () =>
      match checkAttributeExists s full_attr_name (LOCATION_INFO "fetchLastHistoryEvent") with
      | .raised e => (.raised e, s)
      | .assertFailed => (.assertFailed, s)
      | .undefined => (.undefined, s)
      | .returned () =>
        match s._conn, s._conf_id_cache with
        | some conn, some conf =>
          let t := transaction conn qb.FetchLastHistoryEvent qb.fetchLastHistoryEventQuery
            ((conf.value full_attr_name).map (fun id => [.int id])) reply
          let last_event : TxResult String :=
            match t.2 with
            | .value result =>
              match result with
              | [row] => rowAt0AsString row
              | _ => .value ""
            | .threw what => .threw what
            | .undefined => .undefined
          match last_event with
          | .value ev => (.returned ev, { s with _conn := some t.1 })
          | .threw what =>
            (.raised (handlePqxxError
              ("Can not return last event for attribute [" ++ full_attr_name ++ "].")
              what qb.fetchLastHistoryEventQuery (LOCATION_INFO "fetchLastHistoryEvent")),
              { s with _conn := some t.1 })
          | .undefined => (.undefined, { s with _conn := some t.1 })
        | _, _ => (.undefined, s)

/-- Modelled from the spec: `fetchAttributeArchived(identity)` (called by the tests, its
definition is not among the sources): after the connectivity check that all operations make
first, "true iff the identity exists in the attribute cache/catalog". -/
def fetchAttributeArchived (s : DbConnection) (full_attr_name : String) :
    Outcome Bool × DbConnection :=
  match checkConnection s (LOCATION_INFO "fetchAttributeArchived") with
  | .raised e => (.raised e, s)
  | .assertFailed => (.assertFailed, s)
  | .undefined => (.undefined, s)
  | .returned () =>
    match s._conf_id_cache with
    | none => (.undefined, s)
    | some conf => (.returned (conf.valueExists full_attr_name), s)

/-! ## States and samples used in the statements -/

/-- A gateway whose four members are set: the state after a `connect` that succeeded, with
the connected flag as given. -/
def gateway (connected : Bool) (conn : Connection) (conf errors events : ColumnCache) :
    DbConnection :=
  { _conn := some conn, _connected := connected, _conf_id_cache := some conf,
    _error_desc_id_cache := some errors, _event_id_cache := some events }

/-- A sample `QueryBuilder`: every statement is named after its constant. -/
def sampleQueryBuilder : QueryBuilder :=
  { StoreAttribute := "StoreAttribute"
    StoreHistoryEvent := "StoreHistoryEvent"
    StoreHistoryString := "StoreHistoryString"
    StoreParameterEvent := "StoreParameterEvent"
    StoreErrorString := "StoreErrorString"
    FetchLastHistoryEvent := "FetchLastHistoryEvent"
    storeAttributeQuery := "storeAttributeQuery"
    storeHistoryEventQuery := "storeHistoryEventQuery"
    storeHistoryStringQuery := "storeHistoryStringQuery"
    storeParameterEventQuery := "storeParameterEventQuery"
    storeErrorQuery := "storeErrorQuery"
    fetchLastHistoryEventQuery := "fetchLastHistoryEventQuery"
    tableName := fun _ => "att_scalar_devdouble_ro"
    storeDataEventErrorName := fun _ => "StoreDataEventError"
    storeDataEventErrorQuery := fun _ => "storeDataEventErrorQuery" }

/-- A sample connection: open, nothing prepared, nothing run. -/
def sampleConnection : Connection := { is_open := true, prepared := [], executed := [] }

/-- A sample parameter set for attribute `a`. -/
def sampleParameters (a : String) : ParameterStrings :=
  { full_attr_name := a, label := "l", unit := "u", standard_unit := "su", display_unit := "du",
    format := "f", archive_rel_change := "r", archive_abs_change := "a", archive_period := "p",
    description := "d" }

/-- The statements run so far on the connection the gateway holds. -/
def sent (s : DbConnection) : List (String × List Arg) :=
  match s._conn with
  | some c => c.executed
  | none => []

/-- The description of the error that `checkConnection` raises. -/
def closedDescription : String :=
  "Connection to database is closed. Ensure it has been opened before trying to use the connection."

/-- The arguments of the attribute insert. -/
def storeAttributeArgs (qb : QueryBuilder) (a cs dom fam mem nm : String)
    (traits : AttributeTraits) : List Arg :=
  [.text a, .text (qb.tableName traits), .text cs, .text dom, .text fam, .text mem, .text nm,
    .uint traits.type, .uint traits.formatType, .uint traits.writeType]

/-- The Consistency Error of `checkAttributeExists`. -/
def unknownAttributeError (full_attr_name location : String) : DevFailed :=
  { reason := "Consistency Error",
    desc := "This attribute [" ++ full_attr_name
      ++ "] does nit exists in the database. Unable to work with this attribute until its added.",
    origin := location }

/-- The arguments of the parameter insert. -/
def storeParameterEventArgs (id : Int) (time : Double) (p : ParameterStrings) : List Arg :=
  [.int id, .real time, .text p.label, .text p.unit, .text p.standard_unit,
    .text p.display_unit, .text p.format, .text p.archive_rel_change,
    .text p.archive_abs_change, .text p.archive_period, .text p.description]

/-- The value that the callback of `fetchLastHistoryEvent` gives for the rows of a reply. -/
def lastEventOf (r : TxResult (List Row)) : TxResult String :=
  match r with
  | .value result =>
    match result with
    | [row] => rowAt0AsString row
    | _ => .value ""
  | .threw what => .threw what
  | .undefined => .undefined

/-- The three caches of a gateway: attributes, error strings, event strings. -/
def cachesOf (s : DbConnection) : Option ColumnCache × Option ColumnCache × Option ColumnCache :=
  (s._conf_id_cache, s._error_desc_id_cache, s._event_id_cache)

/-- One call on the gateway other than `connect`, with its arguments and the replies of the
store. -/
inductive Call where
  | disconnect
  | storeAttribute (a cs dom fam mem nm : String) (traits : AttributeTraits) (reply : TxReply)
  | storeHistoryEvent (a event : String) (event_reply reply : TxReply)
  | storeParameterEvent (p : ParameterStrings) (time : Double) (reply : TxReply)
  | storeDataEventError (a : String) (time : Double) (quality : Int) (msg : String)
      (traits : AttributeTraits) (error_reply reply : TxReply)
  | fetchLastHistoryEvent (a : String) (reply : TxReply)
  | fetchAttributeArchived (a : String)

/-- The gateway after one call, however the call ends. -/
def Call.after (qb : QueryBuilder) (s : DbConnection) : Call → DbConnection
  | .disconnect => (pqxx_conn.disconnect s).2
  | .storeAttribute a cs dom fam mem nm traits reply =>
    (pqxx_conn.storeAttribute qb s a cs dom fam mem nm traits reply).2
  | .storeHistoryEvent a event event_reply reply =>
    (pqxx_conn.storeHistoryEvent qb s a event event_reply reply).2
  | .storeParameterEvent p time reply => (pqxx_conn.storeParameterEvent qb s p time reply).2
  | .storeDataEventError a time quality msg traits error_reply reply =>
    (pqxx_conn.storeDataEventError qb s a time quality msg traits error_reply reply).2
  | .fetchLastHistoryEvent a reply => (pqxx_conn.fetchLastHistoryEvent qb s a reply).2
  | .fetchAttributeArchived a => (pqxx_conn.fetchAttributeArchived s a).2

/-- The gateway after a sequence of calls, none of them `connect`. -/
def afterCalls (qb : QueryBuilder) (s : DbConnection) (calls : List Call) : DbConnection :=
  calls.foldl (Call.after qb) s

/-- A cache is as before, or it is the cache before with one `cacheValue` for a key that was
absent. -/
def grownBy (before after : Option ColumnCache) : Prop :=
  after = before
  ∨ ∃ c id key, before = some c ∧ c.valueExists key = false ∧ after = some (c.cacheValue id key)

/-- The id a cache that may be null holds for a key. -/
def cachedId (cache : Option ColumnCache) (key : String) : Option Int :=
  match cache with
  | some c => c.value key
  | none => none

/-- What one call does to the three caches. -/
def cachesGrown (s t : DbConnection) : Prop :=
  grownBy s._conf_id_cache t._conf_id_cache
  ∧ grownBy s._error_desc_id_cache t._error_desc_id_cache
  ∧ grownBy s._event_id_cache t._event_id_cache

/-- The Storage Error that `handlePqxxError` throws for the message `msg` at `location`. -/
def storageError (msg location : String) : DevFailed :=
  { reason := "Storage Error", desc := "The database transaction failed. " ++ msg,
    origin := location }

/-- One call on the gateway, `connect` included. -/
inductive Step where
  | connect (connect_string : String) (reply : ConnectReply)
  | call (c : Call)

/-- The gateway after one step, however it ends. -/
def Step.after (qb : QueryBuilder) (s : DbConnection) : Step → DbConnection
  | .connect connect_string reply => (pqxx_conn.connect s connect_string reply).2
  | .call c => c.after qb s

/-- The gateway after a sequence of steps. -/
def afterSteps (qb : QueryBuilder) (s : DbConnection) (steps : List Step) : DbConnection :=
  steps.foldl (Step.after qb) s

/-- The names registered on a connection, one for every `prepare` call, oldest first. -/
def Connection.preparedNames (c : Connection) : List String :=
  c.prepared.map (fun p => p.1)

/-- On this connection no name was prepared twice, and every statement that was run is
registered. -/
def preparedOnce (c : Connection) : Prop :=
  c.preparedNames.Nodup ∧ ∀ e ∈ c.executed, e.1 ∈ c.preparedNames

/-- The connection a gateway holds is as before, or it is the one before after one
transaction. -/
def connStepped (before after : Option Connection) : Prop :=
  after = before
  ∨ ∃ c name query args reply,
      before = some c ∧ after = some (transaction c name query args reply).1

/-- The connection a gateway holds after a call: reached from the one before by at most two
transactions. -/
def connReached (before after : Option Connection) : Prop :=
  ∃ mid, connStepped before mid ∧ connStepped mid after

/-- Modelled from the spec: one row of the history table of the store (the data base and the
text of `QueryBuilder::fetchLastHistoryEventQuery` are not among the sources), a HistoryEntry
with the id of its attribute and the event name of the EventDescription it refers to. -/
structure HistoryRow where
  att_conf_id : Int
  event : String
  deriving DecidableEq, Repr

/-- The statements that a call added to the statements run on the connection: those of
`after` that come behind the ones of `before`. -/
def newlySent (before after : List (String × List Arg)) : List (String × List Arg) :=
  after.drop before.length

/-- Modelled from the spec: the HistoryEntry row that the store inserts when it runs a
statement (the data base and the text of `QueryBuilder::storeHistoryEventQuery` are not among
the sources): the history insert, whose arguments are the id of the attribute and the event
name, "inserts one HistoryEntry row"; no other statement inserts one. -/
def historyInserted (qb : QueryBuilder) (statement : String × List Arg) : Option HistoryRow :=
  if statement.1 = qb.StoreHistoryEvent then
    match statement.2 with
    | [.int id, .text event] => some { att_conf_id := id, event := event }
    | _ => none
  else none

/-- Modelled from the spec: the history table, oldest row first, after a call of
`storeHistoryEvent` (the data base is not among the sources).  The table gets the rows of the
history inserts that the call sent, read off the statements run on the connection, when the
store ran them without error: `reply`, its answer to the history insert, lets
`exec_prepared0` pass, so that the transaction is committed.  Otherwise the table is as it
was. -/
def historyAfterStore (qb : QueryBuilder) (s : DbConnection) (full_attr_name event : String)
    (event_reply reply : TxReply) (table : List HistoryRow) : List HistoryRow :=
  match exec_prepared0 reply.rows with
  | .value () =>
    table ++ (newlySent (sent s)
      (sent (storeHistoryEvent qb s full_attr_name event event_reply reply).2)).filterMap
        (historyInserted qb)
  | _ => table

/-- Modelled from the spec: what the store answers to the last-history query for an attribute
id (the text of `QueryBuilder::fetchLastHistoryEventQuery` is not among the sources): "the
most recent HistoryEntry's event name ordered by insertion/time, or an empty result". -/
def lastHistoryReply (table : List HistoryRow) (id : Int) : TxReply :=
  match (table.filter (fun row => row.att_conf_id = id)).getLast? with
  | some row => .result [[some row.event]]
  | none => .result []

/-- Modelled from the spec: what the store answers to a statement that reads the history: to
the last-history query, for the attribute id that is its argument, the most recent row of
that attribute; it refuses every other statement. -/
def lastHistoryAnswer (qb : QueryBuilder) (table : List HistoryRow)
    (statement : String × List Arg) : TxReply :=
  if statement.1 = qb.FetchLastHistoryEvent then
    match statement.2 with
    | [.int id] => lastHistoryReply table id
    | _ => .failed "wrong arguments"
  else .failed "not the last-history query"

/-! ## The vector conversions of PqxxExtension.hpp -/

/-- A `std::string` or a C string, as its characters. -/
abbrev Text := List Char

/-- How a conversion ends: with a value, with a pqxx exception, or in undefined behaviour (a
write past the end of the vector). -/
inductive Converted (α : Type) where
  | value (a : α)
  | threw (what : String)
  | undefined
  deriving DecidableEq, Repr

/-- The library function `pqxx::separated_list(sep, begin, end)` over the texts of the
elements: the first text, then for every further element the separator and its text. -/
def separated_list (sep : Text) : List Text → Text
  | [] => []
  | [x] => x
  | x :: y :: rest => x ++ sep ++ separated_list sep (y :: rest)

/-- The conversion `string_traits<std::vector<T>>::to_string`; `elem_to_string` is the
library's `to_string` of the element type. -/
def string_traits_vector.to_string {T : Type} (elem_to_string : T → Text) (value : List T) :
    Text :=
  if value.isEmpty then []
  else ['{'] ++ separated_list [','] (value.map elem_to_string) ++ ['}']

/-- The conversion `string_traits<std::vector<std::string>>::to_string`: the text of a
`std::string` is the string itself. -/
def string_traits_vector_string.to_string (value : List Text) : Text :=
  ['{'] ++ separated_list [','] value ++ ['}']

/-- The library conversion `string_traits<bool>::to_string`. -/
def bool_to_string (b : Bool) : Text :=
  if b then "true".toList else "false".toList

/-- The conversion `string_traits<std::vector<bool>>::to_string`. -/
def string_traits_vector_bool.to_string (value : List Bool) : Text :=
  if value.isEmpty then []
  else ['{'] ++ separated_list [','] (value.map bool_to_string) ++ ['}']

/-- The decimal digit with value `d`, for `d` below ten. -/
def digitChar (d : Nat) : Char := Char.ofNat (48 + d)

/-- The decimal digits of `n` put before `acc`; `fuel` bounds the number of digits. -/
def natTextAux : Nat → Nat → Text → Text
  | 0, _, acc => acc
  | fuel + 1, n, acc =>
    if n < 10 then digitChar n :: acc
    else natTextAux fuel (n / 10) (digitChar (n % 10) :: acc)

/-- The library conversion `to_string` of an unsigned integer type: its decimal digits. -/
def nat_to_string (n : Nat) : Text := natTextAux (n + 1) n []

/-- The library conversion `to_string` of a signed integer type: a minus sign for a negative
number, then the decimal digits. -/
def int_to_string (n : Int) : Text :=
  if n < 0 then '-' :: nat_to_string n.natAbs else nat_to_string n.natAbs

/-- The first index from `i` on, counting the head of `l` as index `i`, whose character
satisfies `p`. -/
def firstIndex (p : Char → Bool) : Text → Nat → Option Nat
  | [], _ => none
  | c :: cs, i => if p c then some i else firstIndex p cs (i + 1)

/-- The call `in.find_first_not_of(c, pos)`; `none` is `std::string::npos`. -/
def find_first_not_of (s : Text) (c : Char) (pos : Option Nat) : Option Nat :=
  match pos with
  | none => none
  | some p => firstIndex (fun x => x != c) (s.drop p) p

/-- The call `in.find_first_of(c, pos)`; `none` is `std::string::npos`. -/
def find_first_of (s : Text) (c : Char) (pos : Option Nat) : Option Nat :=
  match pos with
  | none => none
  | some p => firstIndex (fun x => x == c) (s.drop p) p

/-- The call `in.substr(comma, next_comma - comma)`, with `next_comma` possibly `npos`. -/
def substr (s : Text) (comma : Nat) (next_comma : Option Nat) : Text :=
  match next_comma with
  | none => s.drop comma
  | some n => (s.drop comma).take (n - comma)

/-- The check `str[0] != '{' || str[strlen(str) - 1] != '}'` passes. -/
def bracesOk (str : Text) : Bool :=
  str.head? == some '{' && str.getLast? == some '}'

/-- The text between the braces: `std::string in(str + 1, str + (strlen(str) - 1))`. -/
def innerText (str : Text) : Text := (str.drop 1).dropLast

/-- The loop of `string_traits<std::vector<T>>::from_string` over the inner text `inp`, from
the scan position `comma` with `element` fields written into `value`.  `fuel` bounds the
number of times the loop condition is evaluated; `none` means it ran out. -/
def string_traits_vector.from_string_loop {T : Type} (elem_from_string : Text → Converted T)
    (inp : Text) : Nat → Option Nat → Nat → List T → Option (Converted (List T))
  | 0, _, _, _ => none
  | fuel + 1, comma, element, value =>
    match find_first_not_of inp ',' comma with
    | none => some (.value value)
    | some start =>
      if element < value.length then
        match elem_from_string (substr inp start (find_first_of inp ',' (some start))) with
        | .value x =>
          string_traits_vector.from_string_loop elem_from_string inp fuel
            (find_first_of inp ',' (some start)) (element + 1) (value.set element x)
        | .threw what => some (.threw what)
        | .undefined => some .undefined
      else some .undefined

/-- The conversion `string_traits<std::vector<T>>::from_string`; `elem_from_string` is the
library's `from_string` of the element type, `dflt` the value a resized vector is filled
with, `str = none` a null pointer.  The loop gets the length of the inner text plus one as
fuel. -/
def string_traits_vector.from_string {T : Type} (elem_from_string : Text → Converted T)
    (dflt : T) (str : Option Text) : Option (Converted (List T)) :=
  match str with
  | none => some (.threw "null conversion")
  | some str =>
    if !bracesOk str then some (.threw "Invalid array format")
    else
      string_traits_vector.from_string_loop elem_from_string (innerText str)
        ((innerText str).length + 1) (some 0) 0
        (List.replicate ((innerText str).count ',' + 1) dflt)

/-- The loop of `string_traits<std::vector<bool>>::from_string`, which pushes every field
onto the end of `value`. -/
def string_traits_vector_bool.from_string_loop (elem_from_string : Text → Converted Bool)
    (inp : Text) : Nat → Option Nat → List Bool → Option (Converted (List Bool))
  | 0, _, _ => none
  | fuel + 1, comma, value =>
    match find_first_not_of inp ',' comma with
    | none => some (.value value)
    | some start =>
      match elem_from_string (substr inp start (find_first_of inp ',' (some start))) with
      | .value field =>
        string_traits_vector_bool.from_string_loop elem_from_string inp fuel
          (find_first_of inp ',' (some start)) (value ++ [field])
      | .threw what => some (.threw what)
      | .undefined => some .undefined

/-- The conversion `string_traits<std::vector<bool>>::from_string`; `elem_from_string` is the
library's `string_traits<bool>::from_string`. -/
def string_traits_vector_bool.from_string (elem_from_string : Text → Converted Bool)
    (str : Option Text) : Option (Converted (List Bool)) :=
  match str with
  | none => some (.threw "null conversion")
  | some str =>
    if !bracesOk str then some (.threw "Invalid array format")
    else
      string_traits_vector_bool.from_string_loop elem_from_string (innerText str)
        ((innerText str).length + 1) (some 0) []

/-- Modelled from the spec: the value column that `storeDataEvent` writes for a read or a
write sequence (`storeDataEvent` is called by the tests, its definition is not among the
sources): a "DataPoint row with optional-null value columns when the corresponding value is
empty/absent", and the encoding of the sequence otherwise; `none` is SQL null. -/
def storeDataEvent_column {T : Type} (encode : List T → Text) (value : Option (List T)) :
    Option Text :=
  match value with
  | none => none
  | some v => if v.isEmpty then none else some (encode v)

/-- A sample element decoder for integers: the library's `from_string`, as far as the
samples need it. -/
def sampleIntFromString (s : Text) : Converted Int :=
  match textAsInt (String.mk s) with
  | some n => .value n
  | none => .threw "conversion_error"

/-- A sample element decoder for bools: the texts "true" and "false". -/
def sampleBoolFromString (s : Text) : Converted Bool :=
  if s = "true".toList then .value true
  else if s = "false".toList then .value false
  else .threw "argument_error"

/-- The texts of the further elements of a vector, each after its separating comma. -/
def restText {T : Type} (enc : T → Text) : List T → Text
  | [] => []
  | y :: ys => ',' :: (enc y ++ restText enc ys)

/-- Whether the connection object that the gateway holds is open, `_conn->is_open()`; a
gateway that holds none has no open connection. -/
def heldConnectionOpen (s : DbConnection) : Bool :=
  match s._conn with
  | some c => c.is_open
  | none => false

/-- The error of the second existence check of `storeHistoryEvent`. -/
def missingEventError (event : String) : DevFailed :=
  { reason := "Consistency Error",
    desc := "The event [" ++ event
      ++ "] is missing in both the cache and database, this is an unrecoverable error.",
    origin := LOCATION_INFO "storeHistoryEvent" }

/-- The error of the second existence check of `storeDataEventError`. -/
def missingErrorMsgError (error_msg : String) : DevFailed :=
  { reason := "Consistency Error",
    desc := "The error message [" ++ error_msg
      ++ "] is missing in both the cache and database, this is an unrecoverable error.",
    origin := LOCATION_INFO "storeDataEventError" }

/-- The non-empty comma-separated fields of a text, in order: the text is split at every
',' and the empty pieces are left out. -/
def fieldsOf (inp : Text) : List Text :=
  (inp.splitOn ',').filter (fun f => !f.isEmpty)

/-- The elements that the element decoder gives for a list of fields, in order; the first
field it rejects ends the conversion. -/
def parseFields {T : Type} (elem_from_string : Text → Converted T) :
    List Text → Converted (List T)
  | [] => .value []
  | f :: fs =>
    match elem_from_string f with
    | .value x =>
      match parseFields elem_from_string fs with
      | .value xs => .value (x :: xs)
      | .threw what => .threw what
      | .undefined => .undefined
    | .threw what => .threw what
    | .undefined => .undefined

/-- The outcome of a conversion with a function applied to its value. -/
def Converted.map {α β : Type} (g : α → β) : Converted α → Converted β
  | .value a => .value (g a)
  | .threw what => .threw what
  | .undefined => .undefined

/-! ## Lemmas on the building blocks -/

theorem isEmpty_eq_false {a : String} (h : a ≠ "") : a.isEmpty = false := by
  cases hb : a.isEmpty
  · rfl
  · exact absurd ((String.isEmpty_iff a).mp hb) h

theorem ne_empty_of_isEmpty {a : String} (h : a.isEmpty = false) : a ≠ "" := by
  intro he
  rw [he] at h
  exact absurd h (by decide)

theorem checkConnection_closed (s : DbConnection) (loc : String) (h : isClosed s = true) :
    checkConnection s loc
      = .raised { reason := "Connecion Error", desc := closedDescription, origin := loc } := by
  simp [checkConnection, h, closedDescription]

theorem checkConnection_open (s : DbConnection) (loc : String) (h : isOpen s = true) :
    checkConnection s loc = .returned () := by
  simp [checkConnection, isClosed, h]

theorem transaction_result (c : Connection) (name query : String) (as : List Arg)
    (reply : TxReply) : (transaction c name query (some as) reply).2 = reply.rows := by
  cases reply <;> rfl

theorem prepareIfAbsent_executed (c : Connection) (name query : String) :
    (prepareIfAbsent c name query).executed = c.executed := by
  unfold prepareIfAbsent Connection.prepare
  split <;> rfl

namespace ColumnCache

theorem value_cacheValue_self (c : ColumnCache) (id : Int) (key : String) :
    (c.cacheValue id key).value key = some id := by
  simp [cacheValue, value, List.lookup]

theorem valueExists_cacheValue_self (c : ColumnCache) (id : Int) (key : String) :
    (c.cacheValue id key).valueExists key = true := by
  simp [valueExists, value_cacheValue_self]

theorem value_cacheValue_of_absent (c : ColumnCache) (id : Int) (key other : String)
    (v : Int) (habsent : c.valueExists key = false) (h : c.value other = some v) :
    (c.cacheValue id key).value other = some v := by
  have hne : (other == key) = false := by
    cases hb : (other == key)
    · rfl
    · have : other = key := by simpa using hb
      subst this
      simp [valueExists, h] at habsent
  simp only [cacheValue, value, List.lookup, hne]
  exact h

end ColumnCache

/-! ## Calls on a closed gateway -/

/-- C1, as stated, fails: on a gateway that was never connected the members are null, and
`storeAttribute` stops at an assertion instead of raising an error; on a gateway that was
disconnected, `storeHistoryEvent` with an empty event name stops at an assertion as well. -/
theorem closed_gateway_counterexample :
    (isClosed DbConnection.new = true
      ∧ ¬ ∃ e, (storeAttribute sampleQueryBuilder DbConnection.new "a" "c" "d" "f" "m" "n"
          ⟨0, 0, 5⟩ (.result [[some "7"]])).1 = Outcome.raised e)
    ∧ (isClosed (gateway false sampleConnection ⟨[]⟩ ⟨[]⟩ ⟨[]⟩) = true
      ∧ ¬ ∃ e, (storeHistoryEvent sampleQueryBuilder
          (gateway false sampleConnection ⟨[]⟩ ⟨[]⟩ ⟨[]⟩) "a" "" (.result [[some "3"]])
          (.result [])).1 = Outcome.raised e) := by
  refine ⟨⟨by decide, ?_⟩, by decide, ?_⟩
  · rintro ⟨e, he⟩
    have h : (storeAttribute sampleQueryBuilder DbConnection.new "a" "c" "d" "f" "m" "n"
        ⟨0, 0, 5⟩ (.result [[some "7"]])).1 = Outcome.assertFailed := by decide
    rw [h] at he
    cases he
  · rintro ⟨e, he⟩
    have h : (storeHistoryEvent sampleQueryBuilder
        (gateway false sampleConnection ⟨[]⟩ ⟨[]⟩ ⟨[]⟩) "a" "" (.result [[some "3"]])
        (.result [])).1 = Outcome.assertFailed := by decide
    rw [h] at he
    cases he

/-- C1, amended: on a gateway whose connected flag is not set, each of `storeAttribute`,
`storeHistoryEvent`, `storeParameterEvent`, `storeDataEventError` and `fetchLastHistoryEvent`,
called with any arguments that pass its entry assertions, raises the error of
`checkConnection` and leaves the whole gateway as it was: no statement is sent, no cache
changes. -/
theorem closed_gateway_raises (qb : QueryBuilder) (s : DbConnection)
    (hclosed : isClosed s = true)
    (a cs dom fam mem nm event msg : String) (traits : AttributeTraits) (p : ParameterStrings)
    (time : Double) (quality : Int) (r1 r2 : TxReply) :
    (storeAttribute_asserts s a cs dom fam mem nm = true →
      ∃ e, e.desc = closedDescription
        ∧ storeAttribute qb s a cs dom fam mem nm traits r1 = (.raised e, s))
    ∧ (storeHistoryEvent_asserts s a event = true →
      ∃ e, e.desc = closedDescription ∧ storeHistoryEvent qb s a event r1 r2 = (.raised e, s))
    ∧ (storeParameterEvent_asserts s p = true →
      ∃ e, e.desc = closedDescription ∧ storeParameterEvent qb s p time r1 = (.raised e, s))
    ∧ (storeDataEventError_asserts s a msg = true →
      ∃ e, e.desc = closedDescription
        ∧ storeDataEventError qb s a time quality msg traits r1 r2 = (.raised e, s))
    ∧ (fetchLastHistoryEvent_asserts s a = true →
      ∃ e, e.desc = closedDescription ∧ fetchLastHistoryEvent qb s a r1 = (.raised e, s)) := by
  refine ⟨fun h => ⟨⟨"Connecion Error", closedDescription, LOCATION_INFO "storeAttribute"⟩,
      rfl, ?_⟩,
    fun h => ⟨⟨"Connecion Error", closedDescription, LOCATION_INFO "storeHistoryEvent"⟩,
      rfl, ?_⟩,
    fun h => ⟨⟨"Connecion Error", closedDescription, LOCATION_INFO "storeParameterEvent"⟩,
      rfl, ?_⟩,
    fun h => ⟨⟨"Connecion Error", closedDescription, LOCATION_INFO "storeDataEventError"⟩,
      rfl, ?_⟩,
    fun h => ⟨⟨"Connecion Error", closedDescription, LOCATION_INFO "fetchLastHistoryEvent"⟩,
      rfl, ?_⟩⟩
  · simp [storeAttribute, h, checkConnection_closed s _ hclosed]
  · simp [storeHistoryEvent, h, checkConnection_closed s _ hclosed]
  · simp [storeParameterEvent, h, checkConnection_closed s _ hclosed]
  · simp [storeDataEventError, h, checkConnection_closed s _ hclosed]
  · simp [fetchLastHistoryEvent, h, checkConnection_closed s _ hclosed]

/-- The amended C1 at a sample: a gateway that was connected and then disconnected. -/
theorem closed_gateway_raises_witness :
    isClosed (gateway false sampleConnection ⟨[]⟩ ⟨[]⟩ ⟨[]⟩) = true
    ∧ (∃ e, e.desc = closedDescription
        ∧ storeAttribute sampleQueryBuilder (gateway false sampleConnection ⟨[]⟩ ⟨[]⟩ ⟨[]⟩)
            "a" "c" "d" "f" "m" "n" ⟨0, 0, 5⟩ (.result [[some "7"]])
          = (.raised e, gateway false sampleConnection ⟨[]⟩ ⟨[]⟩ ⟨[]⟩))
    ∧ (∃ e, e.desc = closedDescription
        ∧ storeHistoryEvent sampleQueryBuilder (gateway false sampleConnection ⟨[]⟩ ⟨[]⟩ ⟨[]⟩)
            "a" "pause" (.result [[some "7"]]) (.result [])
          = (.raised e, gateway false sampleConnection ⟨[]⟩ ⟨[]⟩ ⟨[]⟩))
    ∧ (∃ e, e.desc = closedDescription
        ∧ storeParameterEvent sampleQueryBuilder (gateway false sampleConnection ⟨[]⟩ ⟨[]⟩ ⟨[]⟩)
            (sampleParameters "a") ⟨0⟩ (.result [[some "7"]])
          = (.raised e, gateway false sampleConnection ⟨[]⟩ ⟨[]⟩ ⟨[]⟩))
    ∧ (∃ e, e.desc = closedDescription
        ∧ storeDataEventError sampleQueryBuilder (gateway false sampleConnection ⟨[]⟩ ⟨[]⟩ ⟨[]⟩)
            "a" ⟨0⟩ 1 "sensor fault" ⟨0, 0, 5⟩ (.result [[some "7"]]) (.result [])
          = (.raised e, gateway false sampleConnection ⟨[]⟩ ⟨[]⟩ ⟨[]⟩))
    ∧ (∃ e, e.desc = closedDescription
        ∧ fetchLastHistoryEvent sampleQueryBuilder (gateway false sampleConnection ⟨[]⟩ ⟨[]⟩ ⟨[]⟩)
            "a" (.result [[some "7"]])
          = (.raised e, gateway false sampleConnection ⟨[]⟩ ⟨[]⟩ ⟨[]⟩)) :=
  have h := closed_gateway_raises sampleQueryBuilder
    (gateway false sampleConnection ⟨[]⟩ ⟨[]⟩ ⟨[]⟩) (by decide)
    "a" "c" "d" "f" "m" "n" "pause" "sensor fault" ⟨0, 0, 5⟩ (sampleParameters "a") ⟨0⟩ 1
    (.result [[some "7"]]) (.result [])
  ⟨by decide, h.1 (by decide), h.2.1 (by decide), h.2.2.1 (by decide), h.2.2.2.1 (by decide),
    h.2.2.2.2 (by decide)⟩

/-! ## Storing an attribute -/

theorem not_isEmpty_iff (a : String) : (!a.isEmpty) = true ↔ a ≠ "" := by
  constructor
  · intro h
    exact ne_empty_of_isEmpty (by simpa using h)
  · intro h
    simp [isEmpty_eq_false h]

theorem membersSet_gateway (b : Bool) (conn : Connection) (conf errors events : ColumnCache) :
    membersSet (gateway b conn conf errors events) = true := rfl

theorem eq_gateway_of_membersSet (s : DbConnection) (h : membersSet s = true) :
    ∃ conn conf errors events, s = gateway s._connected conn conf errors events := by
  rcases s with ⟨_ | c, b, _ | cf, _ | e, _ | ev⟩ <;> simp [membersSet] at h
  exact ⟨c, cf, e, ev, rfl⟩

theorem storeAttribute_asserts_iff (s : DbConnection) (a cs dom fam mem nm : String) :
    storeAttribute_asserts s a cs dom fam mem nm = true
      ↔ a ≠ "" ∧ cs ≠ "" ∧ dom ≠ "" ∧ fam ≠ "" ∧ mem ≠ "" ∧ nm ≠ "" ∧ membersSet s = true := by
  simp only [storeAttribute_asserts, Bool.and_eq_true, not_isEmpty_iff]
  tauto

theorem storeAttribute_open (qb : QueryBuilder) (conn : Connection)
    (conf errors events : ColumnCache) (a cs dom fam mem nm : String) (traits : AttributeTraits)
    (reply : TxReply)
    (h : storeAttribute_asserts (gateway true conn conf errors events) a cs dom fam mem nm
      = true) :
    storeAttribute qb (gateway true conn conf errors events) a cs dom fam mem nm traits reply
      = if conf.valueExists a then
          (.raised
            { reason := "Consistency Error",
              desc := "This attribute [" ++ a
                ++ "] already exists in the database. Unable to add it again.",
              origin := LOCATION_INFO "storeAttribute" }, gateway true conn conf errors events)
        else
          match insertedId reply.rows with
          | .value conf_id =>
            (.returned (),
              gateway true
                (transaction conn qb.StoreAttribute qb.storeAttributeQuery
                  (some (storeAttributeArgs qb a cs dom fam mem nm traits)) reply).1
                (conf.cacheValue conf_id a) errors events)
          | .threw what =>
            (.raised (handlePqxxError ("The attribute [" ++ a ++ "] was not saved.")
              what qb.storeAttributeQuery (LOCATION_INFO "storeAttribute")),
              gateway true
                (transaction conn qb.StoreAttribute qb.storeAttributeQuery
                  (some (storeAttributeArgs qb a cs dom fam mem nm traits)) reply).1
                conf errors events)
          | .undefined =>
            (.undefined,
              gateway true
                (transaction conn qb.StoreAttribute qb.storeAttributeQuery
                  (some (storeAttributeArgs qb a cs dom fam mem nm traits)) reply).1
                conf errors events) := by
  simp only [storeAttribute, h, Bool.not_true, Bool.false_eq_true, if_false]
  simp only [checkConnection, isClosed, isOpen, gateway, transaction_result, storeAttributeArgs,
    Bool.not_true, Bool.false_eq_true, if_false]

theorem storeAttribute_returned (qb : QueryBuilder) (s s1 : DbConnection)
    (a cs dom fam mem nm : String) (traits : AttributeTraits) (reply : TxReply)
    (hret : storeAttribute qb s a cs dom fam mem nm traits reply = (.returned (), s1)) :
    ∃ conn conf errors events conf_id,
      s = gateway true conn conf errors events
      ∧ storeAttribute_asserts s a cs dom fam mem nm = true
      ∧ conf.valueExists a = false
      ∧ insertedId reply.rows = .value conf_id
      ∧ s1 = gateway true
          (transaction conn qb.StoreAttribute qb.storeAttributeQuery
            (some (storeAttributeArgs qb a cs dom fam mem nm traits)) reply).1
          (conf.cacheValue conf_id a) errors events := by
  cases hassert : storeAttribute_asserts s a cs dom fam mem nm
  · simp [storeAttribute, hassert] at hret
  · obtain ⟨conn, conf, errors, events, hs⟩ :=
      eq_gateway_of_membersSet s ((storeAttribute_asserts_iff _ _ _ _ _ _ _).mp hassert).2.2.2.2.2.2
    cases hb : s._connected
    · have hclosed : isClosed s = true := by simp [isClosed, isOpen, hb]
      simp [storeAttribute, hassert, checkConnection_closed s _ hclosed] at hret
    · rw [hb] at hs
      subst hs
      rw [storeAttribute_open qb conn conf errors events a cs dom fam mem nm traits reply
        hassert] at hret
      cases hex : conf.valueExists a
      · rw [hex] at hret
        simp only [Bool.false_eq_true, if_false] at hret
        cases hid : insertedId reply.rows with
        | value conf_id =>
          rw [hid] at hret
          simp only [Prod.mk.injEq, true_and] at hret
          exact ⟨conn, conf, errors, events, conf_id, rfl, rfl, hex, rfl, hret.symm⟩
        | threw what => rw [hid] at hret; simp at hret
        | undefined => rw [hid] at hret; simp at hret
      · rw [hex] at hret
        simp at hret

/-- C2: on a connected gateway whose attribute cache already holds `full_attr_name`, a call
of `storeAttribute` that passes its entry assertions raises a Consistency Error and leaves
the gateway as it was, so no insert is sent and the cache is unchanged; in particular a
second `storeAttribute` for the same name, right after one that returned, raises it. -/
theorem storeAttribute_existing (qb : QueryBuilder) (s : DbConnection)
    (a cs dom fam mem nm : String) (traits : AttributeTraits) (reply : TxReply) :
    (∀ conf, storeAttribute_asserts s a cs dom fam mem nm = true → isOpen s = true →
      s._conf_id_cache = some conf → conf.valueExists a = true →
      storeAttribute qb s a cs dom fam mem nm traits reply
        = (.raised
            { reason := "Consistency Error",
              desc := "This attribute [" ++ a
                ++ "] already exists in the database. Unable to add it again.",
              origin := LOCATION_INFO "storeAttribute" }, s))
    ∧ (∀ s1 cs2 dom2 fam2 mem2 nm2 traits2 reply2,
      storeAttribute qb s a cs dom fam mem nm traits reply = (.returned (), s1) →
      cs2 ≠ "" → dom2 ≠ "" → fam2 ≠ "" → mem2 ≠ "" → nm2 ≠ "" →
      storeAttribute qb s1 a cs2 dom2 fam2 mem2 nm2 traits2 reply2
        = (.raised
            { reason := "Consistency Error",
              desc := "This attribute [" ++ a
                ++ "] already exists in the database. Unable to add it again.",
              origin := LOCATION_INFO "storeAttribute" }, s1)) := by
  constructor
  · intro conf hassert hopen hconf hex
    obtain ⟨conn, conf0, errors, events, hs⟩ :=
      eq_gateway_of_membersSet s ((storeAttribute_asserts_iff _ _ _ _ _ _ _).mp hassert).2.2.2.2.2.2
    have hb : s._connected = true := hopen
    rw [hb] at hs
    subst hs
    have hc : conf0 = conf := by simpa [gateway] using hconf
    subst hc
    rw [storeAttribute_open qb conn conf0 errors events a cs dom fam mem nm traits reply hassert,
      hex]
    rfl
  · intro s1 cs2 dom2 fam2 mem2 nm2 traits2 reply2 hret hcs hdom hfam hmem hnm
    obtain ⟨conn, conf, errors, events, conf_id, hs, hassert, _, _, hs1⟩ :=
      storeAttribute_returned qb s s1 a cs dom fam mem nm traits reply hret
    subst hs1
    have ha : a ≠ "" := ((storeAttribute_asserts_iff _ _ _ _ _ _ _).mp hassert).1
    rw [storeAttribute_open qb _ _ errors events a cs2 dom2 fam2 mem2 nm2 traits2 reply2
      ((storeAttribute_asserts_iff _ _ _ _ _ _ _).mpr
        ⟨ha, hcs, hdom, hfam, hmem, hnm, membersSet_gateway _ _ _ _ _⟩),
      ColumnCache.valueExists_cacheValue_self]
    rfl

/-- C2 at a sample: the name is cached already; and the same call twice on an empty cache. -/
theorem storeAttribute_existing_witness :
    storeAttribute sampleQueryBuilder (gateway true sampleConnection ⟨[("a", 7)]⟩ ⟨[]⟩ ⟨[]⟩)
        "a" "c" "d" "f" "m" "n" ⟨0, 0, 5⟩ (.result [[some "8"]])
      = (.raised
          { reason := "Consistency Error",
            desc := "This attribute [" ++ "a"
              ++ "] already exists in the database. Unable to add it again.",
            origin := LOCATION_INFO "storeAttribute" },
          gateway true sampleConnection ⟨[("a", 7)]⟩ ⟨[]⟩ ⟨[]⟩)
    ∧ storeAttribute sampleQueryBuilder
        (storeAttribute sampleQueryBuilder (gateway true sampleConnection ⟨[]⟩ ⟨[]⟩ ⟨[]⟩)
          "a" "c" "d" "f" "m" "n" ⟨0, 0, 5⟩ (.result [[some "7"]])).2
        "a" "c" "d" "f" "m" "n" ⟨0, 0, 5⟩ (.result [[some "8"]])
      = (.raised
          { reason := "Consistency Error",
            desc := "This attribute [" ++ "a"
              ++ "] already exists in the database. Unable to add it again.",
            origin := LOCATION_INFO "storeAttribute" },
          (storeAttribute sampleQueryBuilder (gateway true sampleConnection ⟨[]⟩ ⟨[]⟩ ⟨[]⟩)
            "a" "c" "d" "f" "m" "n" ⟨0, 0, 5⟩ (.result [[some "7"]])).2) :=
  ⟨(storeAttribute_existing sampleQueryBuilder
      (gateway true sampleConnection ⟨[("a", 7)]⟩ ⟨[]⟩ ⟨[]⟩)
      "a" "c" "d" "f" "m" "n" ⟨0, 0, 5⟩ (.result [[some "8"]])).1 ⟨[("a", 7)]⟩
      (by decide) (by decide) rfl (by decide),
    (storeAttribute_existing sampleQueryBuilder (gateway true sampleConnection ⟨[]⟩ ⟨[]⟩ ⟨[]⟩)
      "a" "c" "d" "f" "m" "n" ⟨0, 0, 5⟩ (.result [[some "7"]])).2 _
      "c" "d" "f" "m" "n" ⟨0, 0, 5⟩ (.result [[some "8"]]) (by decide)
      (by decide) (by decide) (by decide) (by decide) (by decide)⟩

theorem transaction_executed (c : Connection) (name query : String) (as : List Arg)
    (reply : TxReply) :
    (transaction c name query (some as) reply).1.executed
      = match reply with
        | .broken _ => c.executed
        | _ => c.executed ++ [(name, as)] := by
  cases reply <;> simp [transaction, Connection.exec, prepareIfAbsent_executed]

theorem transaction_executed_of_insertedId (c : Connection) (name query : String)
    (as : List Arg) (reply : TxReply) (n : Int) (h : insertedId reply.rows = .value n) :
    (transaction c name query (some as) reply).1.executed = c.executed ++ [(name, as)] := by
  rw [transaction_executed]
  cases reply with
  | broken w => simp [TxReply.rows, insertedId, exec_prepared1] at h
  | failed w => rfl
  | result rows => rfl

theorem transaction_executed_of_exec_prepared0 (c : Connection) (name query : String)
    (as : List Arg) (reply : TxReply) (h : exec_prepared0 reply.rows = .value ()) :
    (transaction c name query (some as) reply).1.executed = c.executed ++ [(name, as)] := by
  rw [transaction_executed]
  cases reply with
  | broken w => simp [TxReply.rows, exec_prepared0] at h
  | failed w => rfl
  | result rows => rfl

/-- C3: on a connected gateway whose attribute cache does not hold the name, when the insert
transaction succeeds and hands back the id `n`, `storeAttribute` returns, has sent exactly
one statement, the attribute insert, and the attribute cache afterwards maps the name to `n`,
so that `fetchAttributeArchived` gives true where it gave false before. -/
theorem storeAttribute_new (qb : QueryBuilder) (s : DbConnection)
    (a cs dom fam mem nm : String) (traits : AttributeTraits) (reply : TxReply)
    (conf : ColumnCache) (n : Int)
    (hassert : storeAttribute_asserts s a cs dom fam mem nm = true)
    (hopen : isOpen s = true)
    (hconf : s._conf_id_cache = some conf)
    (hnew : conf.valueExists a = false)
    (hid : insertedId reply.rows = .value n) :
    (storeAttribute qb s a cs dom fam mem nm traits reply).1 = .returned ()
    ∧ sent (storeAttribute qb s a cs dom fam mem nm traits reply).2
        = sent s ++ [(qb.StoreAttribute, storeAttributeArgs qb a cs dom fam mem nm traits)]
    ∧ (storeAttribute qb s a cs dom fam mem nm traits reply).2._conf_id_cache
        = some (conf.cacheValue n a)
    ∧ (conf.cacheValue n a).value a = some n
    ∧ (fetchAttributeArchived s a).1 = .returned false
    ∧ (fetchAttributeArchived (storeAttribute qb s a cs dom fam mem nm traits reply).2 a).1
        = .returned true := by
  obtain ⟨conn, conf0, errors, events, hs⟩ :=
    eq_gateway_of_membersSet s ((storeAttribute_asserts_iff _ _ _ _ _ _ _).mp hassert).2.2.2.2.2.2
  have hb : s._connected = true := hopen
  rw [hb] at hs
  subst hs
  have hc : conf0 = conf := by simpa [gateway] using hconf
  subst hc
  rw [storeAttribute_open qb conn conf0 errors events a cs dom fam mem nm traits reply hassert,
    hnew, hid]
  refine ⟨rfl, ?_, rfl, ColumnCache.value_cacheValue_self _ _ _, ?_, ?_⟩
  · simp [sent, gateway, transaction_executed_of_insertedId _ _ _ _ _ n hid]
  · simp [fetchAttributeArchived, checkConnection, isClosed, isOpen, gateway, hnew]
  · simp [fetchAttributeArchived, checkConnection, isClosed, isOpen, gateway,
      ColumnCache.valueExists_cacheValue_self]

/-- C3 at a sample: a new attribute, the store hands back the id 7. -/
theorem storeAttribute_new_witness :
    (storeAttribute sampleQueryBuilder (gateway true sampleConnection ⟨[]⟩ ⟨[]⟩ ⟨[]⟩)
        "a" "c" "d" "f" "m" "n" ⟨0, 0, 5⟩ (.result [[some "7"]])).1 = .returned ()
    ∧ sent (storeAttribute sampleQueryBuilder (gateway true sampleConnection ⟨[]⟩ ⟨[]⟩ ⟨[]⟩)
        "a" "c" "d" "f" "m" "n" ⟨0, 0, 5⟩ (.result [[some "7"]])).2
        = sent (gateway true sampleConnection ⟨[]⟩ ⟨[]⟩ ⟨[]⟩)
          ++ [(sampleQueryBuilder.StoreAttribute,
                storeAttributeArgs sampleQueryBuilder "a" "c" "d" "f" "m" "n" ⟨0, 0, 5⟩)]
    ∧ (storeAttribute sampleQueryBuilder (gateway true sampleConnection ⟨[]⟩ ⟨[]⟩ ⟨[]⟩)
        "a" "c" "d" "f" "m" "n" ⟨0, 0, 5⟩ (.result [[some "7"]])).2._conf_id_cache
        = some ((⟨[]⟩ : ColumnCache).cacheValue 7 "a")
    ∧ ((⟨[]⟩ : ColumnCache).cacheValue 7 "a").value "a" = some 7
    ∧ (fetchAttributeArchived (gateway true sampleConnection ⟨[]⟩ ⟨[]⟩ ⟨[]⟩) "a").1
        = .returned false
    ∧ (fetchAttributeArchived
        (storeAttribute sampleQueryBuilder (gateway true sampleConnection ⟨[]⟩ ⟨[]⟩ ⟨[]⟩)
          "a" "c" "d" "f" "m" "n" ⟨0, 0, 5⟩ (.result [[some "7"]])).2 "a").1
        = .returned true :=
  storeAttribute_new sampleQueryBuilder (gateway true sampleConnection ⟨[]⟩ ⟨[]⟩ ⟨[]⟩)
    "a" "c" "d" "f" "m" "n" ⟨0, 0, 5⟩ (.result [[some "7"]]) ⟨[]⟩ 7
    (by decide) (by decide) rfl (by decide) (by decide)

/-! ## Calls for an attribute the cache does not hold -/

theorem storeHistoryEvent_asserts_iff (s : DbConnection) (a event : String) :
    storeHistoryEvent_asserts s a event = true ↔ a ≠ "" ∧ event ≠ "" ∧ membersSet s = true := by
  simp only [storeHistoryEvent_asserts, Bool.and_eq_true, not_isEmpty_iff]
  tauto

theorem storeDataEventError_asserts_iff (s : DbConnection) (a msg : String) :
    storeDataEventError_asserts s a msg = true ↔ a ≠ "" ∧ msg ≠ "" ∧ membersSet s = true := by
  simp only [storeDataEventError_asserts, Bool.and_eq_true, not_isEmpty_iff]
  tauto

theorem fetchLastHistoryEvent_asserts_iff (s : DbConnection) (a : String) :
    fetchLastHistoryEvent_asserts s a = true ↔ a ≠ "" ∧ membersSet s = true := by
  simp only [fetchLastHistoryEvent_asserts, Bool.and_eq_true, not_isEmpty_iff]

theorem storeParameterEvent_membersSet (s : DbConnection) (p : ParameterStrings)
    (h : storeParameterEvent_asserts s p = true) : membersSet s = true := by
  simp only [storeParameterEvent_asserts, Bool.and_eq_true] at h
  exact h.2

theorem checkAttributeExists_absent (b : Bool) (conn : Connection)
    (conf errors events : ColumnCache) (a loc : String) (h : conf.valueExists a = false) :
    checkAttributeExists (gateway b conn conf errors events) a loc
      = .raised (unknownAttributeError a loc) := by
  simp [checkAttributeExists, gateway, h, unknownAttributeError]

theorem checkAttributeExists_present (b : Bool) (conn : Connection)
    (conf errors events : ColumnCache) (a loc : String) (h : conf.valueExists a = true) :
    checkAttributeExists (gateway b conn conf errors events) a loc = .returned () := by
  simp [checkAttributeExists, gateway, h]

/-- C4: on a connected gateway whose attribute cache does not hold the attribute name, each
of `storeHistoryEvent`, `storeParameterEvent`, `storeDataEventError` and
`fetchLastHistoryEvent`, called with arguments that pass its entry assertions, raises the
Consistency Error of `checkAttributeExists` and leaves the whole gateway as it was: no
statement is sent, no event or error string is created, no cache changes. -/
theorem unknown_attribute_raises (qb : QueryBuilder) (s : DbConnection) (conf : ColumnCache)
    (hopen : isOpen s = true) (hconf : s._conf_id_cache = some conf)
    (a event msg : String) (traits : AttributeTraits) (p : ParameterStrings)
    (time : Double) (quality : Int) (r1 r2 : TxReply)
    (hnew : conf.valueExists a = false) (hp : conf.valueExists p.full_attr_name = false) :
    (storeHistoryEvent_asserts s a event = true →
      storeHistoryEvent qb s a event r1 r2
        = (.raised (unknownAttributeError a (LOCATION_INFO "storeHistoryEvent")), s))
    ∧ (storeParameterEvent_asserts s p = true →
      storeParameterEvent qb s p time r1
        = (.raised (unknownAttributeError p.full_attr_name
            (LOCATION_INFO "storeParameterEvent")), s))
    ∧ (storeDataEventError_asserts s a msg = true →
      storeDataEventError qb s a time quality msg traits r1 r2
        = (.raised (unknownAttributeError a (LOCATION_INFO "storeDataEventError")), s))
    ∧ (fetchLastHistoryEvent_asserts s a = true →
      fetchLastHistoryEvent qb s a r1
        = (.raised (unknownAttributeError a (LOCATION_INFO "fetchLastHistoryEvent")), s)) := by
  have key : ∀ (a : String), membersSet s = true → conf.valueExists a = false →
      ∀ loc, checkAttributeExists s a loc = .raised (unknownAttributeError a loc) := by
    intro a hm hn loc
    obtain ⟨conn, conf0, errors, events, hs⟩ := eq_gateway_of_membersSet s hm
    have hc : conf0 = conf := by
      rw [hs] at hconf
      simpa [gateway] using hconf
    subst hc
    rw [hs]
    exact checkAttributeExists_absent _ _ _ _ _ _ _ hn
  refine ⟨fun h => ?_, fun h => ?_, fun h => ?_, fun h => ?_⟩
  · simp [storeHistoryEvent, h, checkConnection_open s _ hopen,
      key a ((storeHistoryEvent_asserts_iff _ _ _).mp h).2.2 hnew]
  · simp [storeParameterEvent, h, checkConnection_open s _ hopen,
      key p.full_attr_name (storeParameterEvent_membersSet _ _ h) hp]
  · simp [storeDataEventError, h, checkConnection_open s _ hopen,
      key a ((storeDataEventError_asserts_iff _ _ _).mp h).2.2 hnew]
  · simp [fetchLastHistoryEvent, h, checkConnection_open s _ hopen,
      key a ((fetchLastHistoryEvent_asserts_iff _ _).mp h).2 hnew]

/-- C4 at a sample: a connected gateway with empty caches. -/
theorem unknown_attribute_raises_witness :
    storeHistoryEvent sampleQueryBuilder (gateway true sampleConnection ⟨[]⟩ ⟨[]⟩ ⟨[]⟩)
        "a" "pause" (.result [[some "3"]]) (.result [])
      = (.raised (unknownAttributeError "a" (LOCATION_INFO "storeHistoryEvent")),
          gateway true sampleConnection ⟨[]⟩ ⟨[]⟩ ⟨[]⟩)
    ∧ storeParameterEvent sampleQueryBuilder (gateway true sampleConnection ⟨[]⟩ ⟨[]⟩ ⟨[]⟩)
        (sampleParameters "a") ⟨0⟩ (.result [[some "3"]])
      = (.raised (unknownAttributeError "a" (LOCATION_INFO "storeParameterEvent")),
          gateway true sampleConnection ⟨[]⟩ ⟨[]⟩ ⟨[]⟩)
    ∧ storeDataEventError sampleQueryBuilder (gateway true sampleConnection ⟨[]⟩ ⟨[]⟩ ⟨[]⟩)
        "a" ⟨0⟩ 1 "sensor fault" ⟨0, 0, 5⟩ (.result [[some "3"]]) (.result [])
      = (.raised (unknownAttributeError "a" (LOCATION_INFO "storeDataEventError")),
          gateway true sampleConnection ⟨[]⟩ ⟨[]⟩ ⟨[]⟩)
    ∧ fetchLastHistoryEvent sampleQueryBuilder (gateway true sampleConnection ⟨[]⟩ ⟨[]⟩ ⟨[]⟩)
        "a" (.result [[some "3"]])
      = (.raised (unknownAttributeError "a" (LOCATION_INFO "fetchLastHistoryEvent")),
          gateway true sampleConnection ⟨[]⟩ ⟨[]⟩ ⟨[]⟩) :=
  have h := unknown_attribute_raises sampleQueryBuilder
    (gateway true sampleConnection ⟨[]⟩ ⟨[]⟩ ⟨[]⟩) ⟨[]⟩ (by decide) rfl
    "a" "pause" "sensor fault" ⟨0, 0, 5⟩ (sampleParameters "a") ⟨0⟩ 1
    (.result [[some "3"]]) (.result []) (by decide) (by decide)
  ⟨h.1 (by decide), h.2.1 (by decide), h.2.2.1 (by decide), h.2.2.2 (by decide)⟩

/-! ## The operations on a gateway whose members are set -/

theorem storeEvent_gateway (qb : QueryBuilder) (b : Bool) (conn : Connection)
    (conf errors events : ColumnCache) (a event : String) (reply : TxReply) :
    storeEvent qb (gateway b conn conf errors events) a event reply
      = match insertedId reply.rows with
        | .value event_id =>
          (.returned (),
            gateway b
              (transaction conn qb.StoreHistoryString qb.storeHistoryStringQuery
                (some [.text event]) reply).1
              conf errors (events.cacheValue event_id event))
        | .threw what =>
          (.raised (handlePqxxError
            ("The event [" ++ event ++ "] for attribute [" ++ a ++ "] was not saved.")
            what qb.storeHistoryStringQuery (LOCATION_INFO "storeEvent")),
            gateway b
              (transaction conn qb.StoreHistoryString qb.storeHistoryStringQuery
                (some [.text event]) reply).1
              conf errors events)
        | .undefined =>
          (.undefined,
            gateway b
              (transaction conn qb.StoreHistoryString qb.storeHistoryStringQuery
                (some [.text event]) reply).1
              conf errors events) := by
  simp only [storeEvent, gateway, transaction_result]

theorem storeErrorMsg_gateway (qb : QueryBuilder) (b : Bool) (conn : Connection)
    (conf errors events : ColumnCache) (a msg : String) (reply : TxReply) :
    storeErrorMsg qb (gateway b conn conf errors events) a msg reply
      = match insertedId reply.rows with
        | .value error_id =>
          (.returned (),
            gateway b
              (transaction conn qb.StoreErrorString qb.storeErrorQuery
                (some [.text msg]) reply).1
              conf (errors.cacheValue error_id msg) events)
        | .threw what =>
          (.raised (handlePqxxError
            ("The error string [" ++ msg ++ "] for attribute [" ++ a ++ "] was not saved")
            what qb.storeErrorQuery (LOCATION_INFO "storeErrorMsg")),
            gateway b
              (transaction conn qb.StoreErrorString qb.storeErrorQuery
                (some [.text msg]) reply).1
              conf errors events)
        | .undefined =>
          (.undefined,
            gateway b
              (transaction conn qb.StoreErrorString qb.storeErrorQuery
                (some [.text msg]) reply).1
              conf errors events) := by
  simp only [storeErrorMsg, gateway, transaction_result]

theorem storeHistoryEvent_insert_gateway (qb : QueryBuilder) (b : Bool) (conn : Connection)
    (conf errors events : ColumnCache) (a event : String) (reply : TxReply) (id : Int)
    (hid : conf.value a = some id) :
    storeHistoryEvent_insert qb (gateway b conn conf errors events) a event reply
      = match exec_prepared0 reply.rows with
        | .value () =>
          (.returned (),
            gateway b
              (transaction conn qb.StoreHistoryEvent qb.storeHistoryEventQuery
                (some [.int id, .text event]) reply).1
              conf errors events)
        | .threw what =>
          (.raised (handlePqxxError
            ("The attribute [" ++ a ++ "] event [" ++ event ++ "] was not saved.")
            what qb.storeHistoryEventQuery (LOCATION_INFO "storeHistoryEvent")),
            gateway b
              (transaction conn qb.StoreHistoryEvent qb.storeHistoryEventQuery
                (some [.int id, .text event]) reply).1
              conf errors events)
        | .undefined =>
          (.undefined,
            gateway b
              (transaction conn qb.StoreHistoryEvent qb.storeHistoryEventQuery
                (some [.int id, .text event]) reply).1
              conf errors events) := by
  simp only [storeHistoryEvent_insert, gateway, hid, Option.map_some', transaction_result]

theorem storeDataEventError_insert_gateway (qb : QueryBuilder) (b : Bool) (conn : Connection)
    (conf errors events : ColumnCache) (a msg : String) (time : Double) (quality : Int)
    (traits : AttributeTraits) (reply : TxReply) (id error_id : Int)
    (hid : conf.value a = some id) (herr : errors.value msg = some error_id) :
    storeDataEventError_insert qb (gateway b conn conf errors events) a time quality msg traits
        reply
      = match exec_prepared0 reply.rows with
        | .value () =>
          (.returned (),
            gateway b
              (transaction conn (qb.storeDataEventErrorName traits)
                (qb.storeDataEventErrorQuery traits)
                (some [.int id, .real time, .int quality, .int error_id]) reply).1
              conf errors events)
        | .threw what =>
          (.raised (handlePqxxError
            ("The attribute [" ++ a ++ "] error message [" ++ msg ++ "] was not saved.")
            what (qb.storeDataEventErrorName traits) (LOCATION_INFO "storeDataEventError")),
            gateway b
              (transaction conn (qb.storeDataEventErrorName traits)
                (qb.storeDataEventErrorQuery traits)
                (some [.int id, .real time, .int quality, .int error_id]) reply).1
              conf errors events)
        | .undefined =>
          (.undefined,
            gateway b
              (transaction conn (qb.storeDataEventErrorName traits)
                (qb.storeDataEventErrorQuery traits)
                (some [.int id, .real time, .int quality, .int error_id]) reply).1
              conf errors events) := by
  simp only [storeDataEventError_insert, gateway, hid, herr, Option.map_some',
    Option.some_bind, transaction_result]

theorem valueExists_of_value {c : ColumnCache} {key : String} {id : Int}
    (h : c.value key = some id) : c.valueExists key = true := by
  simp [ColumnCache.valueExists, h]

theorem value_of_valueExists {c : ColumnCache} {key : String}
    (h : c.valueExists key = true) : ∃ id, c.value key = some id := by
  simpa [ColumnCache.valueExists, Option.isSome_iff_exists] using h

theorem storeHistoryEvent_open (qb : QueryBuilder) (conn : Connection)
    (conf errors events : ColumnCache) (a event : String) (r1 r2 : TxReply)
    (h : storeHistoryEvent_asserts (gateway true conn conf errors events) a event = true)
    (hex : conf.valueExists a = true) :
    storeHistoryEvent qb (gateway true conn conf errors events) a event r1 r2
      = if events.valueExists event then
          storeHistoryEvent_insert qb (gateway true conn conf errors events) a event r2
        else
          match insertedId r1.rows with
          | .value event_id =>
            storeHistoryEvent_insert qb
              (gateway true
                (transaction conn qb.StoreHistoryString qb.storeHistoryStringQuery
                  (some [.text event]) r1).1
                conf errors (events.cacheValue event_id event)) a event r2
          | .threw what =>
            (.raised (handlePqxxError
              ("The event [" ++ event ++ "] for attribute [" ++ a ++ "] was not saved.")
              what qb.storeHistoryStringQuery (LOCATION_INFO "storeEvent")),
              gateway true
                (transaction conn qb.StoreHistoryString qb.storeHistoryStringQuery
                  (some [.text event]) r1).1
                conf errors events)
          | .undefined =>
            (.undefined,
              gateway true
                (transaction conn qb.StoreHistoryString qb.storeHistoryStringQuery
                  (some [.text event]) r1).1
                conf errors events) := by
  simp only [storeHistoryEvent, h, Bool.not_true, Bool.false_eq_true, if_false,
    checkConnection_open (gateway true conn conf errors events) _ rfl,
    checkAttributeExists_present true conn conf errors events a _ hex]
  cases hev : events.valueExists event
  · simp only [gateway, hev, Bool.not_false, if_true, Bool.false_eq_true, if_false]
    have hg := storeEvent_gateway qb true conn conf errors events a event r1
    simp only [gateway] at hg
    rw [hg]
    cases hid : insertedId r1.rows with
    | value event_id =>
      simp [ColumnCache.valueExists_cacheValue_self]
    | threw what => simp
    | undefined => simp
  · simp [gateway, hev]

theorem storeDataEventError_open (qb : QueryBuilder) (conn : Connection)
    (conf errors events : ColumnCache) (a msg : String) (time : Double) (quality : Int)
    (traits : AttributeTraits) (r1 r2 : TxReply)
    (h : storeDataEventError_asserts (gateway true conn conf errors events) a msg = true)
    (hex : conf.valueExists a = true) :
    storeDataEventError qb (gateway true conn conf errors events) a time quality msg traits
        r1 r2
      = if errors.valueExists msg then
          storeDataEventError_insert qb (gateway true conn conf errors events) a time quality
            msg traits r2
        else
          match insertedId r1.rows with
          | .value error_id =>
            storeDataEventError_insert qb
              (gateway true
                (transaction conn qb.StoreErrorString qb.storeErrorQuery
                  (some [.text msg]) r1).1
                conf (errors.cacheValue error_id msg) events) a time quality msg traits r2
          | .threw what =>
            (.raised (handlePqxxError
              ("The error string [" ++ msg ++ "] for attribute [" ++ a ++ "] was not saved")
              what qb.storeErrorQuery (LOCATION_INFO "storeErrorMsg")),
              gateway true
                (transaction conn qb.StoreErrorString qb.storeErrorQuery
                  (some [.text msg]) r1).1
                conf errors events)
          | .undefined =>
            (.undefined,
              gateway true
                (transaction conn qb.StoreErrorString qb.storeErrorQuery
                  (some [.text msg]) r1).1
                conf errors events) := by
  simp only [storeDataEventError, h, Bool.not_true, Bool.false_eq_true, if_false,
    checkConnection_open (gateway true conn conf errors events) _ rfl,
    checkAttributeExists_present true conn conf errors events a _ hex]
  cases hev : errors.valueExists msg
  · simp only [gateway, hev, Bool.not_false, if_true, Bool.false_eq_true, if_false]
    have hg := storeErrorMsg_gateway qb true conn conf errors events a msg r1
    simp only [gateway] at hg
    rw [hg]
    cases hid : insertedId r1.rows with
    | value error_id =>
      simp [ColumnCache.valueExists_cacheValue_self]
    | threw what => simp
    | undefined => simp
  · simp [gateway, hev]

theorem storeParameterEvent_open (qb : QueryBuilder) (conn : Connection)
    (conf errors events : ColumnCache) (p : ParameterStrings) (time : Double) (reply : TxReply)
    (id : Int)
    (h : storeParameterEvent_asserts (gateway true conn conf errors events) p = true)
    (hid : conf.value p.full_attr_name = some id) :
    storeParameterEvent qb (gateway true conn conf errors events) p time reply
      = match exec_prepared0 reply.rows with
        | .value () =>
          (.returned (),
            gateway true
              (transaction conn qb.StoreParameterEvent qb.storeParameterEventQuery
                (some (storeParameterEventArgs id time p)) reply).1
              conf errors events)
        | .threw what =>
          (.raised (handlePqxxError
            ("The attribute [" ++ p.full_attr_name ++ "] parameter event was not saved.")
            what qb.storeParameterEventQuery (LOCATION_INFO "storeParameterEvent")),
            gateway true
              (transaction conn qb.StoreParameterEvent qb.storeParameterEventQuery
                (some (storeParameterEventArgs id time p)) reply).1
              conf errors events)
        | .undefined =>
          (.undefined,
            gateway true
              (transaction conn qb.StoreParameterEvent qb.storeParameterEventQuery
                (some (storeParameterEventArgs id time p)) reply).1
              conf errors events) := by
  simp only [storeParameterEvent, h, Bool.not_true, Bool.false_eq_true, if_false,
    checkConnection_open (gateway true conn conf errors events) _ rfl,
    checkAttributeExists_present true conn conf errors events _ _ (valueExists_of_value hid)]
  simp only [gateway, hid, Option.map_some', transaction_result, storeParameterEventArgs]

theorem fetchLastHistoryEvent_open (qb : QueryBuilder) (conn : Connection)
    (conf errors events : ColumnCache) (a : String) (reply : TxReply) (id : Int)
    (h : fetchLastHistoryEvent_asserts (gateway true conn conf errors events) a = true)
    (hid : conf.value a = some id) :
    fetchLastHistoryEvent qb (gateway true conn conf errors events) a reply
      = match lastEventOf reply.rows with
        | .value ev =>
          (.returned ev,
            gateway true
              (transaction conn qb.FetchLastHistoryEvent qb.fetchLastHistoryEventQuery
                (some [.int id]) reply).1
              conf errors events)
        | .threw what =>
          (.raised (handlePqxxError
            ("Can not return last event for attribute [" ++ a ++ "].")
            what qb.fetchLastHistoryEventQuery (LOCATION_INFO "fetchLastHistoryEvent")),
            gateway true
              (transaction conn qb.FetchLastHistoryEvent qb.fetchLastHistoryEventQuery
                (some [.int id]) reply).1
              conf errors events)
        | .undefined =>
          (.undefined,
            gateway true
              (transaction conn qb.FetchLastHistoryEvent qb.fetchLastHistoryEventQuery
                (some [.int id]) reply).1
              conf errors events) := by
  simp only [fetchLastHistoryEvent, h, Bool.not_true, Bool.false_eq_true, if_false,
    checkConnection_open (gateway true conn conf errors events) _ rfl,
    checkAttributeExists_present true conn conf errors events _ _ (valueExists_of_value hid)]
  simp only [gateway, hid, Option.map_some', transaction_result, lastEventOf]

/-! ## Reading the last history event -/

/-- C10: on a connected gateway whose attribute cache holds the attribute, when the query for
the last history event yields no row, `fetchLastHistoryEvent` returns the empty string,
raises nothing, and leaves the connected flag and the three caches as they were. -/
theorem fetchLastHistoryEvent_no_row (qb : QueryBuilder) (s : DbConnection)
    (conf : ColumnCache) (a : String)
    (hassert : fetchLastHistoryEvent_asserts s a = true)
    (hopen : isOpen s = true)
    (hconf : s._conf_id_cache = some conf)
    (hex : conf.valueExists a = true) :
    (fetchLastHistoryEvent qb s a (.result [])).1 = .returned ""
    ∧ (fetchLastHistoryEvent qb s a (.result [])).2._conf_id_cache = s._conf_id_cache
    ∧ (fetchLastHistoryEvent qb s a (.result [])).2._error_desc_id_cache
        = s._error_desc_id_cache
    ∧ (fetchLastHistoryEvent qb s a (.result [])).2._event_id_cache = s._event_id_cache
    ∧ (fetchLastHistoryEvent qb s a (.result [])).2._connected = s._connected := by
  obtain ⟨conn, conf0, errors, events, hs⟩ :=
    eq_gateway_of_membersSet s ((fetchLastHistoryEvent_asserts_iff _ _).mp hassert).2
  have hb : s._connected = true := hopen
  rw [hb] at hs
  subst hs
  have hc : conf0 = conf := by simpa [gateway] using hconf
  subst hc
  obtain ⟨id, hid⟩ := value_of_valueExists hex
  rw [fetchLastHistoryEvent_open qb conn conf0 errors events a _ id hassert hid]
  simp [lastEventOf, TxReply.rows, gateway]

/-- C10 at a sample: the attribute is cached with id 7 and has no history row. -/
theorem fetchLastHistoryEvent_no_row_witness :
    (fetchLastHistoryEvent sampleQueryBuilder
        (gateway true sampleConnection ⟨[("a", 7)]⟩ ⟨[]⟩ ⟨[]⟩) "a" (.result [])).1
      = .returned ""
    ∧ (fetchLastHistoryEvent sampleQueryBuilder
        (gateway true sampleConnection ⟨[("a", 7)]⟩ ⟨[]⟩ ⟨[]⟩) "a"
        (.result [])).2._conf_id_cache
      = (gateway true sampleConnection ⟨[("a", 7)]⟩ ⟨[]⟩ ⟨[]⟩)._conf_id_cache
    ∧ (fetchLastHistoryEvent sampleQueryBuilder
        (gateway true sampleConnection ⟨[("a", 7)]⟩ ⟨[]⟩ ⟨[]⟩) "a"
        (.result [])).2._error_desc_id_cache
      = (gateway true sampleConnection ⟨[("a", 7)]⟩ ⟨[]⟩ ⟨[]⟩)._error_desc_id_cache
    ∧ (fetchLastHistoryEvent sampleQueryBuilder
        (gateway true sampleConnection ⟨[("a", 7)]⟩ ⟨[]⟩ ⟨[]⟩) "a"
        (.result [])).2._event_id_cache
      = (gateway true sampleConnection ⟨[("a", 7)]⟩ ⟨[]⟩ ⟨[]⟩)._event_id_cache
    ∧ (fetchLastHistoryEvent sampleQueryBuilder
        (gateway true sampleConnection ⟨[("a", 7)]⟩ ⟨[]⟩ ⟨[]⟩) "a"
        (.result [])).2._connected
      = (gateway true sampleConnection ⟨[("a", 7)]⟩ ⟨[]⟩ ⟨[]⟩)._connected :=
  fetchLastHistoryEvent_no_row sampleQueryBuilder
    (gateway true sampleConnection ⟨[("a", 7)]⟩ ⟨[]⟩ ⟨[]⟩) ⟨[("a", 7)]⟩ "a"
    (by decide) (by decide) rfl (by decide)

/-! ## What a fact insert refers to -/

theorem sent_gateway (b : Bool) (conn : Connection) (conf errors events : ColumnCache) :
    sent (gateway b conn conf errors events) = conn.executed := rfl

theorem transaction_executed_cases (c : Connection) (name query : String) (as : List Arg)
    (reply : TxReply) :
    (transaction c name query (some as) reply).1.executed = c.executed
    ∨ (transaction c name query (some as) reply).1.executed = c.executed ++ [(name, as)] := by
  rw [transaction_executed]
  cases reply
  · exact Or.inl rfl
  · exact Or.inr rfl
  · exact Or.inr rfl

theorem storeHistoryEvent_insert_sent (qb : QueryBuilder) (b : Bool) (conn : Connection)
    (conf errors events : ColumnCache) (a event : String) (reply : TxReply) (id : Int)
    (hid : conf.value a = some id) :
    (storeHistoryEvent_insert qb (gateway b conn conf errors events) a event reply).2._conf_id_cache
        = some conf
    ∧ (storeHistoryEvent_insert qb (gateway b conn conf errors events) a event
        reply).2._event_id_cache = some events
    ∧ (sent (storeHistoryEvent_insert qb (gateway b conn conf errors events) a event reply).2
          = conn.executed
      ∨ sent (storeHistoryEvent_insert qb (gateway b conn conf errors events) a event reply).2
          = conn.executed ++ [(qb.StoreHistoryEvent, [.int id, .text event])]) := by
  rw [storeHistoryEvent_insert_gateway qb b conn conf errors events a event reply id hid]
  have h := transaction_executed_cases conn qb.StoreHistoryEvent qb.storeHistoryEventQuery
    [.int id, .text event] reply
  cases exec_prepared0 reply.rows <;> exact ⟨rfl, rfl, h⟩

theorem storeDataEventError_insert_sent (qb : QueryBuilder) (b : Bool) (conn : Connection)
    (conf errors events : ColumnCache) (a msg : String) (time : Double) (quality : Int)
    (traits : AttributeTraits) (reply : TxReply) (id error_id : Int)
    (hid : conf.value a = some id) (herr : errors.value msg = some error_id) :
    (storeDataEventError_insert qb (gateway b conn conf errors events) a time quality msg
        traits reply).2._conf_id_cache = some conf
    ∧ (storeDataEventError_insert qb (gateway b conn conf errors events) a time quality msg
        traits reply).2._error_desc_id_cache = some errors
    ∧ (sent (storeDataEventError_insert qb (gateway b conn conf errors events) a time quality
          msg traits reply).2 = conn.executed
      ∨ sent (storeDataEventError_insert qb (gateway b conn conf errors events) a time quality
          msg traits reply).2
          = conn.executed ++ [(qb.storeDataEventErrorName traits,
              [.int id, .real time, .int quality, .int error_id])]) := by
  rw [storeDataEventError_insert_gateway qb b conn conf errors events a msg time quality traits
    reply id error_id hid herr]
  have h := transaction_executed_cases conn (qb.storeDataEventErrorName traits)
    (qb.storeDataEventErrorQuery traits) [.int id, .real time, .int quality, .int error_id] reply
  cases exec_prepared0 reply.rows <;> exact ⟨rfl, rfl, h⟩

/-- C5: in every call of `storeHistoryEvent`, `storeParameterEvent` and
`storeDataEventError`, the statements sent are at most one dimension insert (the event or the
error string) followed by at most one fact insert; and whenever the fact insert is sent, the
attribute cache holds the attribute name and the insert carries its cached id, for
`storeDataEventError` the error cache holds the message and the insert carries its cached
id, for `storeHistoryEvent` the event cache holds the event name.  The caches named are those
of the gateway after the call, which no step after the fact insert changes. -/
theorem fact_insert_refers_to_cached_ids (qb : QueryBuilder) (s : DbConnection)
    (a event msg : String) (traits : AttributeTraits) (p : ParameterStrings)
    (time : Double) (quality : Int) (r1 r2 : TxReply) :
    (∃ dim, (dim = [] ∨ dim = [(qb.StoreHistoryString, [.text event])])
      ∧ (sent (storeHistoryEvent qb s a event r1 r2).2 = sent s ++ dim
        ∨ ∃ conf events id,
            (storeHistoryEvent qb s a event r1 r2).2._conf_id_cache = some conf
            ∧ (storeHistoryEvent qb s a event r1 r2).2._event_id_cache = some events
            ∧ conf.valueExists a = true ∧ conf.value a = some id
            ∧ events.valueExists event = true
            ∧ sent (storeHistoryEvent qb s a event r1 r2).2
                = sent s ++ dim ++ [(qb.StoreHistoryEvent, [.int id, .text event])]))
    ∧ (sent (storeParameterEvent qb s p time r1).2 = sent s
        ∨ ∃ conf id,
            (storeParameterEvent qb s p time r1).2._conf_id_cache = some conf
            ∧ conf.valueExists p.full_attr_name = true ∧ conf.value p.full_attr_name = some id
            ∧ sent (storeParameterEvent qb s p time r1).2
                = sent s ++ [(qb.StoreParameterEvent, storeParameterEventArgs id time p)])
    ∧ (∃ dim, (dim = [] ∨ dim = [(qb.StoreErrorString, [.text msg])])
      ∧ (sent (storeDataEventError qb s a time quality msg traits r1 r2).2 = sent s ++ dim
        ∨ ∃ conf errors id error_id,
            (storeDataEventError qb s a time quality msg traits r1 r2).2._conf_id_cache
              = some conf
            ∧ (storeDataEventError qb s a time quality msg traits r1 r2).2._error_desc_id_cache
              = some errors
            ∧ conf.valueExists a = true ∧ conf.value a = some id
            ∧ errors.valueExists msg = true ∧ errors.value msg = some error_id
            ∧ sent (storeDataEventError qb s a time quality msg traits r1 r2).2
                = sent s ++ dim ++ [(qb.storeDataEventErrorName traits,
                    [.int id, .real time, .int quality, .int error_id])])) := by
  refine ⟨?_, ?_, ?_⟩
  · -- storeHistoryEvent
    cases hassert : storeHistoryEvent_asserts s a event
    · exact ⟨[], Or.inl rfl, Or.inl (by simp [storeHistoryEvent, hassert])⟩
    obtain ⟨conn, conf, errors, events, hs⟩ :=
      eq_gateway_of_membersSet s ((storeHistoryEvent_asserts_iff _ _ _).mp hassert).2.2
    cases hb : s._connected
    · have hclosed : isClosed s = true := by simp [isClosed, isOpen, hb]
      exact ⟨[], Or.inl rfl, Or.inl (by
        simp [storeHistoryEvent, hassert, checkConnection_closed s _ hclosed])⟩
    rw [hb] at hs
    subst hs
    cases hex : conf.valueExists a
    · exact ⟨[], Or.inl rfl, Or.inl (by
        simp [storeHistoryEvent, hassert, checkConnection_open (gateway true conn conf errors events) _ rfl,
          checkAttributeExists_absent _ _ _ _ _ _ _ hex])⟩
    obtain ⟨id, hid⟩ := value_of_valueExists hex
    rw [storeHistoryEvent_open qb conn conf errors events a event r1 r2 hassert hex]
    cases hev : events.valueExists event
    · simp only [Bool.false_eq_true, if_false]
      cases hins : insertedId r1.rows with
      | value event_id =>
        simp only []
        have hx := transaction_executed_of_insertedId conn qb.StoreHistoryString
          qb.storeHistoryStringQuery [.text event] r1 event_id hins
        obtain ⟨h1, h2, h3⟩ := storeHistoryEvent_insert_sent qb true
          (transaction conn qb.StoreHistoryString qb.storeHistoryStringQuery
            (some [.text event]) r1).1 conf errors (events.cacheValue event_id event) a event
          r2 id hid
        refine ⟨[(qb.StoreHistoryString, [.text event])], Or.inr rfl, ?_⟩
        rcases h3 with h3 | h3
        · exact Or.inl (by rw [h3, hx]; rfl)
        · exact Or.inr ⟨conf, events.cacheValue event_id event, id, h1, h2, hex, hid,
            ColumnCache.valueExists_cacheValue_self _ _ _, by rw [h3, hx]; rfl⟩
      | threw what =>
        simp only []
        rcases transaction_executed_cases conn qb.StoreHistoryString
          qb.storeHistoryStringQuery [.text event] r1 with hx | hx
        · exact ⟨[], Or.inl rfl, Or.inl (by simp [sent_gateway, hx])⟩
        · exact ⟨[(qb.StoreHistoryString, [.text event])], Or.inr rfl,
            Or.inl (by simp [sent_gateway, hx])⟩
      | undefined =>
        simp only []
        rcases transaction_executed_cases conn qb.StoreHistoryString
          qb.storeHistoryStringQuery [.text event] r1 with hx | hx
        · exact ⟨[], Or.inl rfl, Or.inl (by simp [sent_gateway, hx])⟩
        · exact ⟨[(qb.StoreHistoryString, [.text event])], Or.inr rfl,
            Or.inl (by simp [sent_gateway, hx])⟩
    · simp only [if_true]
      obtain ⟨h1, h2, h3⟩ := storeHistoryEvent_insert_sent qb true conn conf errors events a
        event r2 id hid
      refine ⟨[], Or.inl rfl, ?_⟩
      rcases h3 with h3 | h3
      · exact Or.inl (by rw [h3]; simp [sent_gateway])
      · exact Or.inr ⟨conf, events, id, h1, h2, hex, hid, hev, by rw [h3]; simp [sent_gateway]⟩
  · -- storeParameterEvent
    cases hassert : storeParameterEvent_asserts s p
    · exact Or.inl (by simp [storeParameterEvent, hassert])
    obtain ⟨conn, conf, errors, events, hs⟩ :=
      eq_gateway_of_membersSet s (storeParameterEvent_membersSet _ _ hassert)
    cases hb : s._connected
    · have hclosed : isClosed s = true := by simp [isClosed, isOpen, hb]
      exact Or.inl (by simp [storeParameterEvent, hassert, checkConnection_closed s _ hclosed])
    rw [hb] at hs
    subst hs
    cases hex : conf.valueExists p.full_attr_name
    · exact Or.inl (by
        simp [storeParameterEvent, hassert, checkConnection_open (gateway true conn conf errors events) _ rfl,
          checkAttributeExists_absent _ _ _ _ _ _ _ hex])
    obtain ⟨id, hid⟩ := value_of_valueExists hex
    rw [storeParameterEvent_open qb conn conf errors events p time r1 id hassert hid]
    have h := transaction_executed_cases conn qb.StoreParameterEvent
      qb.storeParameterEventQuery (storeParameterEventArgs id time p) r1
    cases exec_prepared0 r1.rows <;> rcases h with h | h
    all_goals first
      | exact Or.inl h
      | exact Or.inr ⟨conf, id, rfl, hex, hid, h⟩
  · -- storeDataEventError
    cases hassert : storeDataEventError_asserts s a msg
    · exact ⟨[], Or.inl rfl, Or.inl (by simp [storeDataEventError, hassert])⟩
    obtain ⟨conn, conf, errors, events, hs⟩ :=
      eq_gateway_of_membersSet s ((storeDataEventError_asserts_iff _ _ _).mp hassert).2.2
    cases hb : s._connected
    · have hclosed : isClosed s = true := by simp [isClosed, isOpen, hb]
      exact ⟨[], Or.inl rfl, Or.inl (by
        simp [storeDataEventError, hassert, checkConnection_closed s _ hclosed])⟩
    rw [hb] at hs
    subst hs
    cases hex : conf.valueExists a
    · exact ⟨[], Or.inl rfl, Or.inl (by
        simp [storeDataEventError, hassert, checkConnection_open (gateway true conn conf errors events) _ rfl,
          checkAttributeExists_absent _ _ _ _ _ _ _ hex])⟩
    obtain ⟨id, hid⟩ := value_of_valueExists hex
    rw [storeDataEventError_open qb conn conf errors events a msg time quality traits r1 r2
      hassert hex]
    cases hev : errors.valueExists msg
    · simp only [Bool.false_eq_true, if_false]
      cases hins : insertedId r1.rows with
      | value error_id =>
        simp only []
        have hx := transaction_executed_of_insertedId conn qb.StoreErrorString
          qb.storeErrorQuery [.text msg] r1 error_id hins
        obtain ⟨h1, h2, h3⟩ := storeDataEventError_insert_sent qb true
          (transaction conn qb.StoreErrorString qb.storeErrorQuery (some [.text msg]) r1).1
          conf (errors.cacheValue error_id msg) events a msg time quality traits r2 id error_id
          hid (ColumnCache.value_cacheValue_self _ _ _)
        refine ⟨[(qb.StoreErrorString, [.text msg])], Or.inr rfl, ?_⟩
        rcases h3 with h3 | h3
        · exact Or.inl (by rw [h3, hx]; rfl)
        · exact Or.inr ⟨conf, errors.cacheValue error_id msg, id, error_id, h1, h2, hex, hid,
            ColumnCache.valueExists_cacheValue_self _ _ _,
            ColumnCache.value_cacheValue_self _ _ _, by rw [h3, hx]; rfl⟩
      | threw what =>
        simp only []
        rcases transaction_executed_cases conn qb.StoreErrorString
          qb.storeErrorQuery [.text msg] r1 with hx | hx
        · exact ⟨[], Or.inl rfl, Or.inl (by simp [sent_gateway, hx])⟩
        · exact ⟨[(qb.StoreErrorString, [.text msg])], Or.inr rfl,
            Or.inl (by simp [sent_gateway, hx])⟩
      | undefined =>
        simp only []
        rcases transaction_executed_cases conn qb.StoreErrorString
          qb.storeErrorQuery [.text msg] r1 with hx | hx
        · exact ⟨[], Or.inl rfl, Or.inl (by simp [sent_gateway, hx])⟩
        · exact ⟨[(qb.StoreErrorString, [.text msg])], Or.inr rfl,
            Or.inl (by simp [sent_gateway, hx])⟩
    · simp only [if_true]
      obtain ⟨error_id, herr⟩ := value_of_valueExists hev
      obtain ⟨h1, h2, h3⟩ := storeDataEventError_insert_sent qb true conn conf errors events a
        msg time quality traits r2 id error_id hid herr
      refine ⟨[], Or.inl rfl, ?_⟩
      rcases h3 with h3 | h3
      · exact Or.inl (by rw [h3]; simp [sent_gateway])
      · exact Or.inr ⟨conf, errors, id, error_id, h1, h2, hex, hid, hev, herr,
          by rw [h3]; simp [sent_gateway]⟩

/-! ## The same event, the same error message, twice -/

theorem storeHistoryEvent_insert_returned (qb : QueryBuilder) (b : Bool) (conn : Connection)
    (conf errors events : ColumnCache) (a event : String) (reply : TxReply) (id : Int)
    (s1 : DbConnection) (hid : conf.value a = some id)
    (hret : storeHistoryEvent_insert qb (gateway b conn conf errors events) a event reply
      = (.returned (), s1)) :
    s1 = gateway b
        (transaction conn qb.StoreHistoryEvent qb.storeHistoryEventQuery
          (some [.int id, .text event]) reply).1 conf errors events
    ∧ sent s1 = conn.executed ++ [(qb.StoreHistoryEvent, [.int id, .text event])] := by
  rw [storeHistoryEvent_insert_gateway qb b conn conf errors events a event reply id hid]
    at hret
  cases hx : exec_prepared0 reply.rows with
  | value u =>
    rw [hx] at hret
    simp only [Prod.mk.injEq, true_and] at hret
    subst hret
    exact ⟨rfl, transaction_executed_of_exec_prepared0 _ _ _ _ _ hx⟩
  | threw what => rw [hx] at hret; simp at hret
  | undefined => rw [hx] at hret; simp at hret

theorem storeDataEventError_insert_returned (qb : QueryBuilder) (b : Bool) (conn : Connection)
    (conf errors events : ColumnCache) (a msg : String) (time : Double) (quality : Int)
    (traits : AttributeTraits) (reply : TxReply) (id error_id : Int) (s1 : DbConnection)
    (hid : conf.value a = some id) (herr : errors.value msg = some error_id)
    (hret : storeDataEventError_insert qb (gateway b conn conf errors events) a time quality msg
      traits reply = (.returned (), s1)) :
    s1 = gateway b
        (transaction conn (qb.storeDataEventErrorName traits)
          (qb.storeDataEventErrorQuery traits)
          (some [.int id, .real time, .int quality, .int error_id]) reply).1 conf errors events
    ∧ sent s1 = conn.executed ++ [(qb.storeDataEventErrorName traits,
        [.int id, .real time, .int quality, .int error_id])] := by
  rw [storeDataEventError_insert_gateway qb b conn conf errors events a msg time quality traits
    reply id error_id hid herr] at hret
  cases hx : exec_prepared0 reply.rows with
  | value u =>
    rw [hx] at hret
    simp only [Prod.mk.injEq, true_and] at hret
    subst hret
    exact ⟨rfl, transaction_executed_of_exec_prepared0 _ _ _ _ _ hx⟩
  | threw what => rw [hx] at hret; simp at hret
  | undefined => rw [hx] at hret; simp at hret

/-- C6: on a connected gateway whose attribute cache holds the attribute (with id `id`) and
whose event cache does not hold the event name, two calls `storeHistoryEvent(attr, e)` in a
row that both return send exactly three statements: the first call the insert of the event
string and one history fact, the second call one history fact only; both facts carry the
same attribute id and the same event name. -/
theorem storeHistoryEvent_twice (qb : QueryBuilder) (s s1 s2 : DbConnection)
    (conf events : ColumnCache) (a event : String) (id : Int) (r1 r2 r3 r4 : TxReply)
    (hassert : storeHistoryEvent_asserts s a event = true)
    (hopen : isOpen s = true)
    (hconf : s._conf_id_cache = some conf) (hid : conf.value a = some id)
    (hevents : s._event_id_cache = some events) (hnew : events.valueExists event = false)
    (h1 : storeHistoryEvent qb s a event r1 r2 = (.returned (), s1))
    (h2 : storeHistoryEvent qb s1 a event r3 r4 = (.returned (), s2)) :
    sent s1 = sent s ++ [(qb.StoreHistoryString, [.text event]),
        (qb.StoreHistoryEvent, [.int id, .text event])]
    ∧ sent s2 = sent s1 ++ [(qb.StoreHistoryEvent, [.int id, .text event])] := by
  have hsplit := (storeHistoryEvent_asserts_iff _ _ _).mp hassert
  obtain ⟨conn, conf0, errors, events0, hs⟩ := eq_gateway_of_membersSet s hsplit.2.2
  have hb : s._connected = true := hopen
  rw [hb] at hs
  subst hs
  have hc : conf0 = conf := by simpa [gateway] using hconf
  subst hc
  have he : events0 = events := by simpa [gateway] using hevents
  subst he
  have hex := valueExists_of_value hid
  rw [storeHistoryEvent_open qb conn conf0 errors events0 a event r1 r2 hassert hex, hnew]
    at h1
  simp only [Bool.false_eq_true, if_false] at h1
  cases hins : insertedId r1.rows with
  | threw what => rw [hins] at h1; simp at h1
  | undefined => rw [hins] at h1; simp at h1
  | value event_id =>
    rw [hins] at h1
    simp only [] at h1
    obtain ⟨hs1, hsent1⟩ := storeHistoryEvent_insert_returned qb true _ conf0 errors _ a event
      r2 id s1 hid h1
    have hx := transaction_executed_of_insertedId conn qb.StoreHistoryString
      qb.storeHistoryStringQuery [.text event] r1 event_id hins
    rw [hx] at hsent1
    have hassert1 : storeHistoryEvent_asserts s1 a event = true := by
      rw [hs1]
      exact (storeHistoryEvent_asserts_iff _ _ _).mpr
        ⟨hsplit.1, hsplit.2.1, membersSet_gateway _ _ _ _ _⟩
    rw [hs1] at h2 hassert1
    rw [storeHistoryEvent_open qb _ conf0 errors _ a event r3 r4 hassert1 hex,
      ColumnCache.valueExists_cacheValue_self] at h2
    simp only [if_true] at h2
    obtain ⟨_, hsent2⟩ := storeHistoryEvent_insert_returned qb true _ conf0 errors _ a event
      r4 id s2 hid h2
    refine ⟨by simpa [sent_gateway] using hsent1, ?_⟩
    rw [hsent2, hs1]
    rfl

/-- C6 at a sample: the attribute has id 7, the event "pause" is new and gets id 3. -/
theorem storeHistoryEvent_twice_witness :
    sent (storeHistoryEvent sampleQueryBuilder
        (gateway true sampleConnection ⟨[("a", 7)]⟩ ⟨[]⟩ ⟨[]⟩) "a" "pause"
        (.result [[some "3"]]) (.result [])).2
      = sent (gateway true sampleConnection ⟨[("a", 7)]⟩ ⟨[]⟩ ⟨[]⟩)
        ++ [(sampleQueryBuilder.StoreHistoryString, [.text "pause"]),
            (sampleQueryBuilder.StoreHistoryEvent, [.int 7, .text "pause"])]
    ∧ sent (storeHistoryEvent sampleQueryBuilder
        (storeHistoryEvent sampleQueryBuilder
          (gateway true sampleConnection ⟨[("a", 7)]⟩ ⟨[]⟩ ⟨[]⟩) "a" "pause"
          (.result [[some "3"]]) (.result [])).2 "a" "pause" (.broken "unused") (.result [])).2
      = sent (storeHistoryEvent sampleQueryBuilder
          (gateway true sampleConnection ⟨[("a", 7)]⟩ ⟨[]⟩ ⟨[]⟩) "a" "pause"
          (.result [[some "3"]]) (.result [])).2
        ++ [(sampleQueryBuilder.StoreHistoryEvent, [.int 7, .text "pause"])] :=
  storeHistoryEvent_twice sampleQueryBuilder
    (gateway true sampleConnection ⟨[("a", 7)]⟩ ⟨[]⟩ ⟨[]⟩) _ _ ⟨[("a", 7)]⟩ ⟨[]⟩
    "a" "pause" 7 (.result [[some "3"]]) (.result []) (.broken "unused") (.result [])
    (by decide) (by decide) rfl (by decide) rfl (by decide) (by decide) (by decide)

/-- C7: on a connected gateway whose attribute cache holds the attribute (with id `id`) and
whose error cache does not hold the message, two calls of `storeDataEventError` with that
message in a row that both return send exactly three statements: the first call the insert of
the error string and one data fact, the second call one data fact only; both facts carry the
id that the insert of the error string handed back. -/
theorem storeDataEventError_twice (qb : QueryBuilder) (s s1 s2 : DbConnection)
    (conf errors : ColumnCache) (a msg : String) (id : Int)
    (time time2 : Double) (quality quality2 : Int) (traits traits2 : AttributeTraits)
    (r1 r2 r3 r4 : TxReply)
    (hassert : storeDataEventError_asserts s a msg = true)
    (hopen : isOpen s = true)
    (hconf : s._conf_id_cache = some conf) (hid : conf.value a = some id)
    (herrors : s._error_desc_id_cache = some errors) (hnew : errors.valueExists msg = false)
    (h1 : storeDataEventError qb s a time quality msg traits r1 r2 = (.returned (), s1))
    (h2 : storeDataEventError qb s1 a time2 quality2 msg traits2 r3 r4 = (.returned (), s2)) :
    ∃ error_id, insertedId r1.rows = .value error_id
      ∧ sent s1 = sent s ++ [(qb.StoreErrorString, [.text msg]),
          (qb.storeDataEventErrorName traits,
            [.int id, .real time, .int quality, .int error_id])]
      ∧ sent s2 = sent s1 ++ [(qb.storeDataEventErrorName traits2,
          [.int id, .real time2, .int quality2, .int error_id])] := by
  have hsplit := (storeDataEventError_asserts_iff _ _ _).mp hassert
  obtain ⟨conn, conf0, errors0, events, hs⟩ := eq_gateway_of_membersSet s hsplit.2.2
  have hb : s._connected = true := hopen
  rw [hb] at hs
  subst hs
  have hc : conf0 = conf := by simpa [gateway] using hconf
  subst hc
  have he : errors0 = errors := by simpa [gateway] using herrors
  subst he
  have hex := valueExists_of_value hid
  rw [storeDataEventError_open qb conn conf0 errors0 events a msg time quality traits r1 r2
    hassert hex, hnew] at h1
  simp only [Bool.false_eq_true, if_false] at h1
  cases hins : insertedId r1.rows with
  | threw what => rw [hins] at h1; simp at h1
  | undefined => rw [hins] at h1; simp at h1
  | value error_id =>
    rw [hins] at h1
    simp only [] at h1
    obtain ⟨hs1, hsent1⟩ := storeDataEventError_insert_returned qb true _ conf0 _ events a msg
      time quality traits r2 id error_id s1 hid (ColumnCache.value_cacheValue_self _ _ _) h1
    have hx := transaction_executed_of_insertedId conn qb.StoreErrorString
      qb.storeErrorQuery [.text msg] r1 error_id hins
    rw [hx] at hsent1
    have hassert1 : storeDataEventError_asserts s1 a msg = true := by
      rw [hs1]
      exact (storeDataEventError_asserts_iff _ _ _).mpr
        ⟨hsplit.1, hsplit.2.1, membersSet_gateway _ _ _ _ _⟩
    rw [hs1] at h2 hassert1
    rw [storeDataEventError_open qb _ conf0 _ events a msg time2 quality2 traits2 r3 r4
      hassert1 hex, ColumnCache.valueExists_cacheValue_self] at h2
    simp only [if_true] at h2
    obtain ⟨_, hsent2⟩ := storeDataEventError_insert_returned qb true _ conf0 _ events a msg
      time2 quality2 traits2 r4 id error_id s2 hid (ColumnCache.value_cacheValue_self _ _ _) h2
    refine ⟨error_id, rfl, by simpa [sent_gateway] using hsent1, ?_⟩
    rw [hsent2, hs1]
    rfl

/-- C7 at a sample: the attribute has id 7, the message "sensor fault" is new and gets id
12. -/
theorem storeDataEventError_twice_witness :
    ∃ error_id, insertedId (TxReply.result [[some "12"]]).rows = .value error_id
      ∧ sent (storeDataEventError sampleQueryBuilder
          (gateway true sampleConnection ⟨[("a", 7)]⟩ ⟨[]⟩ ⟨[]⟩) "a" ⟨1⟩ 1 "sensor fault"
          ⟨0, 0, 5⟩ (.result [[some "12"]]) (.result [])).2
        = sent (gateway true sampleConnection ⟨[("a", 7)]⟩ ⟨[]⟩ ⟨[]⟩)
          ++ [(sampleQueryBuilder.StoreErrorString, [.text "sensor fault"]),
              (sampleQueryBuilder.storeDataEventErrorName ⟨0, 0, 5⟩,
                [.int 7, .real ⟨1⟩, .int 1, .int error_id])]
      ∧ sent (storeDataEventError sampleQueryBuilder
          (storeDataEventError sampleQueryBuilder
            (gateway true sampleConnection ⟨[("a", 7)]⟩ ⟨[]⟩ ⟨[]⟩) "a" ⟨1⟩ 1 "sensor fault"
            ⟨0, 0, 5⟩ (.result [[some "12"]]) (.result [])).2
          "a" ⟨2⟩ 1 "sensor fault" ⟨0, 0, 5⟩ (.broken "unused") (.result [])).2
        = sent (storeDataEventError sampleQueryBuilder
            (gateway true sampleConnection ⟨[("a", 7)]⟩ ⟨[]⟩ ⟨[]⟩) "a" ⟨1⟩ 1 "sensor fault"
            ⟨0, 0, 5⟩ (.result [[some "12"]]) (.result [])).2
          ++ [(sampleQueryBuilder.storeDataEventErrorName ⟨0, 0, 5⟩,
                [.int 7, .real ⟨2⟩, .int 1, .int error_id])] :=
  storeDataEventError_twice sampleQueryBuilder
    (gateway true sampleConnection ⟨[("a", 7)]⟩ ⟨[]⟩ ⟨[]⟩) _ _ ⟨[("a", 7)]⟩ ⟨[]⟩
    "a" "sensor fault" 7 ⟨1⟩ ⟨2⟩ 1 1 ⟨0, 0, 5⟩ ⟨0, 0, 5⟩
    (.result [[some "12"]]) (.result []) (.broken "unused") (.result [])
    (by decide) (by decide) rfl (by decide) rfl (by decide) (by decide) (by decide)

/-! ## A failed dimension insert -/

/-- C8: when the insert transaction of `storeAttribute`, of `storeEvent` or of
`storeErrorMsg` fails (the callback throws a `pqxx_exception`, whatever its text), the
operation raises a Storage Error and all three caches are exactly as before the call, so no
entry is made for the key. -/
theorem failed_insert_keeps_caches (qb : QueryBuilder) (s : DbConnection)
    (a cs dom fam mem nm event msg what : String) (traits : AttributeTraits) (reply : TxReply)
    (hfail : insertedId reply.rows = .threw what) :
    (∀ conf, storeAttribute_asserts s a cs dom fam mem nm = true → isOpen s = true →
      s._conf_id_cache = some conf → conf.valueExists a = false →
      (∃ e, e.reason = "Storage Error"
        ∧ (storeAttribute qb s a cs dom fam mem nm traits reply).1 = .raised e)
      ∧ cachesOf (storeAttribute qb s a cs dom fam mem nm traits reply).2 = cachesOf s)
    ∧ (membersSet s = true →
      (∃ e, e.reason = "Storage Error" ∧ (storeEvent qb s a event reply).1 = .raised e)
      ∧ cachesOf (storeEvent qb s a event reply).2 = cachesOf s)
    ∧ (membersSet s = true →
      (∃ e, e.reason = "Storage Error" ∧ (storeErrorMsg qb s a msg reply).1 = .raised e)
      ∧ cachesOf (storeErrorMsg qb s a msg reply).2 = cachesOf s) := by
  refine ⟨?_, ?_, ?_⟩
  · intro conf hassert hopen hconf hnew
    obtain ⟨conn, conf0, errors, events, hs⟩ := eq_gateway_of_membersSet s
      ((storeAttribute_asserts_iff _ _ _ _ _ _ _).mp hassert).2.2.2.2.2.2
    have hb : s._connected = true := hopen
    rw [hb] at hs
    subst hs
    have hc : conf0 = conf := by simpa [gateway] using hconf
    subst hc
    rw [storeAttribute_open qb conn conf0 errors events a cs dom fam mem nm traits reply
      hassert, hnew, hfail]
    exact ⟨⟨_, rfl, rfl⟩, rfl⟩
  · intro hm
    obtain ⟨conn, conf, errors, events, hs⟩ := eq_gateway_of_membersSet s hm
    rw [hs, storeEvent_gateway, hfail]
    exact ⟨⟨_, rfl, rfl⟩, rfl⟩
  · intro hm
    obtain ⟨conn, conf, errors, events, hs⟩ := eq_gateway_of_membersSet s hm
    rw [hs, storeErrorMsg_gateway, hfail]
    exact ⟨⟨_, rfl, rfl⟩, rfl⟩

/-- C8 at a sample: the store rejects the statement. -/
theorem failed_insert_keeps_caches_witness :
    ((∃ e, e.reason = "Storage Error"
        ∧ (storeAttribute sampleQueryBuilder (gateway true sampleConnection ⟨[]⟩ ⟨[]⟩ ⟨[]⟩)
            "a" "c" "d" "f" "m" "n" ⟨0, 0, 5⟩ (.failed "duplicate key")).1 = .raised e)
      ∧ cachesOf (storeAttribute sampleQueryBuilder
          (gateway true sampleConnection ⟨[]⟩ ⟨[]⟩ ⟨[]⟩)
          "a" "c" "d" "f" "m" "n" ⟨0, 0, 5⟩ (.failed "duplicate key")).2
        = cachesOf (gateway true sampleConnection ⟨[]⟩ ⟨[]⟩ ⟨[]⟩))
    ∧ ((∃ e, e.reason = "Storage Error"
        ∧ (storeEvent sampleQueryBuilder (gateway true sampleConnection ⟨[]⟩ ⟨[]⟩ ⟨[]⟩)
            "a" "pause" (.failed "duplicate key")).1 = .raised e)
      ∧ cachesOf (storeEvent sampleQueryBuilder (gateway true sampleConnection ⟨[]⟩ ⟨[]⟩ ⟨[]⟩)
          "a" "pause" (.failed "duplicate key")).2
        = cachesOf (gateway true sampleConnection ⟨[]⟩ ⟨[]⟩ ⟨[]⟩))
    ∧ ((∃ e, e.reason = "Storage Error"
        ∧ (storeErrorMsg sampleQueryBuilder (gateway true sampleConnection ⟨[]⟩ ⟨[]⟩ ⟨[]⟩)
            "a" "sensor fault" (.failed "duplicate key")).1 = .raised e)
      ∧ cachesOf (storeErrorMsg sampleQueryBuilder
          (gateway true sampleConnection ⟨[]⟩ ⟨[]⟩ ⟨[]⟩)
          "a" "sensor fault" (.failed "duplicate key")).2
        = cachesOf (gateway true sampleConnection ⟨[]⟩ ⟨[]⟩ ⟨[]⟩)) :=
  have h := failed_insert_keeps_caches sampleQueryBuilder
    (gateway true sampleConnection ⟨[]⟩ ⟨[]⟩ ⟨[]⟩)
    "a" "c" "d" "f" "m" "n" "pause" "sensor fault" "duplicate key" ⟨0, 0, 5⟩
    (.failed "duplicate key") (by decide)
  ⟨h.1 ⟨[]⟩ (by decide) (by decide) rfl (by decide), h.2.1 (by decide), h.2.2 (by decide)⟩

/-! ## Cache entries between two connects -/

theorem cachedId_grownBy {before after : Option ColumnCache} (h : grownBy before after)
    (key : String) (id : Int) (hid : cachedId before key = some id) :
    cachedId after key = some id := by
  rcases h with h | ⟨c, id2, key2, hb, habsent, ha⟩
  · rw [h]; exact hid
  · subst hb ha
    exact ColumnCache.value_cacheValue_of_absent c id2 key2 key id habsent hid

theorem storeHistoryEvent_insert_cachesOf (qb : QueryBuilder) (s : DbConnection)
    (a event : String) (reply : TxReply) :
    cachesOf (storeHistoryEvent_insert qb s a event reply).2 = cachesOf s := by
  rcases s with ⟨_ | conn, b, _ | conf, errors, events⟩ <;> try rfl
  simp only [storeHistoryEvent_insert]
  cases exec_prepared0 _ <;> rfl

theorem storeDataEventError_insert_cachesOf (qb : QueryBuilder) (s : DbConnection)
    (a : String) (time : Double) (quality : Int) (msg : String) (traits : AttributeTraits)
    (reply : TxReply) :
    cachesOf (storeDataEventError_insert qb s a time quality msg traits reply).2
      = cachesOf s := by
  rcases s with ⟨_ | conn, b, _ | conf, _ | errors, events⟩ <;> try rfl
  simp only [storeDataEventError_insert]
  cases exec_prepared0 _ <;> rfl

theorem cachesGrown_of_eq {s t : DbConnection} (h : cachesOf t = cachesOf s) :
    cachesGrown s t := by
  simp only [cachesOf, Prod.mk.injEq] at h
  exact ⟨Or.inl h.1, Or.inl h.2.1, Or.inl h.2.2⟩

theorem cachesGrown_refl (s : DbConnection) : cachesGrown s s := cachesGrown_of_eq rfl

theorem storeAttribute_cachesGrown (qb : QueryBuilder) (s : DbConnection)
    (a cs dom fam mem nm : String) (traits : AttributeTraits) (reply : TxReply) :
    cachesGrown s (storeAttribute qb s a cs dom fam mem nm traits reply).2 := by
  cases hassert : storeAttribute_asserts s a cs dom fam mem nm
  · simp only [storeAttribute, hassert, Bool.not_false, if_true]
    exact cachesGrown_refl s
  obtain ⟨conn, conf, errors, events, hs⟩ := eq_gateway_of_membersSet s
    ((storeAttribute_asserts_iff _ _ _ _ _ _ _).mp hassert).2.2.2.2.2.2
  cases hb : s._connected
  · have hclosed : isClosed s = true := by simp [isClosed, isOpen, hb]
    simp only [storeAttribute, hassert, checkConnection_closed s _ hclosed, Bool.not_true,
      Bool.false_eq_true, if_false]
    exact cachesGrown_refl s
  rw [hb] at hs
  subst hs
  rw [storeAttribute_open qb conn conf errors events a cs dom fam mem nm traits reply hassert]
  cases hex : conf.valueExists a
  · simp only [Bool.false_eq_true, if_false]
    cases insertedId reply.rows with
    | value conf_id => exact ⟨Or.inr ⟨conf, conf_id, a, rfl, hex, rfl⟩, Or.inl rfl, Or.inl rfl⟩
    | threw what => exact cachesGrown_of_eq rfl
    | undefined => exact cachesGrown_of_eq rfl
  · simp only [if_true]
    exact cachesGrown_refl _

theorem storeHistoryEvent_cachesGrown (qb : QueryBuilder) (s : DbConnection)
    (a event : String) (r1 r2 : TxReply) :
    cachesGrown s (storeHistoryEvent qb s a event r1 r2).2 := by
  cases hassert : storeHistoryEvent_asserts s a event
  · simp only [storeHistoryEvent, hassert, Bool.not_false, if_true]
    exact cachesGrown_refl s
  obtain ⟨conn, conf, errors, events, hs⟩ := eq_gateway_of_membersSet s
    ((storeHistoryEvent_asserts_iff _ _ _).mp hassert).2.2
  cases hb : s._connected
  · have hclosed : isClosed s = true := by simp [isClosed, isOpen, hb]
    simp only [storeHistoryEvent, hassert, checkConnection_closed s _ hclosed, Bool.not_true,
      Bool.false_eq_true, if_false]
    exact cachesGrown_refl s
  rw [hb] at hs
  subst hs
  cases hex : conf.valueExists a
  · simp only [storeHistoryEvent, hassert, Bool.not_true, Bool.false_eq_true, if_false,
      checkConnection_open (gateway true conn conf errors events) _ rfl,
      checkAttributeExists_absent _ _ _ _ _ _ _ hex]
    exact cachesGrown_refl _
  rw [storeHistoryEvent_open qb conn conf errors events a event r1 r2 hassert hex]
  cases hev : events.valueExists event
  · simp only [Bool.false_eq_true, if_false]
    cases insertedId r1.rows with
    | value event_id =>
      have h := storeHistoryEvent_insert_cachesOf qb
        (gateway true
          (transaction conn qb.StoreHistoryString qb.storeHistoryStringQuery
            (some [.text event]) r1).1 conf errors (events.cacheValue event_id event))
        a event r2
      simp only [cachesOf, Prod.mk.injEq] at h
      exact ⟨Or.inl h.1, Or.inl h.2.1, Or.inr ⟨events, event_id, event, rfl, hev, h.2.2⟩⟩
    | threw what => exact cachesGrown_of_eq rfl
    | undefined => exact cachesGrown_of_eq rfl
  · simp only [if_true]
    exact cachesGrown_of_eq (storeHistoryEvent_insert_cachesOf _ _ _ _ _)

theorem storeDataEventError_cachesGrown (qb : QueryBuilder) (s : DbConnection)
    (a : String) (time : Double) (quality : Int) (msg : String) (traits : AttributeTraits)
    (r1 r2 : TxReply) :
    cachesGrown s (storeDataEventError qb s a time quality msg traits r1 r2).2 := by
  cases hassert : storeDataEventError_asserts s a msg
  · simp only [storeDataEventError, hassert, Bool.not_false, if_true]
    exact cachesGrown_refl s
  obtain ⟨conn, conf, errors, events, hs⟩ := eq_gateway_of_membersSet s
    ((storeDataEventError_asserts_iff _ _ _).mp hassert).2.2
  cases hb : s._connected
  · have hclosed : isClosed s = true := by simp [isClosed, isOpen, hb]
    simp only [storeDataEventError, hassert, checkConnection_closed s _ hclosed, Bool.not_true,
      Bool.false_eq_true, if_false]
    exact cachesGrown_refl s
  rw [hb] at hs
  subst hs
  cases hex : conf.valueExists a
  · simp only [storeDataEventError, hassert, Bool.not_true, Bool.false_eq_true, if_false,
      checkConnection_open (gateway true conn conf errors events) _ rfl,
      checkAttributeExists_absent _ _ _ _ _ _ _ hex]
    exact cachesGrown_refl _
  rw [storeDataEventError_open qb conn conf errors events a msg time quality traits r1 r2
    hassert hex]
  cases hev : errors.valueExists msg
  · simp only [Bool.false_eq_true, if_false]
    cases insertedId r1.rows with
    | value error_id =>
      have h := storeDataEventError_insert_cachesOf qb
        (gateway true
          (transaction conn qb.StoreErrorString qb.storeErrorQuery (some [.text msg]) r1).1
          conf (errors.cacheValue error_id msg) events)
        a time quality msg traits r2
      simp only [cachesOf, Prod.mk.injEq] at h
      exact ⟨Or.inl h.1, Or.inr ⟨errors, error_id, msg, rfl, hev, h.2.1⟩, Or.inl h.2.2⟩
    | threw what => exact cachesGrown_of_eq rfl
    | undefined => exact cachesGrown_of_eq rfl
  · simp only [if_true]
    exact cachesGrown_of_eq (storeDataEventError_insert_cachesOf _ _ _ _ _ _ _ _)

theorem storeParameterEvent_cachesOf (qb : QueryBuilder) (s : DbConnection)
    (p : ParameterStrings) (time : Double) (reply : TxReply) :
    cachesOf (storeParameterEvent qb s p time reply).2 = cachesOf s := by
  cases hassert : storeParameterEvent_asserts s p
  · simp only [storeParameterEvent, hassert, Bool.not_false, if_true]
  obtain ⟨conn, conf, errors, events, hs⟩ := eq_gateway_of_membersSet s
    (storeParameterEvent_membersSet _ _ hassert)
  cases hb : s._connected
  · have hclosed : isClosed s = true := by simp [isClosed, isOpen, hb]
    simp only [storeParameterEvent, hassert, checkConnection_closed s _ hclosed, Bool.not_true,
      Bool.false_eq_true, if_false]
  rw [hb] at hs
  subst hs
  cases hex : conf.valueExists p.full_attr_name
  · simp only [storeParameterEvent, hassert, Bool.not_true, Bool.false_eq_true, if_false,
      checkConnection_open (gateway true conn conf errors events) _ rfl,
      checkAttributeExists_absent _ _ _ _ _ _ _ hex]
  obtain ⟨id, hid⟩ := value_of_valueExists hex
  rw [storeParameterEvent_open qb conn conf errors events p time reply id hassert hid]
  cases exec_prepared0 reply.rows <;> rfl

theorem fetchLastHistoryEvent_cachesOf (qb : QueryBuilder) (s : DbConnection)
    (a : String) (reply : TxReply) :
    cachesOf (fetchLastHistoryEvent qb s a reply).2 = cachesOf s := by
  cases hassert : fetchLastHistoryEvent_asserts s a
  · simp only [fetchLastHistoryEvent, hassert, Bool.not_false, if_true]
  obtain ⟨conn, conf, errors, events, hs⟩ := eq_gateway_of_membersSet s
    ((fetchLastHistoryEvent_asserts_iff _ _).mp hassert).2
  cases hb : s._connected
  · have hclosed : isClosed s = true := by simp [isClosed, isOpen, hb]
    simp only [fetchLastHistoryEvent, hassert, checkConnection_closed s _ hclosed,
      Bool.not_true, Bool.false_eq_true, if_false]
  rw [hb] at hs
  subst hs
  cases hex : conf.valueExists a
  · simp only [fetchLastHistoryEvent, hassert, Bool.not_true, Bool.false_eq_true, if_false,
      checkConnection_open (gateway true conn conf errors events) _ rfl,
      checkAttributeExists_absent _ _ _ _ _ _ _ hex]
  obtain ⟨id, hid⟩ := value_of_valueExists hex
  rw [fetchLastHistoryEvent_open qb conn conf errors events a reply id hassert hid]
  cases lastEventOf reply.rows <;> rfl

theorem disconnect_cachesOf (s : DbConnection) : cachesOf (disconnect s).2 = cachesOf s := by
  rcases s with ⟨_ | conn, b, conf, errors, events⟩ <;>
    simp only [disconnect] <;> split <;> rfl

theorem fetchAttributeArchived_state (s : DbConnection) (a : String) :
    (fetchAttributeArchived s a).2 = s := by
  unfold fetchAttributeArchived
  split <;> try rfl
  split <;> rfl

theorem call_cachesGrown (qb : QueryBuilder) (s : DbConnection) (call : Call) :
    cachesGrown s (call.after qb s) := by
  cases call with
  | disconnect => exact cachesGrown_of_eq (disconnect_cachesOf s)
  | storeAttribute a cs dom fam mem nm traits reply =>
    exact storeAttribute_cachesGrown qb s a cs dom fam mem nm traits reply
  | storeHistoryEvent a event r1 r2 => exact storeHistoryEvent_cachesGrown qb s a event r1 r2
  | storeParameterEvent p time reply =>
    exact cachesGrown_of_eq (storeParameterEvent_cachesOf qb s p time reply)
  | storeDataEventError a time quality msg traits r1 r2 =>
    exact storeDataEventError_cachesGrown qb s a time quality msg traits r1 r2
  | fetchLastHistoryEvent a reply =>
    exact cachesGrown_of_eq (fetchLastHistoryEvent_cachesOf qb s a reply)
  | fetchAttributeArchived a =>
    exact cachesGrown_of_eq (by simp only [Call.after, fetchAttributeArchived_state])

theorem afterCalls_cachedId (qb : QueryBuilder) (calls : List Call) :
    ∀ (s : DbConnection) (key : String) (id : Int),
      (cachedId s._conf_id_cache key = some id →
        cachedId (afterCalls qb s calls)._conf_id_cache key = some id)
      ∧ (cachedId s._error_desc_id_cache key = some id →
        cachedId (afterCalls qb s calls)._error_desc_id_cache key = some id)
      ∧ (cachedId s._event_id_cache key = some id →
        cachedId (afterCalls qb s calls)._event_id_cache key = some id) := by
  induction calls with
  | nil => intro s key id; exact ⟨fun h => h, fun h => h, fun h => h⟩
  | cons call rest ih =>
    intro s key id
    have hstep := call_cachesGrown qb s call
    have hrest := ih (call.after qb s) key id
    simp only [afterCalls, List.foldl_cons] at hrest ⊢
    exact ⟨fun h => hrest.1 (cachedId_grownBy hstep.1 key id h),
      fun h => hrest.2.1 (cachedId_grownBy hstep.2.1 key id h),
      fun h => hrest.2.2 (cachedId_grownBy hstep.2.2 key id h)⟩

/-- C9: between two `connect` calls, for each of the attribute, error and event caches: a key
that is mapped to an id stays mapped to that id after any sequence of calls, however they
end; and every single call leaves each cache as it was or adds one entry with `cacheValue`
for a key that was absent from that cache, so nothing is removed or overwritten. -/
theorem cache_entries_persist (qb : QueryBuilder) (s : DbConnection) :
    (∀ (calls : List Call) (key : String) (id : Int),
      (cachedId s._conf_id_cache key = some id →
        cachedId (afterCalls qb s calls)._conf_id_cache key = some id)
      ∧ (cachedId s._error_desc_id_cache key = some id →
        cachedId (afterCalls qb s calls)._error_desc_id_cache key = some id)
      ∧ (cachedId s._event_id_cache key = some id →
        cachedId (afterCalls qb s calls)._event_id_cache key = some id))
    ∧ (∀ call : Call,
      grownBy s._conf_id_cache (call.after qb s)._conf_id_cache
      ∧ grownBy s._error_desc_id_cache (call.after qb s)._error_desc_id_cache
      ∧ grownBy s._event_id_cache (call.after qb s)._event_id_cache) :=
  ⟨fun calls key id => afterCalls_cachedId qb calls s key id,
    fun call => call_cachesGrown qb s call⟩

/-- C9 at a sample: each cache holds one entry, then an attribute is stored, an event is
stored for the first time, an error is stored for the first time, and the gateway is
disconnected. -/
theorem cache_entries_persist_witness :
    cachedId (afterCalls sampleQueryBuilder
        (gateway true sampleConnection ⟨[("a", 7)]⟩ ⟨[("sensor fault", 12)]⟩ ⟨[("pause", 3)]⟩)
        [.storeAttribute "b" "c" "d" "f" "m" "n" ⟨0, 0, 5⟩ (.result [[some "8"]]),
          .storeHistoryEvent "a" "start" (.result [[some "4"]]) (.result []),
          .storeDataEventError "b" ⟨1⟩ 1 "timeout" ⟨0, 0, 5⟩ (.result [[some "13"]])
            (.result []),
          .disconnect])._conf_id_cache "a" = some 7
    ∧ cachedId (afterCalls sampleQueryBuilder
        (gateway true sampleConnection ⟨[("a", 7)]⟩ ⟨[("sensor fault", 12)]⟩ ⟨[("pause", 3)]⟩)
        [.storeAttribute "b" "c" "d" "f" "m" "n" ⟨0, 0, 5⟩ (.result [[some "8"]]),
          .storeHistoryEvent "a" "start" (.result [[some "4"]]) (.result []),
          .storeDataEventError "b" ⟨1⟩ 1 "timeout" ⟨0, 0, 5⟩ (.result [[some "13"]])
            (.result []),
          .disconnect])._error_desc_id_cache "sensor fault" = some 12
    ∧ cachedId (afterCalls sampleQueryBuilder
        (gateway true sampleConnection ⟨[("a", 7)]⟩ ⟨[("sensor fault", 12)]⟩ ⟨[("pause", 3)]⟩)
        [.storeAttribute "b" "c" "d" "f" "m" "n" ⟨0, 0, 5⟩ (.result [[some "8"]]),
          .storeHistoryEvent "a" "start" (.result [[some "4"]]) (.result []),
          .storeDataEventError "b" ⟨1⟩ 1 "timeout" ⟨0, 0, 5⟩ (.result [[some "13"]])
            (.result []),
          .disconnect])._event_id_cache "pause" = some 3 :=
  have h := (cache_entries_persist sampleQueryBuilder
    (gateway true sampleConnection ⟨[("a", 7)]⟩ ⟨[("sensor fault", 12)]⟩ ⟨[("pause", 3)]⟩)).1
    [.storeAttribute "b" "c" "d" "f" "m" "n" ⟨0, 0, 5⟩ (.result [[some "8"]]),
      .storeHistoryEvent "a" "start" (.result [[some "4"]]) (.result []),
      .storeDataEventError "b" ⟨1⟩ 1 "timeout" ⟨0, 0, 5⟩ (.result [[some "13"]]) (.result []),
      .disconnect]
  ⟨(h "a" 7).1 (by decide), (h "sensor fault" 12).2.1 (by decide),
    (h "pause" 3).2.2 (by decide)⟩

/-! ## No history yet, for an attribute the gateway does not know -/

theorem fetchLastHistoryEvent_unknown_after_connect (qb : QueryBuilder) (reply : TxReply) :
    fetchLastHistoryEvent qb (connect DbConnection.new "host=hdb1" .opened).2 "a" reply
      = (.raised (unknownAttributeError "a" (LOCATION_INFO "fetchLastHistoryEvent")),
          (connect DbConnection.new "host=hdb1" .opened).2)
    ∧ (fetchLastHistoryEvent qb (connect DbConnection.new "host=hdb1" .opened).2 "a" reply).1
      ≠ .returned "" := by
  have h : fetchLastHistoryEvent qb (connect DbConnection.new "host=hdb1" .opened).2 "a" reply
      = (.raised (unknownAttributeError "a" (LOCATION_INFO "fetchLastHistoryEvent")),
          (connect DbConnection.new "host=hdb1" .opened).2) := by
      have hs : (connect DbConnection.new "host=hdb1" .opened).2
          = gateway true { is_open := true, prepared := [], executed := [] } ⟨[]⟩ ⟨[]⟩ ⟨[]⟩ :=
        rfl
      have hassert : fetchLastHistoryEvent_asserts
          (gateway true { is_open := true, prepared := [], executed := [] } ⟨[]⟩ ⟨[]⟩ ⟨[]⟩) "a"
          = true := by decide
      rw [hs]
      simp only [fetchLastHistoryEvent, hassert, Bool.not_true, Bool.false_eq_true, if_false,
        checkConnection_open
          (gateway true { is_open := true, prepared := [], executed := [] } ⟨[]⟩ ⟨[]⟩ ⟨[]⟩)
          _ rfl,
        checkAttributeExists_absent true _ ⟨[]⟩ ⟨[]⟩ ⟨[]⟩ "a" _ (by decide)]
  refine ⟨h, ?_⟩
  rw [h]
  simp

/-- C11, as stated, fails for an attribute the gateway does not know: on a gateway that has
just been connected, with no attribute and no history event stored through it, the call
`fetchLastHistoryEvent("a")`, with a store that would answer with no row, does not return
the empty string; it raises the Consistency Error of `checkAttributeExists`. -/
theorem fetchLastHistoryEvent_unknown_counterexample :
    fetchLastHistoryEvent sampleQueryBuilder (connect DbConnection.new "host=hdb1" .opened).2
        "a" (.result [])
      = (.raised (unknownAttributeError "a" (LOCATION_INFO "fetchLastHistoryEvent")),
          (connect DbConnection.new "host=hdb1" .opened).2)
    ∧ (fetchLastHistoryEvent sampleQueryBuilder
        (connect DbConnection.new "host=hdb1" .opened).2 "a" (.result [])).1
      ≠ .returned "" :=
  fetchLastHistoryEvent_unknown_after_connect sampleQueryBuilder (.result [])

/-- C11, amended: on a connected gateway, requesting the last event of an attribute that the
attribute cache holds, when the query yields no row because no event is stored for it,
raises no error and returns the empty string.  For an attribute that the attribute cache
does not hold, the request raises the Consistency Error of `checkAttributeExists` instead,
whatever the store would answer: it sends no query and leaves the gateway as it was. -/
theorem fetchLastHistoryEvent_without_events (qb : QueryBuilder) (s : DbConnection)
    (conf : ColumnCache) (a : String) (reply : TxReply)
    (hassert : fetchLastHistoryEvent_asserts s a = true)
    (hopen : isOpen s = true)
    (hconf : s._conf_id_cache = some conf) :
    (conf.valueExists a = true →
      (fetchLastHistoryEvent qb s a (.result [])).1 = .returned "")
    ∧ (conf.valueExists a = false →
      fetchLastHistoryEvent qb s a reply
          = (.raised (unknownAttributeError a (LOCATION_INFO "fetchLastHistoryEvent")), s)
      ∧ sent (fetchLastHistoryEvent qb s a reply).2 = sent s
      ∧ (fetchLastHistoryEvent qb s a reply).1 ≠ .returned "") := by
  obtain ⟨conn, conf0, errors, events, hs⟩ :=
    eq_gateway_of_membersSet s ((fetchLastHistoryEvent_asserts_iff _ _).mp hassert).2
  have hb : s._connected = true := hopen
  rw [hb] at hs
  subst hs
  have hc : conf0 = conf := by simpa [gateway] using hconf
  subst hc
  constructor
  · intro hex
    obtain ⟨id, hid⟩ := value_of_valueExists hex
    rw [fetchLastHistoryEvent_open qb conn conf0 errors events a _ id hassert hid]
    rfl
  · intro hnew
    have h : fetchLastHistoryEvent qb (gateway true conn conf0 errors events) a reply
        = (.raised (unknownAttributeError a (LOCATION_INFO "fetchLastHistoryEvent")),
            gateway true conn conf0 errors events) := by
      simp only [fetchLastHistoryEvent, hassert, Bool.not_true, Bool.false_eq_true, if_false,
        checkConnection_open (gateway true conn conf0 errors events) _ rfl,
        checkAttributeExists_absent true conn conf0 errors events a _ hnew]
    rw [h]
    exact ⟨rfl, rfl, by simp⟩

/-- C11 at samples: an attribute cached with id 7 that has no history row, and an attribute
that a gateway with an empty attribute cache does not know. -/
theorem fetchLastHistoryEvent_without_events_witness :
    (fetchLastHistoryEvent sampleQueryBuilder
        (gateway true sampleConnection ⟨[("a", 7)]⟩ ⟨[]⟩ ⟨[]⟩) "a" (.result [])).1
      = .returned ""
    ∧ fetchLastHistoryEvent sampleQueryBuilder
        (gateway true sampleConnection ⟨[]⟩ ⟨[]⟩ ⟨[]⟩) "a" (.result [])
      = (.raised (unknownAttributeError "a" (LOCATION_INFO "fetchLastHistoryEvent")),
          gateway true sampleConnection ⟨[]⟩ ⟨[]⟩ ⟨[]⟩) :=
  ⟨(fetchLastHistoryEvent_without_events sampleQueryBuilder
      (gateway true sampleConnection ⟨[("a", 7)]⟩ ⟨[]⟩ ⟨[]⟩) ⟨[("a", 7)]⟩ "a" (.result [])
      (by decide) (by decide) rfl).1 (by decide),
    ((fetchLastHistoryEvent_without_events sampleQueryBuilder
      (gateway true sampleConnection ⟨[]⟩ ⟨[]⟩ ⟨[]⟩) ⟨[]⟩ "a" (.result [])
      (by decide) (by decide) rfl).2 (by decide)).1⟩

/-! ## Parameter events -/

/-- C13: on a connected gateway whose attribute cache holds the attribute (with id `id`),
every call of `storeParameterEvent` that returns has sent exactly one statement, the
parameter insert with the cached id, whatever was sent before; two such calls with the same
arguments send it twice; and the three caches are as before the call. -/
theorem storeParameterEvent_inserts_one (qb : QueryBuilder) (s s1 s2 : DbConnection)
    (conf : ColumnCache) (p : ParameterStrings) (time : Double) (id : Int) (r1 r2 : TxReply)
    (hassert : storeParameterEvent_asserts s p = true)
    (hopen : isOpen s = true)
    (hconf : s._conf_id_cache = some conf) (hid : conf.value p.full_attr_name = some id)
    (h1 : storeParameterEvent qb s p time r1 = (.returned (), s1))
    (h2 : storeParameterEvent qb s1 p time r2 = (.returned (), s2)) :
    sent s1 = sent s ++ [(qb.StoreParameterEvent, storeParameterEventArgs id time p)]
    ∧ sent s2 = sent s ++ [(qb.StoreParameterEvent, storeParameterEventArgs id time p),
        (qb.StoreParameterEvent, storeParameterEventArgs id time p)]
    ∧ cachesOf s1 = cachesOf s ∧ cachesOf s2 = cachesOf s := by
  obtain ⟨conn, conf0, errors, events, hs⟩ :=
    eq_gateway_of_membersSet s (storeParameterEvent_membersSet _ _ hassert)
  have hb : s._connected = true := hopen
  rw [hb] at hs
  subst hs
  have hc : conf0 = conf := by simpa [gateway] using hconf
  subst hc
  rw [storeParameterEvent_open qb conn conf0 errors events p time r1 id hassert hid] at h1
  cases hx : exec_prepared0 r1.rows with
  | threw what => rw [hx] at h1; simp at h1
  | undefined => rw [hx] at h1; simp at h1
  | value u =>
    rw [hx] at h1
    simp only [Prod.mk.injEq, true_and] at h1
    subst h1
    have he1 := transaction_executed_of_exec_prepared0 conn qb.StoreParameterEvent
      qb.storeParameterEventQuery (storeParameterEventArgs id time p) r1 hx
    have hassert1 : storeParameterEvent_asserts
        (gateway true
          (transaction conn qb.StoreParameterEvent qb.storeParameterEventQuery
            (some (storeParameterEventArgs id time p)) r1).1 conf0 errors events) p = true := by
      simp only [storeParameterEvent_asserts, membersSet_gateway, Bool.and_true] at hassert ⊢
      exact hassert
    rw [storeParameterEvent_open qb _ conf0 errors events p time r2 id hassert1 hid] at h2
    cases hy : exec_prepared0 r2.rows with
    | threw what => rw [hy] at h2; simp at h2
    | undefined => rw [hy] at h2; simp at h2
    | value u2 =>
      rw [hy] at h2
      simp only [Prod.mk.injEq, true_and] at h2
      subst h2
      have he2 := transaction_executed_of_exec_prepared0
        (transaction conn qb.StoreParameterEvent qb.storeParameterEventQuery
          (some (storeParameterEventArgs id time p)) r1).1 qb.StoreParameterEvent
        qb.storeParameterEventQuery (storeParameterEventArgs id time p) r2 hy
      refine ⟨?_, ?_, rfl, rfl⟩
      · simp [sent_gateway, he1]
      · simp [sent_gateway, he2, he1]

/-- C13 at a sample: the attribute has id 7, the same parameters are stored twice. -/
theorem storeParameterEvent_inserts_one_witness :
    sent (storeParameterEvent sampleQueryBuilder
        (gateway true sampleConnection ⟨[("a", 7)]⟩ ⟨[]⟩ ⟨[]⟩) (sampleParameters "a") ⟨1⟩
        (.result [])).2
      = sent (gateway true sampleConnection ⟨[("a", 7)]⟩ ⟨[]⟩ ⟨[]⟩)
        ++ [(sampleQueryBuilder.StoreParameterEvent,
              storeParameterEventArgs 7 ⟨1⟩ (sampleParameters "a"))]
    ∧ sent (storeParameterEvent sampleQueryBuilder
        (storeParameterEvent sampleQueryBuilder
          (gateway true sampleConnection ⟨[("a", 7)]⟩ ⟨[]⟩ ⟨[]⟩) (sampleParameters "a") ⟨1⟩
          (.result [])).2 (sampleParameters "a") ⟨1⟩ (.result [])).2
      = sent (gateway true sampleConnection ⟨[("a", 7)]⟩ ⟨[]⟩ ⟨[]⟩)
        ++ [(sampleQueryBuilder.StoreParameterEvent,
              storeParameterEventArgs 7 ⟨1⟩ (sampleParameters "a")),
            (sampleQueryBuilder.StoreParameterEvent,
              storeParameterEventArgs 7 ⟨1⟩ (sampleParameters "a"))]
    ∧ cachesOf (storeParameterEvent sampleQueryBuilder
        (gateway true sampleConnection ⟨[("a", 7)]⟩ ⟨[]⟩ ⟨[]⟩) (sampleParameters "a") ⟨1⟩
        (.result [])).2
      = cachesOf (gateway true sampleConnection ⟨[("a", 7)]⟩ ⟨[]⟩ ⟨[]⟩)
    ∧ cachesOf (storeParameterEvent sampleQueryBuilder
        (storeParameterEvent sampleQueryBuilder
          (gateway true sampleConnection ⟨[("a", 7)]⟩ ⟨[]⟩ ⟨[]⟩) (sampleParameters "a") ⟨1⟩
          (.result [])).2 (sampleParameters "a") ⟨1⟩ (.result [])).2
      = cachesOf (gateway true sampleConnection ⟨[("a", 7)]⟩ ⟨[]⟩ ⟨[]⟩) :=
  storeParameterEvent_inserts_one sampleQueryBuilder
    (gateway true sampleConnection ⟨[("a", 7)]⟩ ⟨[]⟩ ⟨[]⟩) _ _ ⟨[("a", 7)]⟩
    (sampleParameters "a") ⟨1⟩ 7 (.result []) (.result [])
    (by decide) (by decide) rfl (by decide) (by decide) (by decide)

/-! ## Open and closed -/

/-- C19: after a `connect` that succeeds the gateway reports open (`isOpen` true, `isClosed`
false); a `disconnect` that follows returns, after it the gateway reports closed (`isClosed`
true, `isOpen` false), and the three caches are those from before the `disconnect`. -/
theorem connect_then_disconnect (s : DbConnection) (connect_string : String) :
    (connect s connect_string .opened).1 = .returned ()
    ∧ isOpen (connect s connect_string .opened).2 = true
    ∧ isClosed (connect s connect_string .opened).2 = false
    ∧ (disconnect (connect s connect_string .opened).2).1 = .returned ()
    ∧ isClosed (disconnect (connect s connect_string .opened).2).2 = true
    ∧ isOpen (disconnect (connect s connect_string .opened).2).2 = false
    ∧ cachesOf (disconnect (connect s connect_string .opened).2).2
        = cachesOf (connect s connect_string .opened).2
    ∧ ∀ t : DbConnection, cachesOf (disconnect t).2 = cachesOf t :=
  ⟨rfl, rfl, rfl, rfl, rfl, rfl, rfl, disconnect_cachesOf⟩

/-! ## The connection check comes before the attribute check -/

/-- C20: when the connected flag is not set, the error of a call that passes its entry
assertions is the one `checkConnection` raises, not a Consistency Error, and the gateway is
left as it was: for `storeHistoryEvent`, `storeParameterEvent`, `storeDataEventError` and
`fetchLastHistoryEvent` although the attribute cache does not hold the attribute name, and
for `storeAttribute` although the cache already holds the name. -/
theorem connection_checked_first (qb : QueryBuilder) (s : DbConnection)
    (hclosed : isClosed s = true)
    (a cs dom fam mem nm event msg : String) (traits : AttributeTraits) (p : ParameterStrings)
    (time : Double) (quality : Int) (r1 r2 : TxReply) :
    (cachedId s._conf_id_cache a = none → storeHistoryEvent_asserts s a event = true →
      ∃ e, checkConnection s (LOCATION_INFO "storeHistoryEvent") = .raised e
        ∧ e.desc = closedDescription ∧ e.reason ≠ "Consistency Error"
        ∧ storeHistoryEvent qb s a event r1 r2 = (.raised e, s))
    ∧ (cachedId s._conf_id_cache p.full_attr_name = none → storeParameterEvent_asserts s p = true →
      ∃ e, checkConnection s (LOCATION_INFO "storeParameterEvent") = .raised e
        ∧ e.desc = closedDescription ∧ e.reason ≠ "Consistency Error"
        ∧ storeParameterEvent qb s p time r1 = (.raised e, s))
    ∧ (cachedId s._conf_id_cache a = none → storeDataEventError_asserts s a msg = true →
      ∃ e, checkConnection s (LOCATION_INFO "storeDataEventError") = .raised e
        ∧ e.desc = closedDescription ∧ e.reason ≠ "Consistency Error"
        ∧ storeDataEventError qb s a time quality msg traits r1 r2 = (.raised e, s))
    ∧ (cachedId s._conf_id_cache a = none → fetchLastHistoryEvent_asserts s a = true →
      ∃ e, checkConnection s (LOCATION_INFO "fetchLastHistoryEvent") = .raised e
        ∧ e.desc = closedDescription ∧ e.reason ≠ "Consistency Error"
        ∧ fetchLastHistoryEvent qb s a r1 = (.raised e, s))
    ∧ (cachedId s._conf_id_cache a ≠ none → storeAttribute_asserts s a cs dom fam mem nm = true →
      ∃ e, checkConnection s (LOCATION_INFO "storeAttribute") = .raised e
        ∧ e.desc = closedDescription ∧ e.reason ≠ "Consistency Error"
        ∧ storeAttribute qb s a cs dom fam mem nm traits r1 = (.raised e, s)) := by
  refine ⟨fun _ h => ⟨_, checkConnection_closed s _ hclosed, rfl, by decide, ?_⟩,
    fun _ h => ⟨_, checkConnection_closed s _ hclosed, rfl, by decide, ?_⟩,
    fun _ h => ⟨_, checkConnection_closed s _ hclosed, rfl, by decide, ?_⟩,
    fun _ h => ⟨_, checkConnection_closed s _ hclosed, rfl, by decide, ?_⟩,
    fun _ h => ⟨_, checkConnection_closed s _ hclosed, rfl, by decide, ?_⟩⟩
  · simp [storeHistoryEvent, h, checkConnection_closed s _ hclosed]
  · simp [storeParameterEvent, h, checkConnection_closed s _ hclosed]
  · simp [storeDataEventError, h, checkConnection_closed s _ hclosed]
  · simp [fetchLastHistoryEvent, h, checkConnection_closed s _ hclosed]
  · simp [storeAttribute, h, checkConnection_closed s _ hclosed]

/-- C20 at a sample: a disconnected gateway that knows the attribute "a" but not "b". -/
theorem connection_checked_first_witness :
    (∃ e, checkConnection (gateway false sampleConnection ⟨[("a", 7)]⟩ ⟨[]⟩ ⟨[]⟩)
          (LOCATION_INFO "storeHistoryEvent") = .raised e
        ∧ e.desc = closedDescription ∧ e.reason ≠ "Consistency Error"
        ∧ storeHistoryEvent sampleQueryBuilder
            (gateway false sampleConnection ⟨[("a", 7)]⟩ ⟨[]⟩ ⟨[]⟩) "b" "pause"
            (.result [[some "3"]]) (.result [])
          = (.raised e, gateway false sampleConnection ⟨[("a", 7)]⟩ ⟨[]⟩ ⟨[]⟩))
    ∧ (∃ e, checkConnection (gateway false sampleConnection ⟨[("a", 7)]⟩ ⟨[]⟩ ⟨[]⟩)
          (LOCATION_INFO "storeParameterEvent") = .raised e
        ∧ e.desc = closedDescription ∧ e.reason ≠ "Consistency Error"
        ∧ storeParameterEvent sampleQueryBuilder
            (gateway false sampleConnection ⟨[("a", 7)]⟩ ⟨[]⟩ ⟨[]⟩) (sampleParameters "b") ⟨1⟩
            (.result [[some "3"]])
          = (.raised e, gateway false sampleConnection ⟨[("a", 7)]⟩ ⟨[]⟩ ⟨[]⟩))
    ∧ (∃ e, checkConnection (gateway false sampleConnection ⟨[("a", 7)]⟩ ⟨[]⟩ ⟨[]⟩)
          (LOCATION_INFO "storeDataEventError") = .raised e
        ∧ e.desc = closedDescription ∧ e.reason ≠ "Consistency Error"
        ∧ storeDataEventError sampleQueryBuilder
            (gateway false sampleConnection ⟨[("a", 7)]⟩ ⟨[]⟩ ⟨[]⟩) "b" ⟨1⟩ 1 "sensor fault"
            ⟨0, 0, 5⟩ (.result [[some "3"]]) (.result [])
          = (.raised e, gateway false sampleConnection ⟨[("a", 7)]⟩ ⟨[]⟩ ⟨[]⟩))
    ∧ (∃ e, checkConnection (gateway false sampleConnection ⟨[("a", 7)]⟩ ⟨[]⟩ ⟨[]⟩)
          (LOCATION_INFO "fetchLastHistoryEvent") = .raised e
        ∧ e.desc = closedDescription ∧ e.reason ≠ "Consistency Error"
        ∧ fetchLastHistoryEvent sampleQueryBuilder
            (gateway false sampleConnection ⟨[("a", 7)]⟩ ⟨[]⟩ ⟨[]⟩) "b" (.result [[some "3"]])
          = (.raised e, gateway false sampleConnection ⟨[("a", 7)]⟩ ⟨[]⟩ ⟨[]⟩))
    ∧ (∃ e, checkConnection (gateway false sampleConnection ⟨[("b", 7)]⟩ ⟨[]⟩ ⟨[]⟩)
          (LOCATION_INFO "storeAttribute") = .raised e
        ∧ e.desc = closedDescription ∧ e.reason ≠ "Consistency Error"
        ∧ storeAttribute sampleQueryBuilder
            (gateway false sampleConnection ⟨[("b", 7)]⟩ ⟨[]⟩ ⟨[]⟩) "b" "c" "d" "f" "m" "n"
            ⟨0, 0, 5⟩ (.result [[some "3"]])
          = (.raised e, gateway false sampleConnection ⟨[("b", 7)]⟩ ⟨[]⟩ ⟨[]⟩)) :=
  have h := connection_checked_first sampleQueryBuilder
    (gateway false sampleConnection ⟨[("a", 7)]⟩ ⟨[]⟩ ⟨[]⟩) (by decide)
    "b" "c" "d" "f" "m" "n" "pause" "sensor fault" ⟨0, 0, 5⟩ (sampleParameters "b") ⟨1⟩ 1
    (.result [[some "3"]]) (.result [])
  have h2 := connection_checked_first sampleQueryBuilder
    (gateway false sampleConnection ⟨[("b", 7)]⟩ ⟨[]⟩ ⟨[]⟩) (by decide)
    "b" "c" "d" "f" "m" "n" "pause" "sensor fault" ⟨0, 0, 5⟩ (sampleParameters "b") ⟨1⟩ 1
    (.result [[some "3"]]) (.result [])
  ⟨h.1 (by decide) (by decide), h.2.1 (by decide) (by decide),
    h.2.2.1 (by decide) (by decide), h.2.2.2.1 (by decide) (by decide),
    h2.2.2.2.2 (by decide) (by decide)⟩

/-! ## What a Storage Error carries -/

theorem handlePqxxError_eq (msg what query location : String) :
    handlePqxxError msg what query location = storageError msg location := rfl

theorem storeAttribute_storage_error (qb : QueryBuilder) (s : DbConnection)
    (a cs dom fam mem nm : String) (traits : AttributeTraits) (reply : TxReply) (e : DevFailed)
    (h : (storeAttribute qb s a cs dom fam mem nm traits reply).1 = .raised e)
    (hr : e.reason = "Storage Error") :
    e = storageError ("The attribute [" ++ a ++ "] was not saved.")
      (LOCATION_INFO "storeAttribute") := by
  cases hassert : storeAttribute_asserts s a cs dom fam mem nm
  · simp [storeAttribute, hassert] at h
  obtain ⟨conn, conf, errors, events, hs⟩ := eq_gateway_of_membersSet s
    ((storeAttribute_asserts_iff _ _ _ _ _ _ _).mp hassert).2.2.2.2.2.2
  cases hb : s._connected
  · have hclosed : isClosed s = true := by simp [isClosed, isOpen, hb]
    simp only [storeAttribute, hassert, checkConnection_closed s _ hclosed, Bool.not_true,
      Bool.false_eq_true, if_false, Outcome.raised.injEq] at h
    subst h
    exact absurd hr (by decide)
  rw [hb] at hs
  subst hs
  rw [storeAttribute_open qb conn conf errors events a cs dom fam mem nm traits reply hassert]
    at h
  cases hex : conf.valueExists a
  · rw [hex] at h
    simp only [Bool.false_eq_true, if_false] at h
    cases hid : insertedId reply.rows with
    | value conf_id => rw [hid] at h; simp at h
    | threw what =>
      rw [hid] at h
      simp only [Outcome.raised.injEq] at h
      exact h.symm
    | undefined => rw [hid] at h; simp at h
  · rw [hex] at h
    simp only [if_true, Outcome.raised.injEq] at h
    subst h
    simp at hr

theorem storeHistoryEvent_storage_error (qb : QueryBuilder) (s : DbConnection)
    (a event : String) (r1 r2 : TxReply) (e : DevFailed)
    (h : (storeHistoryEvent qb s a event r1 r2).1 = .raised e)
    (hr : e.reason = "Storage Error") :
    e = storageError ("The event [" ++ event ++ "] for attribute [" ++ a ++ "] was not saved.")
        (LOCATION_INFO "storeEvent")
    ∨ e = storageError ("The attribute [" ++ a ++ "] event [" ++ event ++ "] was not saved.")
        (LOCATION_INFO "storeHistoryEvent") := by
  cases hassert : storeHistoryEvent_asserts s a event
  · simp [storeHistoryEvent, hassert] at h
  obtain ⟨conn, conf, errors, events, hs⟩ := eq_gateway_of_membersSet s
    ((storeHistoryEvent_asserts_iff _ _ _).mp hassert).2.2
  cases hb : s._connected
  · have hclosed : isClosed s = true := by simp [isClosed, isOpen, hb]
    simp only [storeHistoryEvent, hassert, checkConnection_closed s _ hclosed, Bool.not_true,
      Bool.false_eq_true, if_false, Outcome.raised.injEq] at h
    subst h
    simp at hr
  rw [hb] at hs
  subst hs
  cases hex : conf.valueExists a
  · simp only [storeHistoryEvent, hassert, Bool.not_true, Bool.false_eq_true, if_false,
      checkConnection_open (gateway true conn conf errors events) _ rfl,
      checkAttributeExists_absent _ _ _ _ _ _ _ hex, Outcome.raised.injEq] at h
    subst h
    simp [unknownAttributeError] at hr
  obtain ⟨id, hid⟩ := value_of_valueExists hex
  rw [storeHistoryEvent_open qb conn conf errors events a event r1 r2 hassert hex] at h
  have insert_case : ∀ (c : Connection) (ev : ColumnCache),
      (storeHistoryEvent_insert qb (gateway true c conf errors ev) a event r2).1 = .raised e →
      e = storageError ("The attribute [" ++ a ++ "] event [" ++ event ++ "] was not saved.")
        (LOCATION_INFO "storeHistoryEvent") := by
    intro c ev hi
    rw [storeHistoryEvent_insert_gateway qb true c conf errors ev a event r2 id hid] at hi
    cases hx : exec_prepared0 r2.rows with
    | value u => rw [hx] at hi; simp at hi
    | threw what =>
      rw [hx] at hi
      simp only [Outcome.raised.injEq] at hi
      exact hi.symm
    | undefined => rw [hx] at hi; simp at hi
  cases hev : events.valueExists event
  · rw [hev] at h
    simp only [Bool.false_eq_true, if_false] at h
    cases hins : insertedId r1.rows with
    | value event_id =>
      rw [hins] at h
      exact Or.inr (insert_case _ _ h)
    | threw what =>
      rw [hins] at h
      simp only [Outcome.raised.injEq] at h
      exact Or.inl h.symm
    | undefined => rw [hins] at h; simp at h
  · rw [hev] at h
    simp only [if_true] at h
    exact Or.inr (insert_case _ _ h)

theorem storeDataEventError_storage_error (qb : QueryBuilder) (s : DbConnection)
    (a : String) (time : Double) (quality : Int) (msg : String) (traits : AttributeTraits)
    (r1 r2 : TxReply) (e : DevFailed)
    (h : (storeDataEventError qb s a time quality msg traits r1 r2).1 = .raised e)
    (hr : e.reason = "Storage Error") :
    e = storageError
        ("The error string [" ++ msg ++ "] for attribute [" ++ a ++ "] was not saved")
        (LOCATION_INFO "storeErrorMsg")
    ∨ e = storageError
        ("The attribute [" ++ a ++ "] error message [" ++ msg ++ "] was not saved.")
        (LOCATION_INFO "storeDataEventError") := by
  cases hassert : storeDataEventError_asserts s a msg
  · simp [storeDataEventError, hassert] at h
  obtain ⟨conn, conf, errors, events, hs⟩ := eq_gateway_of_membersSet s
    ((storeDataEventError_asserts_iff _ _ _).mp hassert).2.2
  cases hb : s._connected
  · have hclosed : isClosed s = true := by simp [isClosed, isOpen, hb]
    simp only [storeDataEventError, hassert, checkConnection_closed s _ hclosed, Bool.not_true,
      Bool.false_eq_true, if_false, Outcome.raised.injEq] at h
    subst h
    simp at hr
  rw [hb] at hs
  subst hs
  cases hex : conf.valueExists a
  · simp only [storeDataEventError, hassert, Bool.not_true, Bool.false_eq_true, if_false,
      checkConnection_open (gateway true conn conf errors events) _ rfl,
      checkAttributeExists_absent _ _ _ _ _ _ _ hex, Outcome.raised.injEq] at h
    subst h
    simp [unknownAttributeError] at hr
  obtain ⟨id, hid⟩ := value_of_valueExists hex
  rw [storeDataEventError_open qb conn conf errors events a msg time quality traits r1 r2
    hassert hex] at h
  have insert_case : ∀ (c : Connection) (er : ColumnCache) (error_id : Int),
      er.value msg = some error_id →
      (storeDataEventError_insert qb (gateway true c conf er events) a time quality msg traits
        r2).1 = .raised e →
      e = storageError
        ("The attribute [" ++ a ++ "] error message [" ++ msg ++ "] was not saved.")
        (LOCATION_INFO "storeDataEventError") := by
    intro c er error_id herr hi
    rw [storeDataEventError_insert_gateway qb true c conf er events a msg time quality traits
      r2 id error_id hid herr] at hi
    cases hx : exec_prepared0 r2.rows with
    | value u => rw [hx] at hi; simp at hi
    | threw what =>
      rw [hx] at hi
      simp only [Outcome.raised.injEq] at hi
      exact hi.symm
    | undefined => rw [hx] at hi; simp at hi
  cases hev : errors.valueExists msg
  · rw [hev] at h
    simp only [Bool.false_eq_true, if_false] at h
    cases hins : insertedId r1.rows with
    | value error_id =>
      rw [hins] at h
      exact Or.inr (insert_case _ _ error_id (ColumnCache.value_cacheValue_self _ _ _) h)
    | threw what =>
      rw [hins] at h
      simp only [Outcome.raised.injEq] at h
      exact Or.inl h.symm
    | undefined => rw [hins] at h; simp at h
  · rw [hev] at h
    simp only [if_true] at h
    obtain ⟨error_id, herr⟩ := value_of_valueExists hev
    exact Or.inr (insert_case _ _ error_id herr h)

theorem storeParameterEvent_storage_error (qb : QueryBuilder) (s : DbConnection)
    (p : ParameterStrings) (time : Double) (reply : TxReply) (e : DevFailed)
    (h : (storeParameterEvent qb s p time reply).1 = .raised e)
    (hr : e.reason = "Storage Error") :
    e = storageError ("The attribute [" ++ p.full_attr_name
        ++ "] parameter event was not saved.") (LOCATION_INFO "storeParameterEvent") := by
  cases hassert : storeParameterEvent_asserts s p
  · simp [storeParameterEvent, hassert] at h
  obtain ⟨conn, conf, errors, events, hs⟩ := eq_gateway_of_membersSet s
    (storeParameterEvent_membersSet _ _ hassert)
  cases hb : s._connected
  · have hclosed : isClosed s = true := by simp [isClosed, isOpen, hb]
    simp only [storeParameterEvent, hassert, checkConnection_closed s _ hclosed, Bool.not_true,
      Bool.false_eq_true, if_false, Outcome.raised.injEq] at h
    subst h
    simp at hr
  rw [hb] at hs
  subst hs
  cases hex : conf.valueExists p.full_attr_name
  · simp only [storeParameterEvent, hassert, Bool.not_true, Bool.false_eq_true, if_false,
      checkConnection_open (gateway true conn conf errors events) _ rfl,
      checkAttributeExists_absent _ _ _ _ _ _ _ hex, Outcome.raised.injEq] at h
    subst h
    simp [unknownAttributeError] at hr
  obtain ⟨id, hid⟩ := value_of_valueExists hex
  rw [storeParameterEvent_open qb conn conf errors events p time reply id hassert hid] at h
  cases hx : exec_prepared0 reply.rows with
  | value u => rw [hx] at h; simp at h
  | threw what =>
    rw [hx] at h
    simp only [Outcome.raised.injEq] at h
    exact h.symm
  | undefined => rw [hx] at h; simp at h

theorem fetchLastHistoryEvent_storage_error (qb : QueryBuilder) (s : DbConnection)
    (a : String) (reply : TxReply) (e : DevFailed)
    (h : (fetchLastHistoryEvent qb s a reply).1 = .raised e)
    (hr : e.reason = "Storage Error") :
    e = storageError ("Can not return last event for attribute [" ++ a ++ "].")
      (LOCATION_INFO "fetchLastHistoryEvent") := by
  cases hassert : fetchLastHistoryEvent_asserts s a
  · simp [fetchLastHistoryEvent, hassert] at h
  obtain ⟨conn, conf, errors, events, hs⟩ := eq_gateway_of_membersSet s
    ((fetchLastHistoryEvent_asserts_iff _ _).mp hassert).2
  cases hb : s._connected
  · have hclosed : isClosed s = true := by simp [isClosed, isOpen, hb]
    simp only [fetchLastHistoryEvent, hassert, checkConnection_closed s _ hclosed,
      Bool.not_true, Bool.false_eq_true, if_false, Outcome.raised.injEq] at h
    subst h
    simp at hr
  rw [hb] at hs
  subst hs
  cases hex : conf.valueExists a
  · simp only [fetchLastHistoryEvent, hassert, Bool.not_true, Bool.false_eq_true, if_false,
      checkConnection_open (gateway true conn conf errors events) _ rfl,
      checkAttributeExists_absent _ _ _ _ _ _ _ hex, Outcome.raised.injEq] at h
    subst h
    simp [unknownAttributeError] at hr
  obtain ⟨id, hid⟩ := value_of_valueExists hex
  rw [fetchLastHistoryEvent_open qb conn conf errors events a reply id hassert hid] at h
  cases hx : lastEventOf reply.rows with
  | value u => rw [hx] at h; simp at h
  | threw what =>
    rw [hx] at h
    simp only [Outcome.raised.injEq] at h
    exact h.symm
  | undefined => rw [hx] at h; simp at h

/-- C14, as stated, fails: two calls of `storeAttribute` whose transactions fail with
different diagnostic texts, and two calls whose statement texts differ, raise the very same
Storage Error, so the error carries neither the text nor the statement. -/
theorem storage_error_counterexample :
    (storeAttribute sampleQueryBuilder (gateway true sampleConnection ⟨[]⟩ ⟨[]⟩ ⟨[]⟩)
        "a" "c" "d" "f" "m" "n" ⟨0, 0, 5⟩ (.failed "duplicate key value")).1
      = .raised (storageError "The attribute [a] was not saved."
          (LOCATION_INFO "storeAttribute"))
    ∧ (storeAttribute sampleQueryBuilder (gateway true sampleConnection ⟨[]⟩ ⟨[]⟩ ⟨[]⟩)
        "a" "c" "d" "f" "m" "n" ⟨0, 0, 5⟩ (.failed "server closed the connection")).1
      = .raised (storageError "The attribute [a] was not saved."
          (LOCATION_INFO "storeAttribute"))
    ∧ (storeAttribute { sampleQueryBuilder with storeAttributeQuery := "another statement" }
        (gateway true sampleConnection ⟨[]⟩ ⟨[]⟩ ⟨[]⟩)
        "a" "c" "d" "f" "m" "n" ⟨0, 0, 5⟩ (.failed "duplicate key value")).1
      = .raised (storageError "The attribute [a] was not saved."
          (LOCATION_INFO "storeAttribute")) := by
  refine ⟨?_, ?_, ?_⟩ <;> decide

/-- C14, amended: whenever `storeAttribute`, `storeHistoryEvent`, `storeParameterEvent`,
`storeDataEventError` or `fetchLastHistoryEvent` raises a Storage Error, that error is fully
fixed by the operation and its arguments: the reason "Storage Error", the description "The
database transaction failed. " followed by the operation's message naming the attribute (and
the event or error text), and the place of the call.  The failed statement and the
diagnostic text of the transaction are not part of it. -/
theorem storage_error_is_fixed (qb : QueryBuilder) (s : DbConnection)
    (a cs dom fam mem nm event msg : String) (traits : AttributeTraits) (p : ParameterStrings)
    (time : Double) (quality : Int) (r1 r2 : TxReply) (e : DevFailed)
    (hr : e.reason = "Storage Error") :
    ((storeAttribute qb s a cs dom fam mem nm traits r1).1 = .raised e →
      e = storageError ("The attribute [" ++ a ++ "] was not saved.")
        (LOCATION_INFO "storeAttribute"))
    ∧ ((storeHistoryEvent qb s a event r1 r2).1 = .raised e →
      e = storageError
          ("The event [" ++ event ++ "] for attribute [" ++ a ++ "] was not saved.")
          (LOCATION_INFO "storeEvent")
      ∨ e = storageError
          ("The attribute [" ++ a ++ "] event [" ++ event ++ "] was not saved.")
          (LOCATION_INFO "storeHistoryEvent"))
    ∧ ((storeParameterEvent qb s p time r1).1 = .raised e →
      e = storageError ("The attribute [" ++ p.full_attr_name
          ++ "] parameter event was not saved.") (LOCATION_INFO "storeParameterEvent"))
    ∧ ((storeDataEventError qb s a time quality msg traits r1 r2).1 = .raised e →
      e = storageError
          ("The error string [" ++ msg ++ "] for attribute [" ++ a ++ "] was not saved")
          (LOCATION_INFO "storeErrorMsg")
      ∨ e = storageError
          ("The attribute [" ++ a ++ "] error message [" ++ msg ++ "] was not saved.")
          (LOCATION_INFO "storeDataEventError"))
    ∧ ((fetchLastHistoryEvent qb s a r1).1 = .raised e →
      e = storageError ("Can not return last event for attribute [" ++ a ++ "].")
        (LOCATION_INFO "fetchLastHistoryEvent")) :=
  ⟨fun h => storeAttribute_storage_error qb s a cs dom fam mem nm traits r1 e h hr,
    fun h => storeHistoryEvent_storage_error qb s a event r1 r2 e h hr,
    fun h => storeParameterEvent_storage_error qb s p time r1 e h hr,
    fun h => storeDataEventError_storage_error qb s a time quality msg traits r1 r2 e h hr,
    fun h => fetchLastHistoryEvent_storage_error qb s a r1 e h hr⟩

/-- The amended C14 at samples: each of the five operations with a transaction that fails. -/
theorem storage_error_is_fixed_witness :
    storageError "The attribute [a] was not saved." (LOCATION_INFO "storeAttribute")
      = storageError ("The attribute [" ++ "a" ++ "] was not saved.")
          (LOCATION_INFO "storeAttribute")
    ∧ (storageError "The event [pause] for attribute [a] was not saved."
          (LOCATION_INFO "storeEvent")
        = storageError
            ("The event [" ++ "pause" ++ "] for attribute [" ++ "a" ++ "] was not saved.")
            (LOCATION_INFO "storeEvent")
      ∨ storageError "The event [pause] for attribute [a] was not saved."
          (LOCATION_INFO "storeEvent")
        = storageError
            ("The attribute [" ++ "a" ++ "] event [" ++ "pause" ++ "] was not saved.")
            (LOCATION_INFO "storeHistoryEvent"))
    ∧ storageError "The attribute [a] parameter event was not saved."
        (LOCATION_INFO "storeParameterEvent")
      = storageError ("The attribute [" ++ (sampleParameters "a").full_attr_name
          ++ "] parameter event was not saved.") (LOCATION_INFO "storeParameterEvent")
    ∧ (storageError "The attribute [a] error message [sensor fault] was not saved."
          (LOCATION_INFO "storeDataEventError")
        = storageError
            ("The error string [" ++ "sensor fault" ++ "] for attribute [" ++ "a"
              ++ "] was not saved") (LOCATION_INFO "storeErrorMsg")
      ∨ storageError "The attribute [a] error message [sensor fault] was not saved."
          (LOCATION_INFO "storeDataEventError")
        = storageError
            ("The attribute [" ++ "a" ++ "] error message [" ++ "sensor fault"
              ++ "] was not saved.") (LOCATION_INFO "storeDataEventError"))
    ∧ storageError "Can not return last event for attribute [a]."
        (LOCATION_INFO "fetchLastHistoryEvent")
      = storageError ("Can not return last event for attribute [" ++ "a" ++ "].")
          (LOCATION_INFO "fetchLastHistoryEvent") :=
  ⟨(storage_error_is_fixed sampleQueryBuilder
      (gateway true sampleConnection ⟨[("b", 7)]⟩ ⟨[]⟩ ⟨[]⟩)
      "a" "c" "d" "f" "m" "n" "pause" "sensor fault" ⟨0, 0, 5⟩ (sampleParameters "a") ⟨1⟩ 1
      (.failed "duplicate key value") (.result [])
      (storageError "The attribute [a] was not saved." (LOCATION_INFO "storeAttribute"))
      (by decide)).1 (by decide),
    (storage_error_is_fixed sampleQueryBuilder
      (gateway true sampleConnection ⟨[("a", 7)]⟩ ⟨[]⟩ ⟨[]⟩)
      "a" "c" "d" "f" "m" "n" "pause" "sensor fault" ⟨0, 0, 5⟩ (sampleParameters "a") ⟨1⟩ 1
      (.failed "duplicate key value") (.result [])
      (storageError "The event [pause] for attribute [a] was not saved."
        (LOCATION_INFO "storeEvent"))
      (by decide)).2.1 (by decide),
    (storage_error_is_fixed sampleQueryBuilder
      (gateway true sampleConnection ⟨[("a", 7)]⟩ ⟨[]⟩ ⟨[]⟩)
      "a" "c" "d" "f" "m" "n" "pause" "sensor fault" ⟨0, 0, 5⟩ (sampleParameters "a") ⟨1⟩ 1
      (.failed "connection lost") (.result [])
      (storageError "The attribute [a] parameter event was not saved."
        (LOCATION_INFO "storeParameterEvent"))
      (by decide)).2.2.1 (by decide),
    (storage_error_is_fixed sampleQueryBuilder
      (gateway true sampleConnection ⟨[("a", 7)]⟩ ⟨[]⟩ ⟨[]⟩)
      "a" "c" "d" "f" "m" "n" "pause" "sensor fault" ⟨0, 0, 5⟩ (sampleParameters "a") ⟨1⟩ 1
      (.result [[some "12"]]) (.failed "connection lost")
      (storageError "The attribute [a] error message [sensor fault] was not saved."
        (LOCATION_INFO "storeDataEventError"))
      (by decide)).2.2.2.1 (by decide),
    (storage_error_is_fixed sampleQueryBuilder
      (gateway true sampleConnection ⟨[("a", 7)]⟩ ⟨[]⟩ ⟨[]⟩)
      "a" "c" "d" "f" "m" "n" "pause" "sensor fault" ⟨0, 0, 5⟩ (sampleParameters "a") ⟨1⟩ 1
      (.failed "connection lost") (.result [])
      (storageError "Can not return last event for attribute [a]."
        (LOCATION_INFO "fetchLastHistoryEvent"))
      (by decide)).2.2.2.2 (by decide)⟩

/-! ## Prepared statements -/

theorem preparedExists_iff (c : Connection) (name : String) :
    c.preparedExists name = true ↔ name ∈ c.preparedNames := by
  simp only [Connection.preparedExists, Connection.preparedNames, List.any_eq_true,
    List.mem_map, beq_iff_eq]

theorem prepareIfAbsent_preparedNames (c : Connection) (name query : String) :
    (prepareIfAbsent c name query).preparedNames
      = if name ∈ c.preparedNames then c.preparedNames else c.preparedNames ++ [name] := by
  unfold prepareIfAbsent
  by_cases h : name ∈ c.preparedNames
  · simp [h, (preparedExists_iff c name).mpr h]
  · have hb : c.preparedExists name = false := by
      cases hx : c.preparedExists name
      · rfl
      · exact absurd ((preparedExists_iff c name).mp hx) h
    rw [if_neg h]
    simp [hb, Connection.prepare, Connection.preparedNames]

theorem prepareIfAbsent_preparedOnce (c : Connection) (name query : String)
    (h : preparedOnce c) :
    preparedOnce (prepareIfAbsent c name query)
    ∧ name ∈ (prepareIfAbsent c name query).preparedNames := by
  unfold preparedOnce
  rw [prepareIfAbsent_preparedNames, prepareIfAbsent_executed]
  by_cases hn : name ∈ c.preparedNames
  · simp only [hn, if_true]
    exact ⟨h, trivial⟩
  · simp only [hn, if_false]
    refine ⟨⟨?_, fun e he => List.mem_append_left _ (h.2 e he)⟩, by simp⟩
    exact List.Nodup.append h.1 (List.nodup_singleton _) (by simpa using hn)

theorem transaction_preparedOnce (c : Connection) (name query : String)
    (args : Option (List Arg)) (reply : TxReply) (h : preparedOnce c) :
    preparedOnce (transaction c name query args reply).1 := by
  obtain ⟨hp, hn⟩ := prepareIfAbsent_preparedOnce c name query h
  have hexec : ∀ as, preparedOnce ((prepareIfAbsent c name query).exec name as) := by
    intro as
    refine ⟨hp.1, ?_⟩
    intro e he
    simp only [Connection.exec, List.mem_append, List.mem_singleton] at he
    rcases he with he | he
    · exact hp.2 e he
    · subst he
      exact hn
  cases reply <;> cases args <;> simp only [transaction] <;> first
    | exact h
    | exact hp
    | exact hexec _

theorem connStepped_preparedOnce {before after : Option Connection}
    (h : connStepped before after) (hb : ∀ c, before = some c → preparedOnce c) :
    ∀ c, after = some c → preparedOnce c := by
  rcases h with h | ⟨c0, name, query, args, reply, hbefore, hafter⟩
  · rw [h]; exact hb
  · intro c hc
    rw [hafter] at hc
    cases hc
    exact transaction_preparedOnce _ _ _ _ _ (hb c0 hbefore)

theorem connReached_preparedOnce {before after : Option Connection}
    (h : connReached before after) (hb : ∀ c, before = some c → preparedOnce c) :
    ∀ c, after = some c → preparedOnce c := by
  obtain ⟨mid, h1, h2⟩ := h
  exact connStepped_preparedOnce h2 (connStepped_preparedOnce h1 hb)

theorem connReached_refl (c : Option Connection) : connReached c c :=
  ⟨c, Or.inl rfl, Or.inl rfl⟩

theorem connReached_one (c : Connection) (name query : String) (args : Option (List Arg))
    (reply : TxReply) :
    connReached (some c) (some (transaction c name query args reply).1) :=
  ⟨some c, Or.inl rfl, Or.inr ⟨c, name, query, args, reply, rfl, rfl⟩⟩

theorem connReached_two (c : Connection) (n1 q1 n2 q2 : String)
    (a1 a2 : Option (List Arg)) (r1 r2 : TxReply) :
    connReached (some c)
      (some (transaction (transaction c n1 q1 a1 r1).1 n2 q2 a2 r2).1) :=
  ⟨some (transaction c n1 q1 a1 r1).1, Or.inr ⟨c, n1, q1, a1, r1, rfl, rfl⟩,
    Or.inr ⟨_, n2, q2, a2, r2, rfl, rfl⟩⟩

theorem storeAttribute_connReached (qb : QueryBuilder) (s : DbConnection)
    (a cs dom fam mem nm : String) (traits : AttributeTraits) (reply : TxReply) :
    connReached s._conn (storeAttribute qb s a cs dom fam mem nm traits reply).2._conn := by
  cases hassert : storeAttribute_asserts s a cs dom fam mem nm
  · simp only [storeAttribute, hassert, Bool.not_false, if_true]
    exact connReached_refl _
  obtain ⟨conn, conf, errors, events, hs⟩ := eq_gateway_of_membersSet s
    ((storeAttribute_asserts_iff _ _ _ _ _ _ _).mp hassert).2.2.2.2.2.2
  cases hb : s._connected
  · have hclosed : isClosed s = true := by simp [isClosed, isOpen, hb]
    simp only [storeAttribute, hassert, checkConnection_closed s _ hclosed, Bool.not_true,
      Bool.false_eq_true, if_false]
    exact connReached_refl _
  rw [hb] at hs
  subst hs
  rw [storeAttribute_open qb conn conf errors events a cs dom fam mem nm traits reply hassert]
  cases hex : conf.valueExists a
  · simp only [Bool.false_eq_true, if_false]
    cases insertedId reply.rows <;> exact connReached_one _ _ _ _ _
  · simp only [if_true]
    exact connReached_refl _

theorem storeHistoryEvent_insert_connReached (qb : QueryBuilder) (b : Bool)
    (conn : Connection) (conf errors events : ColumnCache) (a event : String)
    (reply : TxReply) (id : Int) (hid : conf.value a = some id) :
    ∃ name query args,
      (storeHistoryEvent_insert qb (gateway b conn conf errors events) a event reply).2._conn
        = some (transaction conn name query args reply).1 := by
  rw [storeHistoryEvent_insert_gateway qb b conn conf errors events a event reply id hid]
  cases exec_prepared0 reply.rows <;> exact ⟨_, _, _, rfl⟩

theorem storeDataEventError_insert_connReached (qb : QueryBuilder) (b : Bool)
    (conn : Connection) (conf errors events : ColumnCache) (a msg : String) (time : Double)
    (quality : Int) (traits : AttributeTraits) (reply : TxReply) (id error_id : Int)
    (hid : conf.value a = some id) (herr : errors.value msg = some error_id) :
    ∃ name query args,
      (storeDataEventError_insert qb (gateway b conn conf errors events) a time quality msg
        traits reply).2._conn = some (transaction conn name query args reply).1 := by
  rw [storeDataEventError_insert_gateway qb b conn conf errors events a msg time quality traits
    reply id error_id hid herr]
  cases exec_prepared0 reply.rows <;> exact ⟨_, _, _, rfl⟩

theorem storeHistoryEvent_connReached (qb : QueryBuilder) (s : DbConnection)
    (a event : String) (r1 r2 : TxReply) :
    connReached s._conn (storeHistoryEvent qb s a event r1 r2).2._conn := by
  cases hassert : storeHistoryEvent_asserts s a event
  · simp only [storeHistoryEvent, hassert, Bool.not_false, if_true]
    exact connReached_refl _
  obtain ⟨conn, conf, errors, events, hs⟩ := eq_gateway_of_membersSet s
    ((storeHistoryEvent_asserts_iff _ _ _).mp hassert).2.2
  cases hb : s._connected
  · have hclosed : isClosed s = true := by simp [isClosed, isOpen, hb]
    simp only [storeHistoryEvent, hassert, checkConnection_closed s _ hclosed, Bool.not_true,
      Bool.false_eq_true, if_false]
    exact connReached_refl _
  rw [hb] at hs
  subst hs
  cases hex : conf.valueExists a
  · simp only [storeHistoryEvent, hassert, Bool.not_true, Bool.false_eq_true, if_false,
      checkConnection_open (gateway true conn conf errors events) _ rfl,
      checkAttributeExists_absent _ _ _ _ _ _ _ hex]
    exact connReached_refl _
  obtain ⟨id, hid⟩ := value_of_valueExists hex
  rw [storeHistoryEvent_open qb conn conf errors events a event r1 r2 hassert hex]
  cases hev : events.valueExists event
  · simp only [Bool.false_eq_true, if_false]
    cases insertedId r1.rows with
    | value event_id =>
      obtain ⟨n, q, args, h⟩ := storeHistoryEvent_insert_connReached qb true
        (transaction conn qb.StoreHistoryString qb.storeHistoryStringQuery
          (some [.text event]) r1).1 conf errors (events.cacheValue event_id event) a event
        r2 id hid
      simp only [h]
      exact connReached_two _ _ _ _ _ _ _ _ _
    | threw what => exact connReached_one _ _ _ _ _
    | undefined => exact connReached_one _ _ _ _ _
  · simp only [if_true]
    obtain ⟨n, q, args, h⟩ := storeHistoryEvent_insert_connReached qb true conn conf errors
      events a event r2 id hid
    rw [h]
    exact connReached_one _ _ _ _ _

theorem storeDataEventError_connReached (qb : QueryBuilder) (s : DbConnection)
    (a : String) (time : Double) (quality : Int) (msg : String) (traits : AttributeTraits)
    (r1 r2 : TxReply) :
    connReached s._conn
      (storeDataEventError qb s a time quality msg traits r1 r2).2._conn := by
  cases hassert : storeDataEventError_asserts s a msg
  · simp only [storeDataEventError, hassert, Bool.not_false, if_true]
    exact connReached_refl _
  obtain ⟨conn, conf, errors, events, hs⟩ := eq_gateway_of_membersSet s
    ((storeDataEventError_asserts_iff _ _ _).mp hassert).2.2
  cases hb : s._connected
  · have hclosed : isClosed s = true := by simp [isClosed, isOpen, hb]
    simp only [storeDataEventError, hassert, checkConnection_closed s _ hclosed, Bool.not_true,
      Bool.false_eq_true, if_false]
    exact connReached_refl _
  rw [hb] at hs
  subst hs
  cases hex : conf.valueExists a
  · simp only [storeDataEventError, hassert, Bool.not_true, Bool.false_eq_true, if_false,
      checkConnection_open (gateway true conn conf errors events) _ rfl,
      checkAttributeExists_absent _ _ _ _ _ _ _ hex]
    exact connReached_refl _
  obtain ⟨id, hid⟩ := value_of_valueExists hex
  rw [storeDataEventError_open qb conn conf errors events a msg time quality traits r1 r2
    hassert hex]
  cases hev : errors.valueExists msg
  · simp only [Bool.false_eq_true, if_false]
    cases insertedId r1.rows with
    | value error_id =>
      obtain ⟨n, q, args, h⟩ := storeDataEventError_insert_connReached qb true
        (transaction conn qb.StoreErrorString qb.storeErrorQuery (some [.text msg]) r1).1
        conf (errors.cacheValue error_id msg) events a msg time quality traits r2 id error_id
        hid (ColumnCache.value_cacheValue_self _ _ _)
      simp only [h]
      exact connReached_two _ _ _ _ _ _ _ _ _
    | threw what => exact connReached_one _ _ _ _ _
    | undefined => exact connReached_one _ _ _ _ _
  · simp only [if_true]
    obtain ⟨error_id, herr⟩ := value_of_valueExists hev
    obtain ⟨n, q, args, h⟩ := storeDataEventError_insert_connReached qb true conn conf errors
      events a msg time quality traits r2 id error_id hid herr
    rw [h]
    exact connReached_one _ _ _ _ _

theorem storeParameterEvent_connReached (qb : QueryBuilder) (s : DbConnection)
    (p : ParameterStrings) (time : Double) (reply : TxReply) :
    connReached s._conn (storeParameterEvent qb s p time reply).2._conn := by
  cases hassert : storeParameterEvent_asserts s p
  · simp only [storeParameterEvent, hassert, Bool.not_false, if_true]
    exact connReached_refl _
  obtain ⟨conn, conf, errors, events, hs⟩ := eq_gateway_of_membersSet s
    (storeParameterEvent_membersSet _ _ hassert)
  cases hb : s._connected
  · have hclosed : isClosed s = true := by simp [isClosed, isOpen, hb]
    simp only [storeParameterEvent, hassert, checkConnection_closed s _ hclosed, Bool.not_true,
      Bool.false_eq_true, if_false]
    exact connReached_refl _
  rw [hb] at hs
  subst hs
  cases hex : conf.valueExists p.full_attr_name
  · simp only [storeParameterEvent, hassert, Bool.not_true, Bool.false_eq_true, if_false,
      checkConnection_open (gateway true conn conf errors events) _ rfl,
      checkAttributeExists_absent _ _ _ _ _ _ _ hex]
    exact connReached_refl _
  obtain ⟨id, hid⟩ := value_of_valueExists hex
  rw [storeParameterEvent_open qb conn conf errors events p time reply id hassert hid]
  cases exec_prepared0 reply.rows <;> exact connReached_one _ _ _ _ _

theorem fetchLastHistoryEvent_connReached (qb : QueryBuilder) (s : DbConnection)
    (a : String) (reply : TxReply) :
    connReached s._conn (fetchLastHistoryEvent qb s a reply).2._conn := by
  cases hassert : fetchLastHistoryEvent_asserts s a
  · simp only [fetchLastHistoryEvent, hassert, Bool.not_false, if_true]
    exact connReached_refl _
  obtain ⟨conn, conf, errors, events, hs⟩ := eq_gateway_of_membersSet s
    ((fetchLastHistoryEvent_asserts_iff _ _).mp hassert).2
  cases hb : s._connected
  · have hclosed : isClosed s = true := by simp [isClosed, isOpen, hb]
    simp only [fetchLastHistoryEvent, hassert, checkConnection_closed s _ hclosed,
      Bool.not_true, Bool.false_eq_true, if_false]
    exact connReached_refl _
  rw [hb] at hs
  subst hs
  cases hex : conf.valueExists a
  · simp only [fetchLastHistoryEvent, hassert, Bool.not_true, Bool.false_eq_true, if_false,
      checkConnection_open (gateway true conn conf errors events) _ rfl,
      checkAttributeExists_absent _ _ _ _ _ _ _ hex]
    exact connReached_refl _
  obtain ⟨id, hid⟩ := value_of_valueExists hex
  rw [fetchLastHistoryEvent_open qb conn conf errors events a reply id hassert hid]
  cases lastEventOf reply.rows <;> exact connReached_one _ _ _ _ _

theorem disconnect_preparedOnce (s : DbConnection)
    (h : ∀ c, s._conn = some c → preparedOnce c) :
    ∀ c, (disconnect s).2._conn = some c → preparedOnce c := by
  intro c hc
  unfold disconnect at hc
  split at hc
  · exact h c hc
  · split at hc
    · exact h c hc
    · rename_i c0 hc0
      simp only [Option.some.injEq] at hc
      subst hc
      exact h c0 hc0

theorem connect_preparedOnce (s : DbConnection) (connect_string : String)
    (reply : ConnectReply) (h : ∀ c, s._conn = some c → preparedOnce c) :
    ∀ c, (connect s connect_string reply).2._conn = some c → preparedOnce c := by
  intro c hc
  cases reply with
  | opened =>
    simp only [connect, Option.some.injEq] at hc
    subst hc
    exact ⟨List.nodup_nil, fun e he => by simp at he⟩
  | broken what =>
    simp only [connect] at hc
    split at hc
    · rename_i c0 hc0
      split at hc
      · simp only [Option.some.injEq] at hc
        subst hc
        exact h c0 hc0
      · exact h c hc
    · exact h c hc

theorem call_preparedOnce (qb : QueryBuilder) (s : DbConnection) (call : Call)
    (h : ∀ c, s._conn = some c → preparedOnce c) :
    ∀ c, (call.after qb s)._conn = some c → preparedOnce c := by
  cases call with
  | disconnect => exact disconnect_preparedOnce s h
  | storeAttribute a cs dom fam mem nm traits reply =>
    exact connReached_preparedOnce
      (storeAttribute_connReached qb s a cs dom fam mem nm traits reply) h
  | storeHistoryEvent a event r1 r2 =>
    exact connReached_preparedOnce (storeHistoryEvent_connReached qb s a event r1 r2) h
  | storeParameterEvent p time reply =>
    exact connReached_preparedOnce (storeParameterEvent_connReached qb s p time reply) h
  | storeDataEventError a time quality msg traits r1 r2 =>
    exact connReached_preparedOnce
      (storeDataEventError_connReached qb s a time quality msg traits r1 r2) h
  | fetchLastHistoryEvent a reply =>
    exact connReached_preparedOnce (fetchLastHistoryEvent_connReached qb s a reply) h
  | fetchAttributeArchived a =>
    simp only [Call.after, fetchAttributeArchived_state]
    exact h

theorem afterSteps_preparedOnce (qb : QueryBuilder) (steps : List Step) :
    ∀ s : DbConnection, (∀ c, s._conn = some c → preparedOnce c) →
      ∀ c, (afterSteps qb s steps)._conn = some c → preparedOnce c := by
  induction steps with
  | nil => intro s h; exact h
  | cons step rest ih =>
    intro s h
    simp only [afterSteps, List.foldl_cons]
    refine ih (step.after qb s) ?_
    cases step with
    | connect connect_string reply => exact connect_preparedOnce s connect_string reply h
    | call c => exact call_preparedOnce qb s c h

/-- C18: the prepare step of every transaction registers the statement only when its name
is not registered on the connection yet, and leaves the connection alone otherwise; so on
the connection that the gateway holds after any sequence of calls, `connect` included,
starting from a new gateway, no name has been prepared twice and every statement that has
been run is registered. -/
theorem statements_prepared_once (qb : QueryBuilder) :
    (∀ (c : Connection) (name query : String),
      (c.preparedExists name = true → prepareIfAbsent c name query = c)
      ∧ (c.preparedExists name = false →
          prepareIfAbsent c name query = c.prepare name query))
    ∧ (∀ (steps : List Step) (c : Connection),
      (afterSteps qb DbConnection.new steps)._conn = some c →
      c.preparedNames.Nodup ∧ ∀ e ∈ c.executed, e.1 ∈ c.preparedNames) := by
  refine ⟨fun c name query => ⟨fun h => by simp [prepareIfAbsent, h],
    fun h => by simp [prepareIfAbsent, h]⟩, ?_⟩
  intro steps c hc
  exact afterSteps_preparedOnce qb steps DbConnection.new
    (fun c0 h0 => by simp [DbConnection.new] at h0) c hc

/-- C18 at a sample: connect, store an attribute, store the same history event twice and
read it back: three names are registered, each once, and four statements were run. -/
theorem statements_prepared_once_witness :
    (prepareIfAbsent { is_open := true, prepared := [("StoreAttribute", "q")], executed := [] }
        "StoreAttribute" "q"
      = { is_open := true, prepared := [("StoreAttribute", "q")], executed := [] })
    ∧ (prepareIfAbsent sampleConnection "StoreAttribute" "q"
      = sampleConnection.prepare "StoreAttribute" "q")
    ∧ (["StoreAttribute", "StoreHistoryString", "StoreHistoryEvent", "FetchLastHistoryEvent"]
        : List String).Nodup
    ∧ ∀ e ∈ ([("StoreAttribute", storeAttributeArgs sampleQueryBuilder "a" "c" "d" "f" "m" "n"
            ⟨0, 0, 5⟩),
          ("StoreHistoryString", [.text "pause"]),
          ("StoreHistoryEvent", [.int 7, .text "pause"]),
          ("StoreHistoryEvent", [.int 7, .text "pause"]),
          ("FetchLastHistoryEvent", [.int 7])] : List (String × List Arg)),
        e.1 ∈ (["StoreAttribute", "StoreHistoryString", "StoreHistoryEvent",
          "FetchLastHistoryEvent"] : List String) :=
  have h := statements_prepared_once sampleQueryBuilder
  have h2 := h.2
    [.connect "host=hdb1" .opened,
      .call (.storeAttribute "a" "c" "d" "f" "m" "n" ⟨0, 0, 5⟩ (.result [[some "7"]])),
      .call (.storeHistoryEvent "a" "pause" (.result [[some "3"]]) (.result [])),
      .call (.storeHistoryEvent "a" "pause" (.result [[some "3"]]) (.result [])),
      .call (.fetchLastHistoryEvent "a" (.result [[some "pause"]]))]
    { is_open := true,
      prepared := [("StoreAttribute", "storeAttributeQuery"),
        ("StoreHistoryString", "storeHistoryStringQuery"),
        ("StoreHistoryEvent", "storeHistoryEventQuery"),
        ("FetchLastHistoryEvent", "fetchLastHistoryEventQuery")],
      executed := [("StoreAttribute", storeAttributeArgs sampleQueryBuilder "a" "c" "d" "f"
            "m" "n" ⟨0, 0, 5⟩),
        ("StoreHistoryString", [.text "pause"]),
        ("StoreHistoryEvent", [.int 7, .text "pause"]),
        ("StoreHistoryEvent", [.int 7, .text "pause"]),
        ("FetchLastHistoryEvent", [.int 7])] }
    (by decide)
  ⟨(h.1 _ "StoreAttribute" "q").1 (by decide), (h.1 _ "StoreAttribute" "q").2 (by decide),
    h2.1, h2.2⟩

/-! ## Reading back the event just stored -/

theorem storeHistoryEvent_returned_gateway (qb : QueryBuilder) (conn : Connection)
    (conf errors events : ColumnCache) (a event : String) (r1 r2 : TxReply) (s1 : DbConnection)
    (id : Int)
    (hassert : storeHistoryEvent_asserts (gateway true conn conf errors events) a event = true)
    (hid : conf.value a = some id)
    (h1 : storeHistoryEvent qb (gateway true conn conf errors events) a event r1 r2
      = (.returned (), s1)) :
    ∃ conn1 events1, s1 = gateway true conn1 conf errors events1 := by
  rw [storeHistoryEvent_open qb conn conf errors events a event r1 r2 hassert
    (valueExists_of_value hid)] at h1
  cases hev : events.valueExists event
  · rw [hev] at h1
    simp only [Bool.false_eq_true, if_false] at h1
    cases hins : insertedId r1.rows with
    | value event_id =>
      rw [hins] at h1
      exact ⟨_, _, (storeHistoryEvent_insert_returned qb true _ conf errors _ a event r2 id s1
        hid h1).1⟩
    | threw what => rw [hins] at h1; simp at h1
    | undefined => rw [hins] at h1; simp at h1
  · rw [hev] at h1
    simp only [if_true] at h1
    exact ⟨_, _, (storeHistoryEvent_insert_returned qb true _ conf errors _ a event r2 id s1
      hid h1).1⟩

theorem storeHistoryEvent_insert_returned_reply (qb : QueryBuilder) (b : Bool)
    (conn : Connection) (conf errors events : ColumnCache) (a event : String) (reply : TxReply)
    (id : Int) (s1 : DbConnection) (hid : conf.value a = some id)
    (hret : storeHistoryEvent_insert qb (gateway b conn conf errors events) a event reply
      = (.returned (), s1)) :
    exec_prepared0 reply.rows = .value () := by
  rw [storeHistoryEvent_insert_gateway qb b conn conf errors events a event reply id hid]
    at hret
  cases hx : exec_prepared0 reply.rows with
  | value u => rfl
  | threw what => rw [hx] at hret; simp at hret
  | undefined => rw [hx] at hret; simp at hret

theorem storeHistoryEvent_returned_sent (qb : QueryBuilder) (conn : Connection)
    (conf errors events : ColumnCache) (a event : String) (r1 r2 : TxReply) (s1 : DbConnection)
    (id : Int)
    (hassert : storeHistoryEvent_asserts (gateway true conn conf errors events) a event = true)
    (hid : conf.value a = some id)
    (h1 : storeHistoryEvent qb (gateway true conn conf errors events) a event r1 r2
      = (.returned (), s1)) :
    exec_prepared0 r2.rows = .value ()
    ∧ ∃ dim, (dim = [] ∨ dim = [(qb.StoreHistoryString, [.text event])])
        ∧ sent s1 = conn.executed
            ++ (dim ++ [(qb.StoreHistoryEvent, [.int id, .text event])]) := by
  rw [storeHistoryEvent_open qb conn conf errors events a event r1 r2 hassert
    (valueExists_of_value hid)] at h1
  cases hev : events.valueExists event
  · rw [hev] at h1
    simp only [Bool.false_eq_true, if_false] at h1
    cases hins : insertedId r1.rows with
    | value event_id =>
      rw [hins] at h1
      simp only [] at h1
      have hsent := (storeHistoryEvent_insert_returned qb true _ conf errors _ a event r2 id s1
        hid h1).2
      rw [transaction_executed_of_insertedId conn qb.StoreHistoryString
        qb.storeHistoryStringQuery [.text event] r1 event_id hins] at hsent
      refine ⟨storeHistoryEvent_insert_returned_reply qb true _ conf errors _ a event r2 id s1
        hid h1, _, Or.inr rfl, ?_⟩
      rw [hsent]
      simp
    | threw what => rw [hins] at h1; simp at h1
    | undefined => rw [hins] at h1; simp at h1
  · rw [hev] at h1
    simp only [if_true] at h1
    exact ⟨storeHistoryEvent_insert_returned_reply qb true _ conf errors _ a event r2 id s1
        hid h1, [], Or.inl rfl,
      (storeHistoryEvent_insert_returned qb true _ conf errors _ a event r2 id s1 hid h1).2⟩

theorem historyInserted_fact (qb : QueryBuilder) (id : Int) (event : String) :
    historyInserted qb (qb.StoreHistoryEvent, [.int id, .text event])
      = some { att_conf_id := id, event := event } := by
  simp [historyInserted]

theorem historyInserted_dimension (qb : QueryBuilder) (event : String) :
    historyInserted qb (qb.StoreHistoryString, [.text event]) = none := by
  unfold historyInserted
  split <;> rfl

theorem lastHistoryReply_appended (table : List HistoryRow) (id : Int) (event : String) :
    lastHistoryReply (table ++ [{ att_conf_id := id, event := event }]) id
      = .result [[some event]] := by
  simp [lastHistoryReply, List.filter_append, List.getLast?_append]

theorem fetchLastHistoryEvent_sent (qb : QueryBuilder) (conn : Connection)
    (conf errors events : ColumnCache) (a : String) (reply : TxReply) (id : Int)
    (h : fetchLastHistoryEvent_asserts (gateway true conn conf errors events) a = true)
    (hid : conf.value a = some id) :
    sent (fetchLastHistoryEvent qb (gateway true conn conf errors events) a reply).2
      = (transaction conn qb.FetchLastHistoryEvent qb.fetchLastHistoryEventQuery
          (some [.int id]) reply).1.executed := by
  rw [fetchLastHistoryEvent_open qb conn conf errors events a reply id h hid]
  cases lastEventOf reply.rows <;> rfl

/-- C12: on a connected gateway whose attribute cache holds the attribute (with id `id`),
after a call `storeHistoryEvent(attr, e)` that returned, the history table of the store has
got one more row, the one of the history insert that the call sent, for `id` and `e`.  A
`fetchLastHistoryEvent(attr)` that follows at once, answered by the store for the statement
that the call sends, returns `e`, whatever rows the table held before; and the statement it
sends is the last-history query for `id`.  The store is the one modelled from the spec, which
hands back the most recent row of the attribute asked for. -/
theorem fetch_after_store (qb : QueryBuilder) (s s1 : DbConnection) (conf : ColumnCache)
    (a event : String) (id : Int) (r1 r2 : TxReply) (table : List HistoryRow)
    (hassert : storeHistoryEvent_asserts s a event = true)
    (hopen : isOpen s = true)
    (hconf : s._conf_id_cache = some conf) (hid : conf.value a = some id)
    (h1 : storeHistoryEvent qb s a event r1 r2 = (.returned (), s1)) :
    historyAfterStore qb s a event r1 r2 table = table ++ [{ att_conf_id := id, event := event }]
    ∧ (∀ reply statement,
        sent (fetchLastHistoryEvent qb s1 a reply).2 = sent s1 ++ [statement] →
        reply = lastHistoryAnswer qb (historyAfterStore qb s a event r1 r2 table) statement →
        statement = (qb.FetchLastHistoryEvent, [.int id])
        ∧ (fetchLastHistoryEvent qb s1 a reply).1 = .returned event)
    ∧ sent (fetchLastHistoryEvent qb s1 a
          (lastHistoryAnswer qb (historyAfterStore qb s a event r1 r2 table)
            (qb.FetchLastHistoryEvent, [.int id]))).2
        = sent s1 ++ [(qb.FetchLastHistoryEvent, [.int id])]
    ∧ (fetchLastHistoryEvent qb s1 a
          (lastHistoryAnswer qb (historyAfterStore qb s a event r1 r2 table)
            (qb.FetchLastHistoryEvent, [.int id]))).1 = .returned event := by
  have hsplit := (storeHistoryEvent_asserts_iff _ _ _).mp hassert
  obtain ⟨conn, conf0, errors, events, hs⟩ := eq_gateway_of_membersSet s hsplit.2.2
  have hb : s._connected = true := hopen
  rw [hb] at hs
  subst hs
  have hc : conf0 = conf := by simpa [gateway] using hconf
  subst hc
  obtain ⟨hreply2, dim, hdim, hsent1⟩ := storeHistoryEvent_returned_sent qb conn conf0 errors
    events a event r1 r2 s1 id hassert hid h1
  have htable : historyAfterStore qb (gateway true conn conf0 errors events) a event r1 r2 table
      = table ++ [{ att_conf_id := id, event := event }] := by
    simp only [historyAfterStore, hreply2, h1, hsent1, sent_gateway, newlySent,
      List.drop_left, List.filterMap_append, List.filterMap_cons, List.filterMap_nil,
      historyInserted_fact]
    rcases hdim with hd | hd
    · rw [hd]
      rfl
    · rw [hd]
      simp only [List.filterMap_cons, List.filterMap_nil, historyInserted_dimension,
        List.nil_append]
  obtain ⟨conn1, events1, hs1⟩ := storeHistoryEvent_returned_gateway qb conn conf0 errors events
    a event r1 r2 s1 id hassert hid h1
  subst hs1
  have hassert1 : fetchLastHistoryEvent_asserts (gateway true conn1 conf0 errors events1) a
      = true :=
    (fetchLastHistoryEvent_asserts_iff _ _).mpr ⟨hsplit.1, membersSet_gateway _ _ _ _ _⟩
  have hanswer : lastHistoryAnswer qb (table ++ [{ att_conf_id := id, event := event }])
      (qb.FetchLastHistoryEvent, [.int id]) = .result [[some event]] := by
    simp [lastHistoryAnswer, lastHistoryReply_appended]
  have hfetch : (fetchLastHistoryEvent qb (gateway true conn1 conf0 errors events1) a
      (.result [[some event]])).1 = .returned event := by
    rw [fetchLastHistoryEvent_open qb conn1 conf0 errors events1 a _ id hassert1 hid]
    rfl
  rw [htable, hanswer]
  refine ⟨rfl, ?_, ?_, hfetch⟩
  · intro reply statement hsent hreply
    have hstatement : statement = (qb.FetchLastHistoryEvent, [.int id]) := by
      rw [fetchLastHistoryEvent_sent qb conn1 conf0 errors events1 a reply id hassert1 hid,
        transaction_executed, sent_gateway] at hsent
      cases reply with
      | broken what =>
        simp only [] at hsent
        have hlen := congrArg List.length hsent
        simp at hlen
      | failed what =>
        simp only [] at hsent
        have h2 := List.append_cancel_left hsent
        exact (List.cons.inj h2).1.symm
      | result rows =>
        simp only [] at hsent
        have h2 := List.append_cancel_left hsent
        exact (List.cons.inj h2).1.symm
    refine ⟨hstatement, ?_⟩
    rw [hstatement, hanswer] at hreply
    rw [hreply]
    exact hfetch
  · rw [fetchLastHistoryEvent_sent qb conn1 conf0 errors events1 a _ id hassert1 hid,
      transaction_executed, sent_gateway]

/-- C12 at a sample: the table already holds a "start" of the same attribute and a "stop" of
another one; "pause" is stored for attribute 7, its insert is found among the statements
sent, and it is read back through the statement that the fetch sends. -/
theorem fetch_after_store_witness :
    historyAfterStore sampleQueryBuilder
        (gateway true sampleConnection ⟨[("a", 7)]⟩ ⟨[]⟩ ⟨[("start", 1)]⟩) "a" "pause"
        (.result [[some "2"]]) (.result []) [⟨7, "start"⟩, ⟨8, "stop"⟩]
      = [⟨7, "start"⟩, ⟨8, "stop"⟩] ++ [{ att_conf_id := 7, event := "pause" }]
    ∧ (fetchLastHistoryEvent sampleQueryBuilder
        (storeHistoryEvent sampleQueryBuilder
          (gateway true sampleConnection ⟨[("a", 7)]⟩ ⟨[]⟩ ⟨[("start", 1)]⟩) "a" "pause"
          (.result [[some "2"]]) (.result [])).2 "a" (.result [[some "pause"]])).1
      = .returned "pause" :=
  have h := fetch_after_store sampleQueryBuilder
    (gateway true sampleConnection ⟨[("a", 7)]⟩ ⟨[]⟩ ⟨[("start", 1)]⟩) _ ⟨[("a", 7)]⟩
    "a" "pause" 7 (.result [[some "2"]]) (.result []) [⟨7, "start"⟩, ⟨8, "stop"⟩]
    (by decide) (by decide) rfl (by decide) (by decide)
  ⟨h.1, (h.2.1 (.result [[some "pause"]]) (sampleQueryBuilder.FetchLastHistoryEvent, [.int 7])
    (by decide) (by decide)).2⟩

/-! ## Scanning the inner text of an array -/

theorem separated_list_cons {T : Type} (enc : T → Text) (x : T) (xs : List T) :
    separated_list [','] ((x :: xs).map enc) = enc x ++ restText enc xs := by
  induction xs generalizing x with
  | nil => simp [separated_list, restText]
  | cons y ys ih =>
    have h := ih y
    simp only [List.map_cons] at h ⊢
    rw [separated_list, h]
    simp [restText]

theorem firstIndex_append_of_all_false (p : Char → Bool) (l t : Text) (i : Nat)
    (h : ∀ c ∈ l, p c = false) : firstIndex p (l ++ t) i = firstIndex p t (i + l.length) := by
  induction l generalizing i with
  | nil => rfl
  | cons c cs ih =>
    have hc : p c = false := h c (List.mem_cons_self _ _)
    have hstep : firstIndex p (c :: cs ++ t) i = firstIndex p (cs ++ t) (i + 1) := by
      simp [firstIndex, hc]
    rw [hstep, ih (i + 1) (fun d hd => h d (List.mem_cons_of_mem _ hd)), List.length_cons]
    congr 1
    omega

theorem firstIndex_of_all_false (p : Char → Bool) (l : Text) (i : Nat)
    (h : ∀ c ∈ l, p c = false) : firstIndex p l i = none := by
  have := firstIndex_append_of_all_false p l [] i h
  simpa [firstIndex] using this

theorem find_first_not_of_field (pre sepc t : Text) (c0 : Char)
    (hs : ∀ c ∈ sepc, c = ',') (hc0 : c0 ≠ ',') :
    find_first_not_of (pre ++ (sepc ++ c0 :: t)) ',' (some pre.length)
      = some (pre.length + sepc.length) := by
  simp only [find_first_not_of, List.drop_left]
  rw [firstIndex_append_of_all_false _ sepc _ _ (fun c hc => by simp [hs c hc])]
  simp [firstIndex, hc0]

theorem find_first_of_last_field (pre f : Text) (hf : ∀ c ∈ f, c ≠ ',') :
    find_first_of (pre ++ f) ',' (some pre.length) = none := by
  simp only [find_first_of, List.drop_left]
  exact firstIndex_of_all_false _ f _ (fun c hc => by simp [hf c hc])

theorem find_first_of_inner_field (pre f t : Text) (hf : ∀ c ∈ f, c ≠ ',') :
    find_first_of (pre ++ (f ++ ',' :: t)) ',' (some pre.length)
      = some (pre.length + f.length) := by
  simp only [find_first_of, List.drop_left]
  rw [firstIndex_append_of_all_false _ f _ _ (fun c hc => by simp [hf c hc])]
  simp [firstIndex]

theorem substr_last_field (pre f : Text) : substr (pre ++ f) pre.length none = f := by
  simp [substr]

theorem substr_inner_field (pre f t : Text) :
    substr (pre ++ (f ++ ',' :: t)) pre.length (some (pre.length + f.length)) = f := by
  simp [substr]

theorem set_at_length {T : Type} (done : List T) (p x : T) (pad : List T) :
    (done ++ p :: pad).set done.length x = done ++ x :: pad := by
  induction done with
  | nil => rfl
  | cons d ds ih => simp [ih]

theorem from_string_loop_fields {T : Type} (dec : Text → Converted T) (enc : T → Text) :
    ∀ (xs : List T) (x : T) (done pad : List T) (pre sepc inp : Text) (fuel : Nat),
      inp = pre ++ (sepc ++ (enc x ++ restText enc xs)) →
      (∀ c ∈ sepc, c = ',') →
      (∀ y ∈ x :: xs, dec (enc y) = .value y ∧ enc y ≠ [] ∧ ∀ c ∈ enc y, c ≠ ',') →
      xs.length + 1 ≤ pad.length →
      xs.length + 2 ≤ fuel →
      string_traits_vector.from_string_loop dec inp fuel (some pre.length) done.length
          (done ++ pad)
        = some (.value (done ++ (x :: xs) ++ pad.drop (xs.length + 1))) := by
  intro xs
  induction xs with
  | nil =>
    intro x done pad pre sepc inp fuel hinp hs henc hpad hfuel
    obtain ⟨f, rfl⟩ : ∃ f, fuel = f + 2 := ⟨fuel - 2, by simp at hfuel; omega⟩
    obtain ⟨hdec, hne, hcomma⟩ := henc x (List.mem_cons_self _ _)
    obtain ⟨c0, f0, hx⟩ : ∃ c0 f0, enc x = c0 :: f0 := by
      cases h : enc x with
      | nil => exact absurd h hne
      | cons c0 f0 => exact ⟨c0, f0, rfl⟩
    obtain ⟨p, pad1, rfl⟩ : ∃ p pad1, pad = p :: pad1 := by
      cases pad with
      | nil => simp at hpad
      | cons p pad1 => exact ⟨p, pad1, rfl⟩
    have hc0 : c0 ≠ ',' := hcomma c0 (by simp [hx])
    have hstart : find_first_not_of inp ',' (some pre.length)
        = some (pre.length + sepc.length) := by
      rw [hinp, hx]
      simpa [restText] using find_first_not_of_field pre sepc f0 c0 hs hc0
    have hinp2 : inp = (pre ++ sepc) ++ enc x := by
      rw [hinp]; simp [restText]
    have hnext : find_first_of inp ',' (some (pre.length + sepc.length)) = none := by
      rw [hinp2]
      simpa using find_first_of_last_field (pre ++ sepc) (enc x) hcomma
    have hsub : substr inp (pre.length + sepc.length) none = enc x := by
      rw [hinp2]
      simpa using substr_last_field (pre ++ sepc) (enc x)
    rw [string_traits_vector.from_string_loop]
    simp only [hstart, hnext, hsub, hdec, List.length_append, List.length_cons]
    rw [if_pos (by omega), string_traits_vector.from_string_loop]
    simp only [find_first_not_of, set_at_length]
    simp
  | cons y ys ih =>
    intro x done pad pre sepc inp fuel hinp hs henc hpad hfuel
    obtain ⟨f, rfl⟩ : ∃ f, fuel = f + 1 := ⟨fuel - 1, by simp at hfuel; omega⟩
    obtain ⟨hdec, hne, hcomma⟩ := henc x (List.mem_cons_self _ _)
    obtain ⟨c0, f0, hx⟩ : ∃ c0 f0, enc x = c0 :: f0 := by
      cases h : enc x with
      | nil => exact absurd h hne
      | cons c0 f0 => exact ⟨c0, f0, rfl⟩
    obtain ⟨p, pad1, rfl⟩ : ∃ p pad1, pad = p :: pad1 := by
      cases pad with
      | nil => simp at hpad
      | cons p pad1 => exact ⟨p, pad1, rfl⟩
    have hc0 : c0 ≠ ',' := hcomma c0 (by simp [hx])
    have hstart : find_first_not_of inp ',' (some pre.length)
        = some (pre.length + sepc.length) := by
      rw [hinp, hx]
      simpa using find_first_not_of_field pre sepc (f0 ++ restText enc (y :: ys)) c0 hs hc0
    have hinp2 : inp = (pre ++ sepc) ++ (enc x ++ ',' :: (enc y ++ restText enc ys)) := by
      rw [hinp]; simp [restText]
    have hnext : find_first_of inp ',' (some (pre.length + sepc.length))
        = some (pre.length + sepc.length + (enc x).length) := by
      rw [hinp2]
      simpa using find_first_of_inner_field (pre ++ sepc) (enc x)
        (enc y ++ restText enc ys) hcomma
    have hsub : substr inp (pre.length + sepc.length)
        (some (pre.length + sepc.length + (enc x).length)) = enc x := by
      rw [hinp2]
      simpa using substr_inner_field (pre ++ sepc) (enc x) (enc y ++ restText enc ys)
    rw [string_traits_vector.from_string_loop]
    simp only [hstart, hnext, hsub, hdec, List.length_append, List.length_cons]
    rw [if_pos (by omega), set_at_length]
    have hih : string_traits_vector.from_string_loop dec inp f
        (some (pre.length + sepc.length + (enc x).length)) (done.length + 1)
        (done ++ x :: pad1)
        = some (.value (done ++ x :: y :: ys ++ pad1.drop (ys.length + 1))) := by
      have h := ih y (done ++ [x]) pad1 (pre ++ sepc ++ enc x) [','] inp f
        (by rw [hinp]; simp [restText]) (by simp)
        (fun z hz => henc z (List.mem_cons_of_mem _ hz))
        (by simp at hpad; omega) (by simp at hfuel; omega)
      simpa [Nat.add_assoc] using h
    rw [hih]
    simp

theorem from_string_bool_loop_fields (dec : Text → Converted Bool) (enc : Bool → Text) :
    ∀ (xs : List Bool) (x : Bool) (done : List Bool) (pre sepc inp : Text) (fuel : Nat),
      inp = pre ++ (sepc ++ (enc x ++ restText enc xs)) →
      (∀ c ∈ sepc, c = ',') →
      (∀ y ∈ x :: xs, dec (enc y) = .value y ∧ enc y ≠ [] ∧ ∀ c ∈ enc y, c ≠ ',') →
      xs.length + 2 ≤ fuel →
      string_traits_vector_bool.from_string_loop dec inp fuel (some pre.length) done
        = some (.value (done ++ (x :: xs))) := by
  intro xs
  induction xs with
  | nil =>
    intro x done pre sepc inp fuel hinp hs henc hfuel
    obtain ⟨f, rfl⟩ : ∃ f, fuel = f + 2 := ⟨fuel - 2, by simp at hfuel; omega⟩
    obtain ⟨hdec, hne, hcomma⟩ := henc x (List.mem_cons_self _ _)
    obtain ⟨c0, f0, hx⟩ : ∃ c0 f0, enc x = c0 :: f0 := by
      cases h : enc x with
      | nil => exact absurd h hne
      | cons c0 f0 => exact ⟨c0, f0, rfl⟩
    have hc0 : c0 ≠ ',' := hcomma c0 (by simp [hx])
    have hstart : find_first_not_of inp ',' (some pre.length)
        = some (pre.length + sepc.length) := by
      rw [hinp, hx]
      simpa [restText] using find_first_not_of_field pre sepc f0 c0 hs hc0
    have hinp2 : inp = (pre ++ sepc) ++ enc x := by
      rw [hinp]; simp [restText]
    have hnext : find_first_of inp ',' (some (pre.length + sepc.length)) = none := by
      rw [hinp2]
      simpa using find_first_of_last_field (pre ++ sepc) (enc x) hcomma
    have hsub : substr inp (pre.length + sepc.length) none = enc x := by
      rw [hinp2]
      simpa using substr_last_field (pre ++ sepc) (enc x)
    rw [string_traits_vector_bool.from_string_loop]
    simp only [hstart, hnext, hsub, hdec]
    rw [string_traits_vector_bool.from_string_loop]
    simp only [find_first_not_of]
  | cons y ys ih =>
    intro x done pre sepc inp fuel hinp hs henc hfuel
    obtain ⟨f, rfl⟩ : ∃ f, fuel = f + 1 := ⟨fuel - 1, by simp at hfuel; omega⟩
    obtain ⟨hdec, hne, hcomma⟩ := henc x (List.mem_cons_self _ _)
    obtain ⟨c0, f0, hx⟩ : ∃ c0 f0, enc x = c0 :: f0 := by
      cases h : enc x with
      | nil => exact absurd h hne
      | cons c0 f0 => exact ⟨c0, f0, rfl⟩
    have hc0 : c0 ≠ ',' := hcomma c0 (by simp [hx])
    have hstart : find_first_not_of inp ',' (some pre.length)
        = some (pre.length + sepc.length) := by
      rw [hinp, hx]
      simpa using find_first_not_of_field pre sepc (f0 ++ restText enc (y :: ys)) c0 hs hc0
    have hinp2 : inp = (pre ++ sepc) ++ (enc x ++ ',' :: (enc y ++ restText enc ys)) := by
      rw [hinp]; simp [restText]
    have hnext : find_first_of inp ',' (some (pre.length + sepc.length))
        = some (pre.length + sepc.length + (enc x).length) := by
      rw [hinp2]
      simpa using find_first_of_inner_field (pre ++ sepc) (enc x)
        (enc y ++ restText enc ys) hcomma
    have hsub : substr inp (pre.length + sepc.length)
        (some (pre.length + sepc.length + (enc x).length)) = enc x := by
      rw [hinp2]
      simpa using substr_inner_field (pre ++ sepc) (enc x) (enc y ++ restText enc ys)
    rw [string_traits_vector_bool.from_string_loop]
    simp only [hstart, hnext, hsub, hdec]
    have hih : string_traits_vector_bool.from_string_loop dec inp f
        (some (pre.length + sepc.length + (enc x).length)) (done ++ [x])
        = some (.value (done ++ x :: y :: ys)) := by
      have h := ih y (done ++ [x]) (pre ++ sepc ++ enc x) [','] inp f
        (by rw [hinp]; simp [restText]) (by simp)
        (fun z hz => henc z (List.mem_cons_of_mem _ hz))
        (by simp at hfuel; omega)
      simpa [Nat.add_assoc] using h
    rw [hih]

theorem restText_count {T : Type} (enc : T → Text) (xs : List T)
    (h : ∀ y ∈ xs, ∀ c ∈ enc y, c ≠ ',') : (restText enc xs).count ',' = xs.length := by
  induction xs with
  | nil => rfl
  | cons y ys ih =>
    have hy : (enc y).count ',' = 0 :=
      List.count_eq_zero.mpr (fun hc => h y (List.mem_cons_self _ _) ',' hc rfl)
    simp [restText, List.count_cons, hy, ih (fun z hz => h z (List.mem_cons_of_mem _ hz))]

theorem restText_length {T : Type} (enc : T → Text) (xs : List T) :
    xs.length ≤ (restText enc xs).length := by
  induction xs with
  | nil => simp [restText]
  | cons y ys ih => simp [restText]; omega

theorem bracesOk_braced (inner : Text) : bracesOk (['{'] ++ inner ++ ['}']) = true := by
  have h : (['{'] ++ inner ++ ['}']).getLast? = some '}' := by
    rw [List.getLast?_append]
    rfl
  simp only [bracesOk, h]
  rfl

theorem innerText_braced (inner : Text) : innerText (['{'] ++ inner ++ ['}']) = inner := by
  simp [innerText]

theorem vector_from_to_string {T : Type} (dec : Text → Converted T) (enc : T → Text)
    (dflt : T) (v : List T) (hv : v ≠ [])
    (henc : ∀ y ∈ v, dec (enc y) = .value y ∧ enc y ≠ [] ∧ ∀ c ∈ enc y, c ≠ ',') :
    string_traits_vector.from_string dec dflt (some (string_traits_vector.to_string enc v))
      = some (.value v) := by
  obtain ⟨x, xs, rfl⟩ : ∃ x xs, v = x :: xs := by
    cases v with
    | nil => exact absurd rfl hv
    | cons x xs => exact ⟨x, xs, rfl⟩
  have hto : string_traits_vector.to_string enc (x :: xs)
      = ['{'] ++ (enc x ++ restText enc xs) ++ ['}'] := by
    simp only [string_traits_vector.to_string, List.isEmpty_cons, Bool.false_eq_true, if_false,
      separated_list_cons]
  have hx : (enc x).count ',' = 0 :=
    List.count_eq_zero.mpr (fun hc => (henc x (List.mem_cons_self _ _)).2.2 ',' hc rfl)
  have hcount : (enc x ++ restText enc xs).count ',' = xs.length := by
    rw [List.count_append, hx,
      restText_count enc xs (fun y hy => (henc y (List.mem_cons_of_mem _ hy)).2.2)]
    omega
  have hlen : xs.length + 1 ≤ (enc x ++ restText enc xs).length := by
    have h1 := restText_length enc xs
    have h2 : 0 < (enc x).length :=
      List.length_pos.mpr (henc x (List.mem_cons_self _ _)).2.1
    rw [List.length_append]
    omega
  rw [hto]
  simp only [string_traits_vector.from_string, bracesOk_braced, innerText_braced, hcount,
    Bool.not_true, Bool.false_eq_true, if_false]
  have h := from_string_loop_fields dec enc xs x [] (List.replicate (xs.length + 1) dflt) [] []
    (enc x ++ restText enc xs) ((enc x ++ restText enc xs).length + 1) (by simp) (by simp)
    henc (by simp) (by omega)
  simpa using h

theorem vector_bool_from_to_string (dec : Text → Converted Bool) (v : List Bool) (hv : v ≠ [])
    (henc : ∀ y ∈ v, dec (bool_to_string y) = .value y ∧ bool_to_string y ≠ []
      ∧ ∀ c ∈ bool_to_string y, c ≠ ',') :
    string_traits_vector_bool.from_string dec (some (string_traits_vector_bool.to_string v))
      = some (.value v) := by
  obtain ⟨x, xs, rfl⟩ : ∃ x xs, v = x :: xs := by
    cases v with
    | nil => exact absurd rfl hv
    | cons x xs => exact ⟨x, xs, rfl⟩
  have hto : string_traits_vector_bool.to_string (x :: xs)
      = ['{'] ++ (bool_to_string x ++ restText bool_to_string xs) ++ ['}'] := by
    simp only [string_traits_vector_bool.to_string, List.isEmpty_cons, Bool.false_eq_true,
      if_false, separated_list_cons]
  have hlen : xs.length + 1 ≤ (bool_to_string x ++ restText bool_to_string xs).length := by
    have h1 := restText_length bool_to_string xs
    have h2 : 0 < (bool_to_string x).length :=
      List.length_pos.mpr (henc x (List.mem_cons_self _ _)).2.1
    rw [List.length_append]
    omega
  rw [hto]
  simp only [string_traits_vector_bool.from_string, bracesOk_braced, innerText_braced,
    Bool.not_true, Bool.false_eq_true, if_false]
  have h := from_string_bool_loop_fields dec bool_to_string xs x [] [] []
    (bool_to_string x ++ restText bool_to_string xs)
    ((bool_to_string x ++ restText bool_to_string xs).length + 1) (by simp) (by simp)
    henc (by omega)
  simpa using h

theorem digitChar_ne_comma (d : Nat) (h : d < 10) : digitChar d ≠ ',' := by
  interval_cases d <;> decide

theorem natTextAux_no_comma (fuel n : Nat) (acc : Text) (hacc : ∀ c ∈ acc, c ≠ ',') :
    ∀ c ∈ natTextAux fuel n acc, c ≠ ',' := by
  induction fuel generalizing n acc with
  | zero => exact hacc
  | succ fuel ih =>
    unfold natTextAux
    split
    · rename_i hn
      intro c hc
      rcases List.mem_cons.mp hc with rfl | hc
      · exact digitChar_ne_comma n hn
      · exact hacc c hc
    · apply ih
      intro c hc
      rcases List.mem_cons.mp hc with rfl | hc
      · exact digitChar_ne_comma _ (Nat.mod_lt _ (by decide))
      · exact hacc c hc

theorem natTextAux_ne_nil_of_acc (fuel n : Nat) (acc : Text) (hacc : acc ≠ []) :
    natTextAux fuel n acc ≠ [] := by
  induction fuel generalizing n acc with
  | zero => exact hacc
  | succ fuel ih =>
    unfold natTextAux
    split
    · simp
    · exact ih _ _ (by simp)

theorem nat_to_string_ne_nil (n : Nat) : nat_to_string n ≠ [] := by
  unfold nat_to_string natTextAux
  split
  · simp
  · exact natTextAux_ne_nil_of_acc _ _ _ (by simp)

theorem nat_to_string_no_comma (n : Nat) : ∀ c ∈ nat_to_string n, c ≠ ',' :=
  natTextAux_no_comma _ _ _ (by simp)

theorem int_to_string_ne_nil (n : Int) : int_to_string n ≠ [] := by
  unfold int_to_string
  split
  · simp
  · exact nat_to_string_ne_nil _

theorem int_to_string_no_comma (n : Int) : ∀ c ∈ int_to_string n, c ≠ ',' := by
  unfold int_to_string
  split
  · intro c hc
    rcases List.mem_cons.mp hc with rfl | hc
    · decide
    · exact nat_to_string_no_comma _ c hc
  · exact nat_to_string_no_comma _

theorem bool_to_string_ne_nil (b : Bool) : bool_to_string b ≠ [] := by
  cases b <;> decide

theorem bool_to_string_no_comma (b : Bool) : ∀ c ∈ bool_to_string b, c ≠ ',' := by
  cases b <;> decide

/-! ## Vectors to text and back -/

/-- C15: for every non-empty vector of a signed or unsigned integer type or of bool, decoding
the text that the vector encoder produces gives back the vector itself, given that the
element decoder reads back the text of every element; the texts of integers and bools are
never empty and hold no ','.  The same holds for any element codec whose texts are never
empty and hold no ','. -/
theorem vector_round_trip :
    (∀ (dec : Text → Converted Int) (dflt : Int) (v : List Int), v ≠ [] →
      (∀ x ∈ v, dec (int_to_string x) = .value x) →
      string_traits_vector.from_string dec dflt
          (some (string_traits_vector.to_string int_to_string v)) = some (.value v))
    ∧ (∀ (dec : Text → Converted Nat) (dflt : Nat) (v : List Nat), v ≠ [] →
      (∀ x ∈ v, dec (nat_to_string x) = .value x) →
      string_traits_vector.from_string dec dflt
          (some (string_traits_vector.to_string nat_to_string v)) = some (.value v))
    ∧ (∀ (dec : Text → Converted Bool) (v : List Bool), v ≠ [] →
      (∀ x ∈ v, dec (bool_to_string x) = .value x) →
      string_traits_vector_bool.from_string dec
          (some (string_traits_vector_bool.to_string v)) = some (.value v))
    ∧ (∀ (T : Type) (dec : Text → Converted T) (enc : T → Text) (dflt : T) (v : List T),
      v ≠ [] →
      (∀ x ∈ v, dec (enc x) = .value x ∧ enc x ≠ [] ∧ ∀ c ∈ enc x, c ≠ ',') →
      string_traits_vector.from_string dec dflt
          (some (string_traits_vector.to_string enc v)) = some (.value v)) :=
  ⟨fun dec dflt v hv h => vector_from_to_string dec int_to_string dflt v hv
      (fun y hy => ⟨h y hy, int_to_string_ne_nil y, int_to_string_no_comma y⟩),
    fun dec dflt v hv h => vector_from_to_string dec nat_to_string dflt v hv
      (fun y hy => ⟨h y hy, nat_to_string_ne_nil y, nat_to_string_no_comma y⟩),
    fun dec v hv h => vector_bool_from_to_string dec v hv
      (fun y hy => ⟨h y hy, bool_to_string_ne_nil y, bool_to_string_no_comma y⟩),
    fun _ dec enc dflt v hv h => vector_from_to_string dec enc dflt v hv h⟩

/-- C15 at samples: the vectors [1, -20, 300], [0, 65535] and [true, false, true]. -/
theorem vector_round_trip_witness :
    string_traits_vector.from_string sampleIntFromString 0
        (some (string_traits_vector.to_string int_to_string [1, -20, 300]))
      = some (.value [1, -20, 300])
    ∧ string_traits_vector.from_string (fun s => sampleIntFromString s) 7
        (some (string_traits_vector.to_string int_to_string [0, 65535]))
      = some (.value [0, 65535])
    ∧ string_traits_vector_bool.from_string sampleBoolFromString
        (some (string_traits_vector_bool.to_string [true, false, true]))
      = some (.value [true, false, true])
    ∧ string_traits_vector.from_string sampleBoolFromString false
        (some (string_traits_vector.to_string bool_to_string [false, true]))
      = some (.value [false, true]) :=
  ⟨vector_round_trip.1 sampleIntFromString 0 [1, -20, 300] (by decide) (by decide),
    vector_round_trip.1 (fun s => sampleIntFromString s) 7 [0, 65535] (by decide) (by decide),
    vector_round_trip.2.2.1 sampleBoolFromString [true, false, true] (by decide) (by decide),
    vector_round_trip.2.2.2 Bool sampleBoolFromString bool_to_string false [false, true]
      (by decide) (by decide)⟩

theorem separated_list_eq_intercalate (sep : Text) (xs : List Text) :
    separated_list sep xs = sep.intercalate xs := by
  induction xs with
  | nil => rfl
  | cons x rest ih =>
    cases rest with
    | nil => simp [separated_list, List.intercalate]
    | cons y ys =>
      rw [separated_list, ih]
      simp [List.intercalate, List.intersperse]

theorem string_vector_to_string_injective (v w : List Text) (hv : v ≠ []) (hw : w ≠ [])
    (hvc : ∀ x ∈ v, ',' ∉ x) (hwc : ∀ x ∈ w, ',' ∉ x)
    (h : string_traits_vector_string.to_string v = string_traits_vector_string.to_string w) :
    v = w := by
  simp only [string_traits_vector_string.to_string, List.append_assoc, List.singleton_append,
    List.cons.injEq, true_and, separated_list_eq_intercalate] at h
  have h2 : ([','] : Text).intercalate v = ([','] : Text).intercalate w :=
    List.append_cancel_right (List.cons.inj h).2
  have hsv : (([','] : Text).intercalate v).splitOn ',' = v :=
    List.splitOn_intercalate v ',' hvc hv
  have hsw : (([','] : Text).intercalate w).splitOn ',' = w :=
    List.splitOn_intercalate w ',' hwc hw
  rw [← hsv, ← hsw, h2]

/-- C16, as stated, fails: the one-element vector ["a,b"] and the two-element vector
["a", "b"] have the same text "{a,b}", and so have the empty vector and [""]. -/
theorem string_vector_counterexample :
    string_traits_vector_string.to_string ["a,b".toList]
      = string_traits_vector_string.to_string ["a".toList, "b".toList]
    ∧ (["a,b".toList] : List Text) ≠ ["a".toList, "b".toList]
    ∧ string_traits_vector_string.to_string [] = string_traits_vector_string.to_string [[]]
    ∧ ([] : List Text) ≠ [[]] := by
  decide

/-- C16, amended: the encoder of string vectors puts the elements, joined with ',', between
braces and quotes or escapes nothing; two non-empty vectors none of whose elements holds a
',' have the same text only if they are equal, whatever braces or quote characters the
elements hold. -/
theorem string_vector_text_determines_vector (v w : List Text) (hv : v ≠ []) (hw : w ≠ [])
    (hvc : ∀ x ∈ v, ',' ∉ x) (hwc : ∀ x ∈ w, ',' ∉ x) :
    string_traits_vector_string.to_string v = ['{'] ++ [','].intercalate v ++ ['}']
    ∧ (string_traits_vector_string.to_string v = string_traits_vector_string.to_string w →
      v = w) :=
  ⟨by simp only [string_traits_vector_string.to_string, separated_list_eq_intercalate],
    string_vector_to_string_injective v w hv hw hvc hwc⟩

/-- The amended C16 at a sample: elements with braces and quotes, but no ','. -/
theorem string_vector_text_determines_vector_witness :
    string_traits_vector_string.to_string ["{a}".toList, "\"b\"".toList]
      = ['{'] ++ [','].intercalate ["{a}".toList, "\"b\"".toList] ++ ['}']
    ∧ (["{a}".toList, "\"b\"".toList] : List Text) = [['{', 'a', '}'], ['"', 'b', '"']] :=
  have h := string_vector_text_determines_vector ["{a}".toList, "\"b\"".toList]
    [['{', 'a', '}'], ['"', 'b', '"']] (by decide) (by decide) (by decide) (by decide)
  ⟨h.1, h.2 (by decide)⟩

/-! ## Empty sequences -/

/-- C17, as stated, fails: the encoder of string vectors turns the empty vector into "{}",
the text of an empty array, not into the empty text. -/
theorem empty_string_vector_counterexample :
    string_traits_vector_string.to_string [] = "{}".toList
    ∧ string_traits_vector_string.to_string [] ≠ [] := by
  decide

/-- C17, amended: for every element type and encoder, the value column that `storeDataEvent`
writes for an empty read or write sequence is null, not an empty sequence; and the encoders
of numeric and of bool vectors turn an empty vector into the empty text, not into the text
"{}" of an empty array, which only the encoder of string vectors produces. -/
theorem empty_sequence_is_null :
    (∀ (T : Type) (encode : List T → Text),
      storeDataEvent_column encode (some []) = none ∧ storeDataEvent_column encode none = none)
    ∧ (∀ (T : Type) (elem_to_string : T → Text),
      string_traits_vector.to_string elem_to_string [] = []
      ∧ string_traits_vector.to_string elem_to_string [] ≠ "{}".toList)
    ∧ string_traits_vector_bool.to_string [] = []
    ∧ string_traits_vector_bool.to_string [] ≠ "{}".toList
    ∧ string_traits_vector_string.to_string [] = "{}".toList :=
  ⟨fun _ _ => ⟨rfl, rfl⟩, fun _ _ => ⟨rfl, by simp [string_traits_vector.to_string]⟩, rfl,
    by decide, by decide⟩

/-! ## Reconnecting -/

/-- C21: every `connect` that succeeds returns and leaves the gateway with three newly made
caches and a newly made open connection on which nothing is prepared or run: whatever the
attribute, error and event caches held before the call, no key has a cached id in any of
them afterwards, and the attribute check finds no attribute, also not one that was cached
before. -/
theorem connect_resets_caches (s : DbConnection) (connect_string : String) :
    (connect s connect_string .opened).1 = .returned ()
    ∧ (connect s connect_string .opened).2._conn
        = some { is_open := true, prepared := [], executed := [] }
    ∧ cachesOf (connect s connect_string .opened).2 = (some ⟨[]⟩, some ⟨[]⟩, some ⟨[]⟩)
    ∧ (∀ key : String,
        cachedId (connect s connect_string .opened).2._conf_id_cache key = none
        ∧ cachedId (connect s connect_string .opened).2._error_desc_id_cache key = none
        ∧ cachedId (connect s connect_string .opened).2._event_id_cache key = none)
    ∧ ∀ a location : String,
        checkAttributeExists (connect s connect_string .opened).2 a location
          = .raised (unknownAttributeError a location) :=
  ⟨rfl, rfl, rfl, fun _ => ⟨rfl, rfl, rfl⟩,
    fun a location => checkAttributeExists_absent true _ ⟨[]⟩ ⟨[]⟩ ⟨[]⟩ a location rfl⟩

/-- C22: on a closed gateway `checkConnection` raises an error with the reason
"Connecion Error", a `connect` that fails raises one with the reason "Connection Error", and
the two reasons differ. -/
theorem connection_error_reasons_differ (conn : Connection) (conf errors events : ColumnCache)
    (location connect_string what : String) :
    (∃ e, checkConnection (gateway false conn conf errors events) location = .raised e
      ∧ e.reason = "Connecion Error")
    ∧ (∃ e, (connect (gateway false conn conf errors events) connect_string (.broken what)).1
        = .raised e ∧ e.reason = "Connection Error")
    ∧ "Connecion Error" ≠ "Connection Error" :=
  ⟨⟨_, rfl, rfl⟩, ⟨_, rfl, rfl⟩, by decide⟩

/-- C24: after a `connect` that succeeds and a second `connect` that fails, the second call
has raised its Connection Error, the connected flag is still true and the connection object
the gateway holds is closed; `checkConnection` lets the next operation pass. -/
theorem failed_reconnect_reports_open (connect_string1 connect_string2 what location : String) :
    (connect (connect DbConnection.new connect_string1 .opened).2 connect_string2
        (.broken what)).1
      = .raised { reason := "Connection Error",
                  desc := "Failed to connect database. Ensure paramters are correct and database is running",
                  origin := LOCATION_INFO "connect" }
    ∧ isOpen (connect (connect DbConnection.new connect_string1 .opened).2 connect_string2
        (.broken what)).2 = true
    ∧ heldConnectionOpen (connect (connect DbConnection.new connect_string1 .opened).2
        connect_string2 (.broken what)).2 = false
    ∧ checkConnection (connect (connect DbConnection.new connect_string1 .opened).2
        connect_string2 (.broken what)).2 location = .returned () :=
  ⟨rfl, rfl, rfl, rfl⟩

/-! ## The entry assertions of `storeParameterEvent` -/

/-- C26, as stated, fails: on a gateway that was never connected all ten strings are
non-empty, yet the entry assertions of `storeParameterEvent` do not hold and the call stops
at one of them. -/
theorem parameter_asserts_counterexample :
    ((sampleParameters "a").full_attr_name ≠ "" ∧ (sampleParameters "a").label ≠ ""
      ∧ (sampleParameters "a").unit ≠ "" ∧ (sampleParameters "a").standard_unit ≠ ""
      ∧ (sampleParameters "a").display_unit ≠ "" ∧ (sampleParameters "a").format ≠ ""
      ∧ (sampleParameters "a").archive_rel_change ≠ ""
      ∧ (sampleParameters "a").archive_abs_change ≠ ""
      ∧ (sampleParameters "a").archive_period ≠ "" ∧ (sampleParameters "a").description ≠ "")
    ∧ storeParameterEvent_asserts DbConnection.new (sampleParameters "a") = false
    ∧ (storeParameterEvent sampleQueryBuilder DbConnection.new (sampleParameters "a") ⟨0⟩
        (.result [])).1 = .assertFailed := by
  decide

/-- C26, amended: the entry assertions of `storeParameterEvent` hold exactly when the
attribute name and each of the nine metadata strings are non-empty and the connection and
the three caches of the gateway exist; an empty string for any one of the ten violates an
assertion and ends the call there, whatever the state of the connection and of the attribute
cache, before the connection check and the attribute check are made. -/
theorem parameter_asserts_exact (qb : QueryBuilder) (s : DbConnection) (p : ParameterStrings)
    (event_time : Double) (reply : TxReply) :
    (storeParameterEvent_asserts s p = true ↔
      (p.full_attr_name ≠ "" ∧ p.label ≠ "" ∧ p.unit ≠ "" ∧ p.standard_unit ≠ ""
        ∧ p.display_unit ≠ "" ∧ p.format ≠ "" ∧ p.archive_rel_change ≠ ""
        ∧ p.archive_abs_change ≠ "" ∧ p.archive_period ≠ "" ∧ p.description ≠ "")
      ∧ membersSet s = true)
    ∧ ((p.full_attr_name = "" ∨ p.label = "" ∨ p.unit = "" ∨ p.standard_unit = ""
        ∨ p.display_unit = "" ∨ p.format = "" ∨ p.archive_rel_change = ""
        ∨ p.archive_abs_change = "" ∨ p.archive_period = "" ∨ p.description = "") →
      storeParameterEvent qb s p event_time reply = (.assertFailed, s)) := by
  have hiff : storeParameterEvent_asserts s p = true ↔
      (p.full_attr_name ≠ "" ∧ p.label ≠ "" ∧ p.unit ≠ "" ∧ p.standard_unit ≠ ""
        ∧ p.display_unit ≠ "" ∧ p.format ≠ "" ∧ p.archive_rel_change ≠ ""
        ∧ p.archive_abs_change ≠ "" ∧ p.archive_period ≠ "" ∧ p.description ≠ "")
      ∧ membersSet s = true := by
    simp only [storeParameterEvent_asserts, Bool.and_eq_true, not_isEmpty_iff]
    tauto
  refine ⟨hiff, fun h => ?_⟩
  have hfalse : storeParameterEvent_asserts s p = false := by
    cases hb : storeParameterEvent_asserts s p
    · rfl
    · have hall := (hiff.mp hb).1
      tauto
  simp [storeParameterEvent, hfalse]

/-- C26 at a sample: a closed gateway with empty caches and an empty unit; the call ends at
the assertion, not at the connection check or the attribute check. -/
theorem parameter_asserts_exact_witness :
    storeParameterEvent sampleQueryBuilder
        (gateway false sampleConnection ⟨[]⟩ ⟨[]⟩ ⟨[]⟩)
        { sampleParameters "a" with unit := "" } ⟨0⟩ (.result [])
      = (.assertFailed, gateway false sampleConnection ⟨[]⟩ ⟨[]⟩ ⟨[]⟩) :=
  (parameter_asserts_exact sampleQueryBuilder (gateway false sampleConnection ⟨[]⟩ ⟨[]⟩ ⟨[]⟩)
    { sampleParameters "a" with unit := "" } ⟨0⟩ (.result [])).2 (by decide)

/-! ## The second existence check -/

theorem raised_ne_of_reason {α : Type} {e1 e2 : DevFailed} (h : e1.reason ≠ e2.reason) :
    (Outcome.raised e1 : Outcome α) ≠ .raised e2 := by
  intro heq
  injection heq with h1
  exact h (by rw [h1])

theorem raised_ne_of_desc {α : Type} {e1 e2 : DevFailed} (h : e1.desc ≠ e2.desc) :
    (Outcome.raised e1 : Outcome α) ≠ .raised e2 := by
  intro heq
  injection heq with h1
  exact h (by rw [h1])

theorem unknownAttributeError_desc_ne_missingEvent (a loc event : String) :
    (unknownAttributeError a loc).desc ≠ (missingEventError event).desc := by
  intro h
  have h2 := congrArg String.data h
  simp only [unknownAttributeError, missingEventError, String.data_append] at h2
  have h3 := congrArg (fun l => l.get? 2) h2
  simp [List.append_assoc] at h3

theorem unknownAttributeError_desc_ne_missingErrorMsg (a loc msg : String) :
    (unknownAttributeError a loc).desc ≠ (missingErrorMsgError msg).desc := by
  intro h
  have h2 := congrArg String.data h
  simp only [unknownAttributeError, missingErrorMsgError, String.data_append] at h2
  have h3 := congrArg (fun l => l.get? 2) h2
  simp [List.append_assoc] at h3

theorem storeHistoryEvent_insert_not_missing (qb : QueryBuilder) (b : Bool) (conn : Connection)
    (conf errors events : ColumnCache) (a event : String) (reply : TxReply) (id : Int)
    (hid : conf.value a = some id) :
    (storeHistoryEvent_insert qb (gateway b conn conf errors events) a event reply).1
      ≠ .raised (missingEventError event) := by
  rw [storeHistoryEvent_insert_gateway qb b conn conf errors events a event reply id hid]
  cases exec_prepared0 reply.rows with
  | value u => simp
  | threw what =>
    exact raised_ne_of_reason (by simp [handlePqxxError, missingEventError])
  | undefined => simp

theorem storeDataEventError_insert_not_missing (qb : QueryBuilder) (b : Bool)
    (conn : Connection) (conf errors events : ColumnCache) (a msg : String) (time : Double)
    (quality : Int) (traits : AttributeTraits) (reply : TxReply) (id error_id : Int)
    (hid : conf.value a = some id) (herr : errors.value msg = some error_id) :
    (storeDataEventError_insert qb (gateway b conn conf errors events) a time quality msg
        traits reply).1 ≠ .raised (missingErrorMsgError msg) := by
  rw [storeDataEventError_insert_gateway qb b conn conf errors events a msg time quality traits
    reply id error_id hid herr]
  cases exec_prepared0 reply.rows with
  | value u => simp
  | threw what =>
    exact raised_ne_of_reason (by simp [handlePqxxError, missingErrorMsgError])
  | undefined => simp

theorem storeHistoryEvent_not_missing (qb : QueryBuilder) (s : DbConnection)
    (a event : String) (r1 r2 : TxReply) :
    (storeHistoryEvent qb s a event r1 r2).1 ≠ .raised (missingEventError event) := by
  cases hassert : storeHistoryEvent_asserts s a event
  · simp [storeHistoryEvent, hassert]
  · have hsplit := (storeHistoryEvent_asserts_iff _ _ _).mp hassert
    obtain ⟨conn, conf, errors, events, hs⟩ := eq_gateway_of_membersSet s hsplit.2.2
    cases hb : s._connected
    · have hclosed : isClosed s = true := by simp [isClosed, isOpen, hb]
      simp only [storeHistoryEvent, hassert, Bool.not_true, Bool.false_eq_true, if_false,
        checkConnection_closed s _ hclosed]
      exact raised_ne_of_reason (by simp [missingEventError])
    · rw [hb] at hs
      subst hs
      cases hex : conf.valueExists a
      · simp only [storeHistoryEvent, hassert, Bool.not_true, Bool.false_eq_true, if_false,
          checkConnection_open (gateway true conn conf errors events) _ rfl,
          checkAttributeExists_absent true conn conf errors events a _ hex]
        exact raised_ne_of_desc (unknownAttributeError_desc_ne_missingEvent _ _ _)
      · obtain ⟨id, hid⟩ := value_of_valueExists hex
        rw [storeHistoryEvent_open qb conn conf errors events a event r1 r2 hassert hex]
        cases hev : events.valueExists event
        · simp only [Bool.false_eq_true, if_false]
          cases hins : insertedId r1.rows with
          | value event_id =>
            exact storeHistoryEvent_insert_not_missing qb true _ conf errors _ a event r2 id hid
          | threw what =>
            exact raised_ne_of_reason (by simp [handlePqxxError, missingEventError])
          | undefined => simp
        · simp only [if_true]
          exact storeHistoryEvent_insert_not_missing qb true _ conf errors _ a event r2 id hid

theorem storeDataEventError_not_missing (qb : QueryBuilder) (s : DbConnection)
    (a msg : String) (time : Double) (quality : Int) (traits : AttributeTraits)
    (r1 r2 : TxReply) :
    (storeDataEventError qb s a time quality msg traits r1 r2).1
      ≠ .raised (missingErrorMsgError msg) := by
  cases hassert : storeDataEventError_asserts s a msg
  · simp [storeDataEventError, hassert]
  · have hsplit := (storeDataEventError_asserts_iff _ _ _).mp hassert
    obtain ⟨conn, conf, errors, events, hs⟩ := eq_gateway_of_membersSet s hsplit.2.2
    cases hb : s._connected
    · have hclosed : isClosed s = true := by simp [isClosed, isOpen, hb]
      simp only [storeDataEventError, hassert, Bool.not_true, Bool.false_eq_true, if_false,
        checkConnection_closed s _ hclosed]
      exact raised_ne_of_reason (by simp [missingErrorMsgError])
    · rw [hb] at hs
      subst hs
      cases hex : conf.valueExists a
      · simp only [storeDataEventError, hassert, Bool.not_true, Bool.false_eq_true, if_false,
          checkConnection_open (gateway true conn conf errors events) _ rfl,
          checkAttributeExists_absent true conn conf errors events a _ hex]
        exact raised_ne_of_desc (unknownAttributeError_desc_ne_missingErrorMsg _ _ _)
      · obtain ⟨id, hid⟩ := value_of_valueExists hex
        rw [storeDataEventError_open qb conn conf errors events a msg time quality traits r1 r2
          hassert hex]
        cases hev : errors.valueExists msg
        · simp only [Bool.false_eq_true, if_false]
          cases hins : insertedId r1.rows with
          | value error_id =>
            exact storeDataEventError_insert_not_missing qb true _ conf _ events a msg time
              quality traits r2 id error_id hid (ColumnCache.value_cacheValue_self _ _ _)
          | threw what =>
            exact raised_ne_of_reason (by simp [handlePqxxError, missingErrorMsgError])
          | undefined => simp
        · simp only [if_true]
          obtain ⟨error_id, herr⟩ := value_of_valueExists hev
          exact storeDataEventError_insert_not_missing qb true _ conf _ events a msg time
            quality traits r2 id error_id hid herr

/-- C23: a cache to which `cacheValue(id, key)` was applied holds `key`; and for all
arguments, states and replies of the store, `storeHistoryEvent` never ends with the error
"The event [..] is missing in both the cache and database" and `storeDataEventError` never
ends with the error "The error message [..] is missing in both the cache and database".  When
the insert of a new event string or error string fails on a connected gateway that knows the
attribute, the call ends with the Storage Error of that insert. -/
theorem missing_in_both_unreachable (qb : QueryBuilder) (s : DbConnection)
    (a event msg : String) (time : Double) (quality : Int) (traits : AttributeTraits)
    (r1 r2 : TxReply) :
    (∀ (c : ColumnCache) (id : Int) (key : String), (c.cacheValue id key).valueExists key = true)
    ∧ (storeHistoryEvent qb s a event r1 r2).1 ≠ .raised (missingEventError event)
    ∧ (storeDataEventError qb s a time quality msg traits r1 r2).1
        ≠ .raised (missingErrorMsgError msg)
    ∧ (∀ conf events what, storeHistoryEvent_asserts s a event = true → isOpen s = true →
        s._conf_id_cache = some conf → conf.valueExists a = true →
        s._event_id_cache = some events → events.valueExists event = false →
        insertedId r1.rows = .threw what →
        (storeHistoryEvent qb s a event r1 r2).1
          = .raised (storageError
              ("The event [" ++ event ++ "] for attribute [" ++ a ++ "] was not saved.")
              (LOCATION_INFO "storeEvent")))
    ∧ (∀ conf errors what, storeDataEventError_asserts s a msg = true → isOpen s = true →
        s._conf_id_cache = some conf → conf.valueExists a = true →
        s._error_desc_id_cache = some errors → errors.valueExists msg = false →
        insertedId r1.rows = .threw what →
        (storeDataEventError qb s a time quality msg traits r1 r2).1
          = .raised (storageError
              ("The error string [" ++ msg ++ "] for attribute [" ++ a ++ "] was not saved")
              (LOCATION_INFO "storeErrorMsg"))) := by
  refine ⟨fun c id key => ColumnCache.valueExists_cacheValue_self c id key,
    storeHistoryEvent_not_missing qb s a event r1 r2,
    storeDataEventError_not_missing qb s a msg time quality traits r1 r2, ?_, ?_⟩
  · intro conf events what hassert hopen hconf hex hevents hnew hins
    have hsplit := (storeHistoryEvent_asserts_iff _ _ _).mp hassert
    obtain ⟨conn, conf0, errors0, events0, hs⟩ := eq_gateway_of_membersSet s hsplit.2.2
    have hb : s._connected = true := hopen
    rw [hb] at hs
    subst hs
    have hc : conf0 = conf := by simpa [gateway] using hconf
    subst hc
    have he : events0 = events := by simpa [gateway] using hevents
    subst he
    rw [storeHistoryEvent_open qb conn conf0 errors0 events0 a event r1 r2 hassert hex, hnew,
      hins]
    rfl
  · intro conf errors what hassert hopen hconf hex herrors hnew hins
    have hsplit := (storeDataEventError_asserts_iff _ _ _).mp hassert
    obtain ⟨conn, conf0, errors0, events0, hs⟩ := eq_gateway_of_membersSet s hsplit.2.2
    have hb : s._connected = true := hopen
    rw [hb] at hs
    subst hs
    have hc : conf0 = conf := by simpa [gateway] using hconf
    subst hc
    have he : errors0 = errors := by simpa [gateway] using herrors
    subst he
    rw [storeDataEventError_open qb conn conf0 errors0 events0 a msg time quality traits r1 r2
      hassert hex, hnew, hins]
    rfl

/-- C23 at a sample: the attribute is known, the event and the message are new and the store
rejects their insert. -/
theorem missing_in_both_unreachable_witness :
    (storeHistoryEvent sampleQueryBuilder (gateway true sampleConnection ⟨[("a", 7)]⟩ ⟨[]⟩ ⟨[]⟩)
        "a" "pause" (.failed "rejected") (.result [])).1
      = .raised (storageError
          ("The event [" ++ "pause" ++ "] for attribute [" ++ "a" ++ "] was not saved.")
          (LOCATION_INFO "storeEvent"))
    ∧ (storeDataEventError sampleQueryBuilder
        (gateway true sampleConnection ⟨[("a", 7)]⟩ ⟨[]⟩ ⟨[]⟩) "a" ⟨1⟩ 1 "fault" ⟨0, 0, 5⟩
        (.failed "rejected") (.result [])).1
      = .raised (storageError
          ("The error string [" ++ "fault" ++ "] for attribute [" ++ "a" ++ "] was not saved")
          (LOCATION_INFO "storeErrorMsg")) :=
  ⟨(missing_in_both_unreachable sampleQueryBuilder
      (gateway true sampleConnection ⟨[("a", 7)]⟩ ⟨[]⟩ ⟨[]⟩) "a" "pause" "fault" ⟨1⟩ 1 ⟨0, 0, 5⟩
      (.failed "rejected") (.result [])).2.2.2.1 ⟨[("a", 7)]⟩ ⟨[]⟩ "rejected"
      (by decide) (by decide) rfl (by decide) rfl (by decide) (by decide),
    (missing_in_both_unreachable sampleQueryBuilder
      (gateway true sampleConnection ⟨[("a", 7)]⟩ ⟨[]⟩ ⟨[]⟩) "a" "pause" "fault" ⟨1⟩ 1 ⟨0, 0, 5⟩
      (.failed "rejected") (.result [])).2.2.2.2 ⟨[("a", 7)]⟩ ⟨[]⟩ "rejected"
      (by decide) (by decide) rfl (by decide) rfl (by decide) (by decide)⟩

/-! ## A fact insert that fails after a new dimension row -/

theorem storeHistoryEvent_failed_fact (qb : QueryBuilder) (conn : Connection)
    (conf errors events : ColumnCache) (a event what : String) (id new_id : Int)
    (r1 r2 : TxReply)
    (hassert : storeHistoryEvent_asserts (gateway true conn conf errors events) a event = true)
    (hid : conf.value a = some id) (hnew : events.valueExists event = false)
    (hdim : insertedId r1.rows = .value new_id)
    (hfact : exec_prepared0 r2.rows = .threw what) :
    storeHistoryEvent qb (gateway true conn conf errors events) a event r1 r2
      = (.raised (storageError
            ("The attribute [" ++ a ++ "] event [" ++ event ++ "] was not saved.")
            (LOCATION_INFO "storeHistoryEvent")),
          gateway true
            (transaction
              (transaction conn qb.StoreHistoryString qb.storeHistoryStringQuery
                (some [.text event]) r1).1
              qb.StoreHistoryEvent qb.storeHistoryEventQuery
              (some [.int id, .text event]) r2).1
            conf errors (events.cacheValue new_id event)) := by
  rw [storeHistoryEvent_open qb conn conf errors events a event r1 r2 hassert
    (valueExists_of_value hid), hnew, hdim]
  simp only [Bool.false_eq_true, if_false]
  rw [storeHistoryEvent_insert_gateway qb true _ conf errors _ a event r2 id hid, hfact]
  rfl

theorem storeDataEventError_failed_fact (qb : QueryBuilder) (conn : Connection)
    (conf errors events : ColumnCache) (a msg what : String) (time : Double) (quality : Int)
    (traits : AttributeTraits) (id new_id : Int) (r1 r2 : TxReply)
    (hassert : storeDataEventError_asserts (gateway true conn conf errors events) a msg = true)
    (hid : conf.value a = some id) (hnew : errors.valueExists msg = false)
    (hdim : insertedId r1.rows = .value new_id)
    (hfact : exec_prepared0 r2.rows = .threw what) :
    storeDataEventError qb (gateway true conn conf errors events) a time quality msg traits
        r1 r2
      = (.raised (storageError
            ("The attribute [" ++ a ++ "] error message [" ++ msg ++ "] was not saved.")
            (LOCATION_INFO "storeDataEventError")),
          gateway true
            (transaction
              (transaction conn qb.StoreErrorString qb.storeErrorQuery (some [.text msg]) r1).1
              (qb.storeDataEventErrorName traits) (qb.storeDataEventErrorQuery traits)
              (some [.int id, .real time, .int quality, .int new_id]) r2).1
            conf (errors.cacheValue new_id msg) events) := by
  rw [storeDataEventError_open qb conn conf errors events a msg time quality traits r1 r2
    hassert (valueExists_of_value hid), hnew, hdim]
  simp only [Bool.false_eq_true, if_false]
  rw [storeDataEventError_insert_gateway qb true _ conf _ events a msg time quality traits r2
    id new_id hid (ColumnCache.value_cacheValue_self _ _ _), hfact]
  rfl

/-- C25: on a connected gateway that knows the attribute (with id `id`), let the insert of a
new event string (respectively error string) hand back `new_id` and the fact insert after it
fail.  Then the call ends with the Storage Error of the fact insert; the cache holds the new
string with `new_id` afterwards; the insert of the string stays among the statements sent,
followed by at most the fact insert, and nothing is sent to take it back; and the same call
made again, however the store replies, sends at most one fact insert and no insert of the
string. -/
theorem failed_fact_keeps_dimension (qb : QueryBuilder) (s : DbConnection)
    (conf errors events : ColumnCache) (a event msg what : String) (time : Double)
    (quality : Int) (traits : AttributeTraits) (id new_id : Int) (r1 r2 r3 r4 : TxReply)
    (hopen : isOpen s = true) (hconf : s._conf_id_cache = some conf)
    (hid : conf.value a = some id)
    (hdim : insertedId r1.rows = .value new_id)
    (hfact : exec_prepared0 r2.rows = .threw what) :
    (storeHistoryEvent_asserts s a event = true → s._event_id_cache = some events →
      events.valueExists event = false →
      (storeHistoryEvent qb s a event r1 r2).1
          = .raised (storageError
              ("The attribute [" ++ a ++ "] event [" ++ event ++ "] was not saved.")
              (LOCATION_INFO "storeHistoryEvent"))
      ∧ (storeHistoryEvent qb s a event r1 r2).2._event_id_cache
          = some (events.cacheValue new_id event)
      ∧ cachedId (storeHistoryEvent qb s a event r1 r2).2._event_id_cache event = some new_id
      ∧ (∃ fact, (fact = [] ∨ fact = [(qb.StoreHistoryEvent, [.int id, .text event])])
          ∧ sent (storeHistoryEvent qb s a event r1 r2).2
              = sent s ++ (qb.StoreHistoryString, [.text event]) :: fact)
      ∧ (∃ fact, (fact = [] ∨ fact = [(qb.StoreHistoryEvent, [.int id, .text event])])
          ∧ sent (storeHistoryEvent qb (storeHistoryEvent qb s a event r1 r2).2 a event
                r3 r4).2
              = sent (storeHistoryEvent qb s a event r1 r2).2 ++ fact))
    ∧ (storeDataEventError_asserts s a msg = true → s._error_desc_id_cache = some errors →
      errors.valueExists msg = false →
      (storeDataEventError qb s a time quality msg traits r1 r2).1
          = .raised (storageError
              ("The attribute [" ++ a ++ "] error message [" ++ msg ++ "] was not saved.")
              (LOCATION_INFO "storeDataEventError"))
      ∧ (storeDataEventError qb s a time quality msg traits r1 r2).2._error_desc_id_cache
          = some (errors.cacheValue new_id msg)
      ∧ cachedId (storeDataEventError qb s a time quality msg traits r1 r2).2._error_desc_id_cache
          msg = some new_id
      ∧ (∃ fact, (fact = [] ∨ fact = [(qb.storeDataEventErrorName traits,
              [.int id, .real time, .int quality, .int new_id])])
          ∧ sent (storeDataEventError qb s a time quality msg traits r1 r2).2
              = sent s ++ (qb.StoreErrorString, [.text msg]) :: fact)
      ∧ (∃ fact, (fact = [] ∨ fact = [(qb.storeDataEventErrorName traits,
              [.int id, .real time, .int quality, .int new_id])])
          ∧ sent (storeDataEventError qb
                (storeDataEventError qb s a time quality msg traits r1 r2).2 a time quality msg
                traits r3 r4).2
              = sent (storeDataEventError qb s a time quality msg traits r1 r2).2 ++ fact)) := by
  have hb : s._connected = true := hopen
  have hex := valueExists_of_value hid
  constructor
  · intro hassert hevents hnew
    have hsplit := (storeHistoryEvent_asserts_iff _ _ _).mp hassert
    obtain ⟨conn, conf0, errors0, events0, hs⟩ := eq_gateway_of_membersSet s hsplit.2.2
    rw [hb] at hs
    subst hs
    have hc : conf0 = conf := by simpa [gateway] using hconf
    subst hc
    have he : events0 = events := by simpa [gateway] using hevents
    subst he
    have hpost := storeHistoryEvent_failed_fact qb conn conf0 errors0 events0 a event what id
      new_id r1 r2 hassert hid hnew hdim hfact
    have hx := transaction_executed_of_insertedId conn qb.StoreHistoryString
      qb.storeHistoryStringQuery [.text event] r1 new_id hdim
    have hassert1 : ∀ c ev, storeHistoryEvent_asserts (gateway true c conf0 errors0 ev) a event
        = true := fun c ev => (storeHistoryEvent_asserts_iff _ _ _).mpr
      ⟨hsplit.1, hsplit.2.1, membersSet_gateway _ _ _ _ _⟩
    rw [hpost]
    refine ⟨rfl, rfl, ColumnCache.value_cacheValue_self _ _ _, ?_, ?_⟩
    · rcases transaction_executed_cases
        (transaction conn qb.StoreHistoryString qb.storeHistoryStringQuery
          (some [.text event]) r1).1
        qb.StoreHistoryEvent qb.storeHistoryEventQuery [.int id, .text event] r2 with h | h
      · exact ⟨[], Or.inl rfl, by simp only [sent_gateway, h, hx]⟩
      · exact ⟨_, Or.inr rfl, by simp only [sent_gateway, h, hx, List.append_assoc,
          List.singleton_append]⟩
    · simp only []
      rw [storeHistoryEvent_open qb _ conf0 errors0 _ a event r3 r4 (hassert1 _ _) hex,
        ColumnCache.valueExists_cacheValue_self]
      simp only [if_true]
      rcases (storeHistoryEvent_insert_sent qb true
        (transaction
          (transaction conn qb.StoreHistoryString qb.storeHistoryStringQuery
            (some [.text event]) r1).1
          qb.StoreHistoryEvent qb.storeHistoryEventQuery (some [.int id, .text event]) r2).1
        conf0 errors0 (events0.cacheValue new_id event) a event r4 id hid).2.2 with h | h
      · exact ⟨[], Or.inl rfl, by rw [h, sent_gateway, List.append_nil]⟩
      · exact ⟨_, Or.inr rfl, by rw [h, sent_gateway]⟩
  · intro hassert herrors hnew
    have hsplit := (storeDataEventError_asserts_iff _ _ _).mp hassert
    obtain ⟨conn, conf0, errors0, events0, hs⟩ := eq_gateway_of_membersSet s hsplit.2.2
    rw [hb] at hs
    subst hs
    have hc : conf0 = conf := by simpa [gateway] using hconf
    subst hc
    have he : errors0 = errors := by simpa [gateway] using herrors
    subst he
    have hpost := storeDataEventError_failed_fact qb conn conf0 errors0 events0 a msg what time
      quality traits id new_id r1 r2 hassert hid hnew hdim hfact
    have hx := transaction_executed_of_insertedId conn qb.StoreErrorString
      qb.storeErrorQuery [.text msg] r1 new_id hdim
    have hassert1 : ∀ c er, storeDataEventError_asserts (gateway true c conf0 er events0) a msg
        = true := fun c er => (storeDataEventError_asserts_iff _ _ _).mpr
      ⟨hsplit.1, hsplit.2.1, membersSet_gateway _ _ _ _ _⟩
    rw [hpost]
    refine ⟨rfl, rfl, ColumnCache.value_cacheValue_self _ _ _, ?_, ?_⟩
    · rcases transaction_executed_cases
        (transaction conn qb.StoreErrorString qb.storeErrorQuery (some [.text msg]) r1).1
        (qb.storeDataEventErrorName traits) (qb.storeDataEventErrorQuery traits)
        [.int id, .real time, .int quality, .int new_id] r2 with h | h
      · exact ⟨[], Or.inl rfl, by simp only [sent_gateway, h, hx]⟩
      · exact ⟨_, Or.inr rfl, by simp only [sent_gateway, h, hx, List.append_assoc,
          List.singleton_append]⟩
    · simp only []
      rw [storeDataEventError_open qb _ conf0 _ events0 a msg time quality traits r3 r4
        (hassert1 _ _) hex, ColumnCache.valueExists_cacheValue_self]
      simp only [if_true]
      rcases (storeDataEventError_insert_sent qb true
        (transaction
          (transaction conn qb.StoreErrorString qb.storeErrorQuery (some [.text msg]) r1).1
          (qb.storeDataEventErrorName traits) (qb.storeDataEventErrorQuery traits)
          (some [.int id, .real time, .int quality, .int new_id]) r2).1
        conf0 (errors0.cacheValue new_id msg) events0 a msg time quality traits r4 id new_id hid
        (ColumnCache.value_cacheValue_self _ _ _)).2.2 with h | h
      · exact ⟨[], Or.inl rfl, by rw [h, sent_gateway, List.append_nil]⟩
      · exact ⟨_, Or.inr rfl, by rw [h, sent_gateway]⟩

/-- C25 at a sample: the attribute has id 7, the new string gets id 3, the store rejects the
fact insert; the cache holds the new string afterwards. -/
theorem failed_fact_keeps_dimension_witness :
    cachedId (storeHistoryEvent sampleQueryBuilder
        (gateway true sampleConnection ⟨[("a", 7)]⟩ ⟨[]⟩ ⟨[]⟩) "a" "pause"
        (.result [[some "3"]]) (.failed "rejected")).2._event_id_cache "pause" = some 3
    ∧ cachedId (storeDataEventError sampleQueryBuilder
        (gateway true sampleConnection ⟨[("a", 7)]⟩ ⟨[]⟩ ⟨[]⟩) "a" ⟨1⟩ 1 "fault" ⟨0, 0, 5⟩
        (.result [[some "3"]]) (.failed "rejected")).2._error_desc_id_cache "fault" = some 3 :=
  have h := failed_fact_keeps_dimension sampleQueryBuilder
    (gateway true sampleConnection ⟨[("a", 7)]⟩ ⟨[]⟩ ⟨[]⟩) ⟨[("a", 7)]⟩ ⟨[]⟩ ⟨[]⟩
    "a" "pause" "fault" "rejected" ⟨1⟩ 1 ⟨0, 0, 5⟩ 7 3
    (.result [[some "3"]]) (.failed "rejected") (.result [[some "3"]]) (.failed "rejected")
    (by decide) rfl (by decide) (by decide) (by decide)
  ⟨(h.1 (by decide) rfl (by decide)).2.2.1, (h.2 (by decide) rfl (by decide)).2.2.1⟩

/-! ## The number of rows of the last history event -/

/-- C27: on a connected gateway that knows the attribute, when the store answers the query
of `fetchLastHistoryEvent` with rows: for exactly one row whose first column holds the text
`ev` the call returns `ev`; for every other number of rows, none or two or more, it returns
the empty string and raises nothing; and for exactly one row that has no first column or a
null in it, the conversion fails and the call raises the Storage Error. -/
theorem fetchLastHistoryEvent_row_count (qb : QueryBuilder) (s : DbConnection)
    (conf : ColumnCache) (a : String) (id : Int) (rows : List Row)
    (hassert : fetchLastHistoryEvent_asserts s a = true) (hopen : isOpen s = true)
    (hconf : s._conf_id_cache = some conf) (hid : conf.value a = some id) :
    (∀ ev rest, rows = [some ev :: rest] →
      (fetchLastHistoryEvent qb s a (.result rows)).1 = .returned ev)
    ∧ (rows.length ≠ 1 → (fetchLastHistoryEvent qb s a (.result rows)).1 = .returned "")
    ∧ (∀ row what, rows = [row] → rowAt0AsString row = .threw what →
      (fetchLastHistoryEvent qb s a (.result rows)).1
        = .raised (storageError ("Can not return last event for attribute [" ++ a ++ "].")
            (LOCATION_INFO "fetchLastHistoryEvent"))) := by
  have hsplit := (fetchLastHistoryEvent_asserts_iff _ _).mp hassert
  obtain ⟨conn, conf0, errors, events, hs⟩ := eq_gateway_of_membersSet s hsplit.2
  have hb : s._connected = true := hopen
  rw [hb] at hs
  subst hs
  have hc : conf0 = conf := by simpa [gateway] using hconf
  subst hc
  rw [fetchLastHistoryEvent_open qb conn conf0 errors events a (.result rows) id hassert hid]
  refine ⟨?_, ?_, ?_⟩
  · intro ev rest hrows
    subst hrows
    rfl
  · intro hlen
    cases rows with
    | nil => rfl
    | cons r rs =>
      cases rs with
      | nil => simp at hlen
      | cons r2 rs2 => rfl
  · intro row what hrows hthrew
    subst hrows
    simp only [TxReply.rows, lastEventOf, hthrew]
    rfl

/-- C27 at a sample: one row, two rows, no row, and one row with a null. -/
theorem fetchLastHistoryEvent_row_count_witness :
    (fetchLastHistoryEvent sampleQueryBuilder
        (gateway true sampleConnection ⟨[("a", 7)]⟩ ⟨[]⟩ ⟨[]⟩) "a"
        (.result [[some "pause"]])).1 = .returned "pause"
    ∧ (fetchLastHistoryEvent sampleQueryBuilder
        (gateway true sampleConnection ⟨[("a", 7)]⟩ ⟨[]⟩ ⟨[]⟩) "a"
        (.result [[some "pause"], [some "start"]])).1 = .returned ""
    ∧ (fetchLastHistoryEvent sampleQueryBuilder
        (gateway true sampleConnection ⟨[("a", 7)]⟩ ⟨[]⟩ ⟨[]⟩) "a" (.result [])).1
      = .returned ""
    ∧ (fetchLastHistoryEvent sampleQueryBuilder
        (gateway true sampleConnection ⟨[("a", 7)]⟩ ⟨[]⟩ ⟨[]⟩) "a" (.result [[none]])).1
      = .raised (storageError ("Can not return last event for attribute [" ++ "a" ++ "].")
          (LOCATION_INFO "fetchLastHistoryEvent")) :=
  ⟨(fetchLastHistoryEvent_row_count sampleQueryBuilder
      (gateway true sampleConnection ⟨[("a", 7)]⟩ ⟨[]⟩ ⟨[]⟩) ⟨[("a", 7)]⟩ "a" 7
      [[some "pause"]] (by decide) (by decide) rfl (by decide)).1 "pause" [] rfl,
    (fetchLastHistoryEvent_row_count sampleQueryBuilder
      (gateway true sampleConnection ⟨[("a", 7)]⟩ ⟨[]⟩ ⟨[]⟩) ⟨[("a", 7)]⟩ "a" 7
      [[some "pause"], [some "start"]] (by decide) (by decide) rfl (by decide)).2.1
      (by decide),
    (fetchLastHistoryEvent_row_count sampleQueryBuilder
      (gateway true sampleConnection ⟨[("a", 7)]⟩ ⟨[]⟩ ⟨[]⟩) ⟨[("a", 7)]⟩ "a" 7
      [] (by decide) (by decide) rfl (by decide)).2.1 (by decide),
    (fetchLastHistoryEvent_row_count sampleQueryBuilder
      (gateway true sampleConnection ⟨[("a", 7)]⟩ ⟨[]⟩ ⟨[]⟩) ⟨[("a", 7)]⟩ "a" 7
      [[none]] (by decide) (by decide) rfl (by decide)).2.2 [none] "conversion_error" rfl rfl⟩

/-! ## The field scan on an arbitrary text -/

theorem fieldsOf_nil : fieldsOf [] = [] := by
  simp [fieldsOf, List.splitOn, List.splitOnP_nil]

theorem fieldsOf_comma_cons (t : Text) : fieldsOf (',' :: t) = fieldsOf t := by
  simp [fieldsOf, List.splitOn, List.splitOnP_cons]

theorem fieldsOf_commas_append (sepc t : Text) (hs : ∀ c ∈ sepc, c = ',') :
    fieldsOf (sepc ++ t) = fieldsOf t := by
  induction sepc with
  | nil => rfl
  | cons c cs ih =>
    have hc : c = ',' := hs c (List.mem_cons_self _ _)
    subst hc
    rw [List.cons_append, fieldsOf_comma_cons]
    exact ih (fun c hc => hs c (List.mem_cons_of_mem _ hc))

theorem fieldsOf_last_field (f : Text) (hne : f ≠ []) (hf : ∀ c ∈ f, c ≠ ',') :
    fieldsOf f = [f] := by
  have h : f.splitOn ',' = [f] := by
    unfold List.splitOn
    exact List.splitOnP_eq_single _ _ (fun c hc => by simpa using hf c hc)
  cases f with
  | nil => exact absurd rfl hne
  | cons c cs => simp [fieldsOf, h]

theorem fieldsOf_inner_field (f t : Text) (hne : f ≠ []) (hf : ∀ c ∈ f, c ≠ ',') :
    fieldsOf (f ++ ',' :: t) = f :: fieldsOf t := by
  have h : (f ++ ',' :: t).splitOn ',' = f :: t.splitOn ',' := by
    unfold List.splitOn
    exact List.splitOnP_first _ _ (fun c hc => by simpa using hf c hc) ',' (by simp) t
  cases f with
  | nil => exact absurd rfl hne
  | cons c cs =>
    rw [List.cons_append] at h
    simp [fieldsOf, h]

theorem splitOn_length (inp : Text) : (inp.splitOn ',').length = inp.count ',' + 1 := by
  induction inp with
  | nil => simp [List.splitOn, List.splitOnP_nil]
  | cons c cs ih =>
    unfold List.splitOn at ih ⊢
    rw [List.splitOnP_cons]
    by_cases hc : c = ','
    · subst hc
      simp [ih]
    · have hne : (c == ',') = false := by simpa using hc
      simp [hne, ih, List.count_cons, hc]

theorem fieldsOf_length_le (inp : Text) : (fieldsOf inp).length ≤ inp.count ',' + 1 := by
  rw [← splitOn_length]
  exact List.length_filter_le _ _

theorem leading_commas (s : Text) :
    ∃ sepc rest, s = sepc ++ rest ∧ (∀ c ∈ sepc, c = ',')
      ∧ (rest = [] ∨ ∃ c0 r, rest = c0 :: r ∧ c0 ≠ ',') := by
  induction s with
  | nil => exact ⟨[], [], rfl, by simp, Or.inl rfl⟩
  | cons c cs ih =>
    by_cases hc : c = ','
    · obtain ⟨sepc, rest, hcs, hs, hrest⟩ := ih
      refine ⟨c :: sepc, rest, by rw [hcs]; rfl, ?_, hrest⟩
      intro x hx
      rcases List.mem_cons.mp hx with h | h
      · rw [h, hc]
      · exact hs x h
    · exact ⟨[], c :: cs, rfl, by simp, Or.inr ⟨c, cs, rfl, hc⟩⟩

theorem leading_field (s : Text) :
    ∃ f rest, s = f ++ rest ∧ (∀ c ∈ f, c ≠ ',') ∧ (rest = [] ∨ ∃ t, rest = ',' :: t) := by
  induction s with
  | nil => exact ⟨[], [], rfl, by simp, Or.inl rfl⟩
  | cons c cs ih =>
    by_cases hc : c = ','
    · exact ⟨[], c :: cs, rfl, by simp, Or.inr ⟨cs, by rw [hc]⟩⟩
    · obtain ⟨f, rest, hcs, hf, hrest⟩ := ih
      refine ⟨c :: f, rest, by rw [hcs]; rfl, ?_, hrest⟩
      intro x hx
      rcases List.mem_cons.mp hx with h | h
      · rw [h]; exact hc
      · exact hf x h
theorem scan_step (inp pre s : Text) (hinp : inp = pre ++ s) :
    (find_first_not_of inp ',' (some pre.length) = none ∧ fieldsOf s = [])
    ∨ ∃ sepc f, f ≠ [] ∧ (∀ c ∈ f, c ≠ ',')
        ∧ find_first_not_of inp ',' (some pre.length) = some (pre ++ sepc).length
        ∧ ((s = sepc ++ f
            ∧ find_first_of inp ',' (some (pre ++ sepc).length) = none
            ∧ substr inp (pre ++ sepc).length none = f
            ∧ fieldsOf s = [f])
          ∨ ∃ t, s = sepc ++ (f ++ ',' :: t)
            ∧ find_first_of inp ',' (some (pre ++ sepc).length)
                = some (pre ++ sepc ++ f).length
            ∧ substr inp (pre ++ sepc).length (some (pre ++ sepc ++ f).length) = f
            ∧ fieldsOf s = f :: fieldsOf (',' :: t)) := by
  obtain ⟨sepc, rest, hs, hsepc, hrest⟩ := leading_commas s
  rcases hrest with hnil | ⟨c0, r, hr, hc0⟩
  · left
    subst hnil
    rw [List.append_nil] at hs
    subst hs
    refine ⟨?_, ?_⟩
    · rw [hinp]
      simp only [find_first_not_of, List.drop_left]
      exact firstIndex_of_all_false _ _ _ (fun c hc => by simp [hsepc c hc])
    · have h := fieldsOf_commas_append s [] hsepc
      rw [List.append_nil] at h
      rw [h, fieldsOf_nil]
  · right
    obtain ⟨f, rest2, hf, hcf, hrest2⟩ := leading_field rest
    obtain ⟨f0, hf0⟩ : ∃ f0, f = c0 :: f0 := by
      cases f with
      | nil =>
        rw [List.nil_append] at hf
        rcases hrest2 with h | ⟨t, h⟩
        · rw [hf, h] at hr
          exact absurd hr (by simp)
        · rw [hf, h] at hr
          exact absurd (List.cons.inj hr).1.symm hc0
      | cons c f0 =>
        rw [hf, List.cons_append] at hr
        exact ⟨f0, by rw [(List.cons.inj hr).1]⟩
    have hne : f ≠ [] := by rw [hf0]; simp
    have hstart : find_first_not_of inp ',' (some pre.length) = some (pre ++ sepc).length := by
      rw [hinp, hs, hf, hf0, List.length_append]
      exact find_first_not_of_field pre sepc (f0 ++ rest2) c0 hsepc hc0
    refine ⟨sepc, f, hne, hcf, hstart, ?_⟩
    rcases hrest2 with hnil | ⟨t, ht⟩
    · left
      subst hnil
      rw [List.append_nil] at hf
      subst hf
      have hinp2 : inp = (pre ++ sepc) ++ rest := by rw [hinp, hs, List.append_assoc]
      refine ⟨hs, ?_, ?_, ?_⟩
      · rw [hinp2]
        exact find_first_of_last_field (pre ++ sepc) rest hcf
      · rw [hinp2]
        exact substr_last_field (pre ++ sepc) rest
      · rw [hs, fieldsOf_commas_append _ _ hsepc, fieldsOf_last_field rest hne hcf]
    · right
      subst ht
      subst hf
      have hinp2 : inp = (pre ++ sepc) ++ (f ++ ',' :: t) := by
        rw [hinp, hs, List.append_assoc]
      refine ⟨t, hs, ?_, ?_, ?_⟩
      · rw [hinp2, List.length_append (pre ++ sepc) f]
        exact find_first_of_inner_field (pre ++ sepc) f t hcf
      · rw [hinp2, List.length_append (pre ++ sepc) f]
        exact substr_inner_field (pre ++ sepc) f t
      · rw [hs, fieldsOf_commas_append _ _ hsepc, fieldsOf_inner_field f t hne hcf,
          fieldsOf_comma_cons]

theorem from_string_loop_scan {T : Type} (dec : Text → Converted T) (inp : Text) :
    ∀ (fuel : Nat) (pre s : Text) (done pad : List T),
      inp = pre ++ s → s.length < fuel → (fieldsOf s).length ≤ pad.length →
      string_traits_vector.from_string_loop dec inp fuel (some pre.length) done.length
          (done ++ pad)
        = some ((parseFields dec (fieldsOf s)).map
            (fun xs => done ++ xs ++ pad.drop xs.length)) := by
  intro fuel
  induction fuel with
  | zero => intro pre s done pad _ h; omega
  | succ n ih =>
    intro pre s done pad hinp hfuel hpad
    rcases scan_step inp pre s hinp with ⟨hnone, hf⟩
      | ⟨sepc, f, hne, hcf, hstart, ⟨hs, hnext, hsub, hfields⟩
          | ⟨t, hs, hnext, hsub, hfields⟩⟩
    · rw [string_traits_vector.from_string_loop]
      simp only [hnone, hf, parseFields, Converted.map]
      simp
    · rw [hfields] at hpad
      obtain ⟨p, pad1, rfl⟩ : ∃ p pad1, pad = p :: pad1 := by
        cases pad with
        | nil => simp at hpad
        | cons p pad1 => exact ⟨p, pad1, rfl⟩
      have hlen : 1 ≤ s.length := by
        rw [hs, List.length_append]
        have := List.length_pos.mpr hne
        omega
      obtain ⟨m, rfl⟩ : ∃ m, n = m + 1 := ⟨n - 1, by omega⟩
      rw [string_traits_vector.from_string_loop]
      simp only [hstart, hnext, hsub, hfields]
      rw [if_pos (by simp)]
      cases hdec : dec f with
      | value x =>
        simp only []
        rw [string_traits_vector.from_string_loop]
        simp [find_first_not_of, set_at_length, parseFields, hdec, Converted.map]
      | threw what => simp [parseFields, hdec, Converted.map]
      | undefined => simp [parseFields, hdec, Converted.map]
    · rw [hfields] at hpad
      obtain ⟨p, pad1, rfl⟩ : ∃ p pad1, pad = p :: pad1 := by
        cases pad with
        | nil => simp at hpad
        | cons p pad1 => exact ⟨p, pad1, rfl⟩
      have hlen : (',' :: t).length < n := by
        rw [hs] at hfuel
        simp only [List.length_append, List.length_cons] at hfuel ⊢
        have := List.length_pos.mpr hne
        omega
      rw [string_traits_vector.from_string_loop]
      simp only [hstart, hnext, hsub, hfields]
      rw [if_pos (by simp)]
      cases hdec : dec f with
      | value x =>
        have h := ih (pre ++ sepc ++ f) (',' :: t) (done ++ [x]) pad1
          (by rw [hinp, hs]; simp) hlen (by simp at hpad; omega)
        simp only [List.length_append done, List.length_singleton, List.append_assoc done,
          List.singleton_append] at h
        simp only [set_at_length]
        rw [h]
        simp only [parseFields, hdec]
        cases parseFields dec (fieldsOf (',' :: t)) <;> simp [Converted.map]
      | threw what => simp [parseFields, hdec, Converted.map]
      | undefined => simp [parseFields, hdec, Converted.map]

theorem from_string_bool_loop_scan (dec : Text → Converted Bool) (inp : Text) :
    ∀ (fuel : Nat) (pre s : Text) (done : List Bool),
      inp = pre ++ s → s.length < fuel →
      string_traits_vector_bool.from_string_loop dec inp fuel (some pre.length) done
        = some ((parseFields dec (fieldsOf s)).map (fun xs => done ++ xs)) := by
  intro fuel
  induction fuel with
  | zero => intro pre s done _ h; omega
  | succ n ih =>
    intro pre s done hinp hfuel
    rcases scan_step inp pre s hinp with ⟨hnone, hf⟩
      | ⟨sepc, f, hne, hcf, hstart, ⟨hs, hnext, hsub, hfields⟩
          | ⟨t, hs, hnext, hsub, hfields⟩⟩
    · rw [string_traits_vector_bool.from_string_loop]
      simp only [hnone, hf, parseFields, Converted.map]
      simp
    · have hlen : 1 ≤ s.length := by
        rw [hs, List.length_append]
        have := List.length_pos.mpr hne
        omega
      obtain ⟨m, rfl⟩ : ∃ m, n = m + 1 := ⟨n - 1, by omega⟩
      rw [string_traits_vector_bool.from_string_loop]
      simp only [hstart, hnext, hsub, hfields]
      cases hdec : dec f with
      | value x =>
        simp only []
        rw [string_traits_vector_bool.from_string_loop]
        simp [find_first_not_of, parseFields, hdec, Converted.map]
      | threw what => simp [parseFields, hdec, Converted.map]
      | undefined => simp [parseFields, hdec, Converted.map]
    · have hlen : (',' :: t).length < n := by
        rw [hs] at hfuel
        simp only [List.length_append, List.length_cons] at hfuel ⊢
        have := List.length_pos.mpr hne
        omega
      rw [string_traits_vector_bool.from_string_loop]
      simp only [hstart, hnext, hsub, hfields]
      cases hdec : dec f with
      | value x =>
        have h := ih (pre ++ sepc ++ f) (',' :: t) (done ++ [x])
          (by rw [hinp, hs]; simp) hlen
        simp only []
        rw [h]
        simp only [parseFields, hdec]
        cases parseFields dec (fieldsOf (',' :: t)) <;> simp [Converted.map]
      | threw what => simp [parseFields, hdec, Converted.map]
      | undefined => simp [parseFields, hdec, Converted.map]
theorem parseFields_length {T : Type} (dec : Text → Converted T) :
    ∀ (fs : List Text) (xs : List T), parseFields dec fs = .value xs → xs.length = fs.length := by
  intro fs
  induction fs with
  | nil =>
    intro xs h
    simp only [parseFields, Converted.value.injEq] at h
    subst h
    rfl
  | cons f fs ih =>
    intro xs h
    simp only [parseFields] at h
    cases hdec : dec f with
    | value x =>
      rw [hdec] at h
      cases hrest : parseFields dec fs with
      | value ys =>
        rw [hrest] at h
        simp only [Converted.value.injEq] at h
        rw [← h, List.length_cons, List.length_cons, ih ys hrest]
      | threw what => rw [hrest] at h; simp at h
      | undefined => rw [hrest] at h; simp at h
    | threw what => rw [hdec] at h; simp at h
    | undefined => rw [hdec] at h; simp at h

theorem parseFields_ne_undefined {T : Type} (dec : Text → Converted T)
    (hdec : ∀ t, dec t ≠ .undefined) : ∀ fs : List Text, parseFields dec fs ≠ .undefined := by
  intro fs
  induction fs with
  | nil => simp [parseFields]
  | cons f fs ih =>
    simp only [parseFields]
    cases hf : dec f with
    | value x =>
      cases hrest : parseFields dec fs with
      | value ys => simp
      | threw what => simp
      | undefined => exact absurd hrest ih
    | threw what => simp
    | undefined => exact absurd hf (hdec f)

theorem from_string_loop_any_fuel {T : Type} (dec : Text → Converted T) (dflt : T)
    (inp : Text) (fuel : Nat) (hfuel : inp.length < fuel) :
    string_traits_vector.from_string_loop dec inp fuel (some 0) 0
        (List.replicate (inp.count ',' + 1) dflt)
      = some ((parseFields dec (fieldsOf inp)).map
          (fun xs => xs ++ List.replicate (inp.count ',' + 1 - xs.length) dflt)) := by
  have h := from_string_loop_scan dec inp fuel [] inp [] (List.replicate (inp.count ',' + 1) dflt)
    rfl hfuel (by rw [List.length_replicate]; exact fieldsOf_length_le inp)
  simp only [List.length_nil, List.nil_append, List.drop_replicate] at h
  exact h

theorem from_string_bool_loop_any_fuel (dec : Text → Converted Bool) (inp : Text) (fuel : Nat)
    (hfuel : inp.length < fuel) :
    string_traits_vector_bool.from_string_loop dec inp fuel (some 0) []
      = some (parseFields dec (fieldsOf inp)) := by
  have h := from_string_bool_loop_scan dec inp fuel [] inp [] rfl hfuel
  simp only [List.length_nil, List.nil_append] at h
  rw [h]
  cases parseFields dec (fieldsOf inp) <;> rfl

theorem from_string_eq {T : Type} (dec : Text → Converted T) (dflt : T) (str : Text)
    (h : bracesOk str = true) :
    string_traits_vector.from_string dec dflt (some str)
      = some ((parseFields dec (fieldsOf (innerText str))).map
          (fun xs => xs ++ List.replicate ((innerText str).count ',' + 1 - xs.length) dflt)) := by
  simp only [string_traits_vector.from_string, h, Bool.not_true, Bool.false_eq_true, if_false]
  exact from_string_loop_any_fuel dec dflt (innerText str) _ (Nat.lt_succ_self _)

theorem from_string_bool_eq (dec : Text → Converted Bool) (str : Text)
    (h : bracesOk str = true) :
    string_traits_vector_bool.from_string dec (some str)
      = some (parseFields dec (fieldsOf (innerText str))) := by
  simp only [string_traits_vector_bool.from_string, h, Bool.not_true, Bool.false_eq_true,
    if_false]
  exact from_string_bool_loop_any_fuel dec (innerText str) _ (Nat.lt_succ_self _)

theorem firstIndex_some (p : Char → Bool) :
    ∀ (l : Text) (i j : Nat), firstIndex p l i = some j →
      i ≤ j ∧ ∃ c, l[j - i]? = some c ∧ p c = true := by
  intro l
  induction l with
  | nil => intro i j h; simp [firstIndex] at h
  | cons c cs ih =>
    intro i j h
    simp only [firstIndex] at h
    by_cases hp : p c = true
    · rw [if_pos hp] at h
      have hij : i = j := Option.some.inj h
      subst hij
      exact ⟨Nat.le_refl _, c, by simp, hp⟩
    · rw [if_neg hp] at h
      obtain ⟨hle, c1, hget, hc1⟩ := ih (i + 1) j h
      refine ⟨by omega, c1, ?_, hc1⟩
      have hji : j - i = (j - (i + 1)) + 1 := by omega
      rw [hji, List.getElem?_cons_succ]
      exact hget

theorem find_first_not_of_some (inp : Text) (comma start : Nat)
    (h : find_first_not_of inp ',' (some comma) = some start) :
    comma ≤ start ∧ ∃ c, inp[start]? = some c ∧ c ≠ ',' := by
  simp only [find_first_not_of] at h
  obtain ⟨hle, c, hget, hc⟩ := firstIndex_some _ _ _ _ h
  refine ⟨hle, c, ?_, by simpa using hc⟩
  rw [List.getElem?_drop] at hget
  rwa [Nat.add_sub_cancel' hle] at hget

theorem find_first_of_some (inp : Text) (start next : Nat)
    (h : find_first_of inp ',' (some start) = some next) :
    start ≤ next ∧ inp[next]? = some ',' := by
  simp only [find_first_of] at h
  obtain ⟨hle, c, hget, hc⟩ := firstIndex_some _ _ _ _ h
  have hc2 : c = ',' := by simpa using hc
  refine ⟨hle, ?_⟩
  rw [List.getElem?_drop, Nat.add_sub_cancel' hle, hc2] at hget
  exact hget

theorem scan_moves_forward (inp : Text) (comma start next : Nat)
    (hstart : find_first_not_of inp ',' (some comma) = some start)
    (hnext : find_first_of inp ',' (some start) = some next) :
    comma ≤ start ∧ start < next ∧ next < inp.length := by
  obtain ⟨hle, c, hget, hc⟩ := find_first_not_of_some inp comma start hstart
  obtain ⟨hle2, hget2⟩ := find_first_of_some inp start next hnext
  refine ⟨hle, ?_, ?_⟩
  · rcases Nat.lt_or_ge start next with h | h
    · exact h
    · have heq : start = next := Nat.le_antisymm hle2 h
      rw [heq, hget2] at hget
      exact absurd (Option.some.inj hget).symm hc
  · rcases Nat.lt_or_ge next inp.length with h | h
    · exact h
    · rw [List.getElem?_eq_none h] at hget2
      exact absurd hget2 (by simp)

theorem sampleIntFromString_ne_undefined (t : Text) : sampleIntFromString t ≠ .undefined := by
  unfold sampleIntFromString
  cases textAsInt (String.mk t) <;> simp
/-! ## Decoding an arbitrary text -/

/-- C28: for every text that passes the brace check, the generic decoder ends as the element
decoder does on the non-empty comma-separated fields of the inner text, taken in order.  When
it accepts them all, giving `xs`, the decoder returns `xs` followed by default values, of
length "number of ',' in the inner text plus one"; when it rejects one, the decoder throws
what it threw.  The text "{}" gives the one-element vector that holds the default value.
The decoder of `vector<bool>` returns the parsed fields and nothing else, and the empty
vector for "{}". -/
theorem from_string_fills_from_left {T : Type} (dec : Text → Converted T) (dflt : T)
    (decb : Text → Converted Bool) (str : Text) (hbraces : bracesOk str = true) :
    (∀ xs, parseFields dec (fieldsOf (innerText str)) = .value xs →
      string_traits_vector.from_string dec dflt (some str)
          = some (.value
              (xs ++ List.replicate ((innerText str).count ',' + 1 - xs.length) dflt))
      ∧ xs.length ≤ (innerText str).count ',' + 1
      ∧ (xs ++ List.replicate ((innerText str).count ',' + 1 - xs.length) dflt).length
          = (innerText str).count ',' + 1)
    ∧ (∀ what, parseFields dec (fieldsOf (innerText str)) = .threw what →
      string_traits_vector.from_string dec dflt (some str) = some (.threw what))
    ∧ string_traits_vector.from_string dec dflt (some "{}".toList) = some (.value [dflt])
    ∧ string_traits_vector_bool.from_string decb (some str)
        = some (parseFields decb (fieldsOf (innerText str)))
    ∧ string_traits_vector_bool.from_string decb (some "{}".toList) = some (.value []) := by
  refine ⟨?_, ?_, rfl, from_string_bool_eq decb str hbraces, rfl⟩
  · intro xs hxs
    have hlen : xs.length ≤ (innerText str).count ',' + 1 := by
      rw [parseFields_length dec _ xs hxs]
      exact fieldsOf_length_le _
    refine ⟨?_, hlen, ?_⟩
    · rw [from_string_eq dec dflt str hbraces, hxs]
      rfl
    · rw [List.length_append, List.length_replicate]
      omega
  · intro what hthrew
    rw [from_string_eq dec dflt str hbraces, hthrew]
    rfl

/-- C28 at samples: "{,,5,}" gives 5 followed by three defaults, "{x}" is rejected by the
element decoder. -/
theorem from_string_fills_from_left_witness :
    string_traits_vector.from_string sampleIntFromString 0 (some "{,,5,}".toList)
      = some (.value [5, 0, 0, 0])
    ∧ string_traits_vector.from_string sampleIntFromString 0 (some "{x}".toList)
      = some (.threw "conversion_error") :=
  ⟨((from_string_fills_from_left sampleIntFromString 0 sampleBoolFromString "{,,5,}".toList
      (by decide)).1 [5] (by decide)).1,
    (from_string_fills_from_left sampleIntFromString 0 sampleBoolFromString "{x}".toList
      (by decide)).2.1 "conversion_error" (by decide)⟩

/-- C29: the number of non-empty comma-separated fields of a text never exceeds its number of
',' plus one.  So, with an element decoder that stays defined itself, the generic decoder
never writes outside the vector it has sized: on every argument it runs to its end and does
not end in undefined behaviour. -/
theorem element_writes_in_bounds {T : Type} (dec : Text → Converted T) (dflt : T)
    (str : Option Text) (hdec : ∀ t, dec t ≠ .undefined) :
    (∀ inp : Text, (fieldsOf inp).length ≤ inp.count ',' + 1)
    ∧ string_traits_vector.from_string dec dflt str ≠ none
    ∧ string_traits_vector.from_string dec dflt str ≠ some .undefined := by
  refine ⟨fieldsOf_length_le, ?_, ?_⟩
  · cases str with
    | none => simp [string_traits_vector.from_string]
    | some s =>
      cases hb : bracesOk s
      · simp [string_traits_vector.from_string, hb]
      · rw [from_string_eq dec dflt s hb]
        simp
  · cases str with
    | none => simp [string_traits_vector.from_string]
    | some s =>
      cases hb : bracesOk s
      · simp [string_traits_vector.from_string, hb]
      · rw [from_string_eq dec dflt s hb]
        have hne := parseFields_ne_undefined dec hdec (fieldsOf (innerText s))
        cases hp : parseFields dec (fieldsOf (innerText s)) with
        | value xs => simp [Converted.map]
        | threw what => simp [Converted.map]
        | undefined => exact absurd hp hne

/-- C29 at a sample: more commas than fields. -/
theorem element_writes_in_bounds_witness :
    string_traits_vector.from_string sampleIntFromString 0 (some "{,1,,2}".toList)
      ≠ some .undefined :=
  (element_writes_in_bounds sampleIntFromString 0 (some "{,1,,2}".toList)
    sampleIntFromString_ne_undefined).2.2

/-- C30: both decoders return on every argument with the fuel they give their loop, and the
loops over a text `inp` give the same result for every fuel above the length of `inp`, so
the bound cuts nothing off.  In one turn of either loop the scan position goes from `comma`
to a field start `start` at or after it and from there either to `npos` or to the next ',',
which lies strictly after `start` and inside the text; at `npos` the loop condition fails
and the loop ends. -/
theorem from_string_loops_terminate {T : Type} (dec : Text → Converted T) (dflt : T)
    (decb : Text → Converted Bool) (str : Option Text) (inp : Text) :
    (∃ r, string_traits_vector.from_string dec dflt str = some r)
    ∧ (∃ r, string_traits_vector_bool.from_string decb str = some r)
    ∧ (∀ fuel, inp.length < fuel →
        (∃ r, string_traits_vector.from_string_loop dec inp fuel (some 0) 0
              (List.replicate (inp.count ',' + 1) dflt) = some r
            ∧ string_traits_vector.from_string_loop dec inp (inp.length + 1) (some 0) 0
              (List.replicate (inp.count ',' + 1) dflt) = some r)
        ∧ ∃ r, string_traits_vector_bool.from_string_loop decb inp fuel (some 0) [] = some r
            ∧ string_traits_vector_bool.from_string_loop decb inp (inp.length + 1) (some 0) []
              = some r)
    ∧ (∀ comma start next, find_first_not_of inp ',' (some comma) = some start →
        find_first_of inp ',' (some start) = some next →
        comma ≤ start ∧ start < next ∧ next < inp.length)
    ∧ find_first_not_of inp ',' none = none
    ∧ (∀ (fuel element : Nat) (value : List T),
        string_traits_vector.from_string_loop dec inp (fuel + 1) none element value
          = some (.value value))
    ∧ (∀ (fuel : Nat) (value : List Bool),
        string_traits_vector_bool.from_string_loop decb inp (fuel + 1) none value
          = some (.value value)) := by
  refine ⟨?_, ?_, ?_, scan_moves_forward inp, rfl, fun _ _ _ => rfl, fun _ _ => rfl⟩
  · cases str with
    | none => exact ⟨_, rfl⟩
    | some s =>
      cases hb : bracesOk s
      · exact ⟨.threw "Invalid array format", by simp [string_traits_vector.from_string, hb]⟩
      · exact ⟨_, from_string_eq dec dflt s hb⟩
  · cases str with
    | none => exact ⟨_, rfl⟩
    | some s =>
      cases hb : bracesOk s
      · exact ⟨.threw "Invalid array format",
          by simp [string_traits_vector_bool.from_string, hb]⟩
      · exact ⟨_, from_string_bool_eq decb s hb⟩
  · intro fuel hfuel
    exact ⟨⟨_, from_string_loop_any_fuel dec dflt inp fuel hfuel,
        from_string_loop_any_fuel dec dflt inp _ (Nat.lt_succ_self _)⟩,
      ⟨_, from_string_bool_loop_any_fuel decb inp fuel hfuel,
        from_string_bool_loop_any_fuel decb inp _ (Nat.lt_succ_self _)⟩⟩

/-- C30 at a sample: the inner text ",,5,x" with fuel 9; the scan goes from 0 to the field
start 2 and on to the ',' at 3. -/
theorem from_string_loops_terminate_witness :
    (∃ r, string_traits_vector.from_string_loop sampleIntFromString ",,5,x".toList 9 (some 0) 0
          (List.replicate (",,5,x".toList.count ',' + 1) 0) = some r
        ∧ string_traits_vector.from_string_loop sampleIntFromString ",,5,x".toList
          (",,5,x".toList.length + 1) (some 0) 0
          (List.replicate (",,5,x".toList.count ',' + 1) 0) = some r)
    ∧ (0 ≤ 2 ∧ 2 < 3 ∧ 3 < ",,5,x".toList.length) :=
  ⟨((from_string_loops_terminate sampleIntFromString 0 sampleBoolFromString none
      ",,5,x".toList).2.2.1 9 (by decide)).1,
    (from_string_loops_terminate sampleIntFromString 0 sampleBoolFromString none
      ",,5,x".toList).2.2.2.1 0 2 3 (by decide) (by decide)⟩

end pqxx_conn
end hdbpp
